import Mathlib

/-!
# The tfdg dice-game engine (src/plugin_tfdg.c)

A shallow embedding of the room / player state machine of the plugin.

* A `struct tfdg_player` is a record; its field `addr` stands for the address of
  the struct, so that the pointer comparisons of the source
  (`room_s->round_loser != player_s`, `player_s != room_s->host`) are equalities
  of addresses.  The role references of a room are `Option Nat`: `none` is `NULL`.
* The circular list `room_s->players` (utlist `CDL_*`) is a `List` whose first
  element is the list head; `p->next` / `p->prev` are the cyclic successor and
  predecessor positions.  `room_s->lost_players` (utlist `DL_*`) is a `List`.
* `int` values are `Int` (the counters move by one per command and never get
  near the machine bounds); a random byte `b` is read as `b % 256`.
* The die array of a player is a `List`; a die written behind its last entry
  lands on the members that follow the array in the struct (`dice_values_write`).
* Every `mosquitto_broker_publish` is recorded, in order, in the field
  `published` of the room; an event names the player structs it renders.
* The JSON mirror (`room_s->json`, `player_s->json`) and the `printf` log lines
  are not part of the embedding.
* A handler takes the room it is called with (`room_s` is not NULL) and returns
  the room it leaves; what it reads of the outside (the parsed payload, the
  client id, the clock, the outcome of `RAND_bytes`) is an argument.  A handler
  that can free the room (logout, leave-game) returns an `Option`.
* `mosquitto_auth_acl_check` takes the directory of rooms as a function from
  room id to room and returns its answer with the directory it leaves; a run
  that reads through a NULL or dangling pointer has the result `none`.
-/

namespace Tfdg

inductive tfdg_game_state where
  | tgs_none
  | tgs_lobby
  | tgs_playing_round
  | tgs_sending_results
  | tgs_awaiting_loser
  | tgs_round_over
  | tgs_game_over
  | tgs_pre_roll
  | tgs_pre_roll_over
  deriving DecidableEq, Repr

inductive tfdg_player_state where
  | tps_none
  | tps_lobby
  | tps_awaiting_dice
  | tps_have_dice
  | tps_dudo_candidate
  | tps_calza_candidate
  | tps_awaiting_loser
  | tps_awaiting_new_round
  | tps_spectator
  | tps_pre_roll
  | tps_pre_roll_sent
  | tps_pre_roll_lost
  deriving DecidableEq, Repr

open tfdg_game_state tfdg_player_state

/-- The struct tfdg_player.  `addr` is the address of the struct; `dice_values`
is the array `int dice_values[MAX_DICE]`. -/
structure tfdg_player where
  addr : Nat
  uuid : String
  name : String
  client_id : String
  dice_count : Int
  dice_values : List Int
  login_count : Int
  state : tfdg_player_state
  pre_roll : Int
  ex_palifico : Bool
  deriving DecidableEq, Repr

/-- The struct tfdg_room_options. -/
structure tfdg_room_options where
  max_dice : Int
  max_dice_value : Int
  allow_calza : Bool
  losers_see_dice : Bool
  random_max_dice_value : Bool
  roll_dice_at_start : Bool
  show_results_table : Bool
  deriving DecidableEq, Repr

/-- A message handed to mosquitto_broker_publish, by topic suffix.  A player
rendered with player_to_cjson is named by the address of its struct (`none`
for a NULL pointer, which the source would dereference); dice arrays and totals
inside the payloads are left out. -/
inductive Event where
  | host (p : Nat)
  | lobby_players (ps : List Nat)
  | pre_roll_init (ps : List Nat)
  | pre_roll (p : Nat) (value : Int)
  | pre_roll_results (ps : List Nat)
  | set_option_int (option : String) (value : Int)
  | new_round (starter : Option Nat) (palifico_round : Bool)
  | loser_results
  | loser_summary_results
  | player_results
  | summary_results
  | dice (p : Nat)
  | dudo_candidates (caller : Nat) (prev : Option Nat)
  | calza_candidate (p : Nat)
  | round_loser (p : Nat)
  | game_loser (p : Nat)
  | round_winner (p : Nat)
  | undo_loser
  | undo_winner (p : Nat)
  | player_lost (p : Nat)
  | player_left (p : Nat)
  | winner (p : Option Nat)
  | stats
  | room_closing
  | state (p : Nat)
  | set_option_bool (option : String) (value : Bool)
  | sound (type : String) (value : Nat)
  deriving DecidableEq, Repr

/-- The struct tfdg_room.  `player_by_uuid` and `player_by_client_id` are the
uthash tables: a binding is the key and the address of the struct, the most
recently added binding comes first (the order HASH_FIND meets them).  `others`
holds the player structs that are allocated but in neither list: kicked players
and spectators.  `totals` is `int totals[20]`. -/
structure tfdg_room where
  uuid : String
  player_by_uuid : List (String × Nat)
  player_by_client_id : List (String × Nat)
  others : List tfdg_player
  players : List tfdg_player
  lost_players : List tfdg_player
  player_count : Int
  current_count : Int
  state : tfdg_game_state
  start_time : Int
  last_event : Int
  host : Option Nat
  starter : Option Nat
  dudo_caller : Option Nat
  calza_caller : Option Nat
  round_loser : Option Nat
  round_winner : Option Nat
  round : Int
  dudo_success : Int
  dudo_fail : Int
  calza_success : Int
  calza_fail : Int
  palifico_round : Bool
  options : tfdg_room_options
  pre_roll_count : Int
  totals : List Int
  published : List Event
  deriving DecidableEq, Repr

/-- The outcome of one call RAND_bytes(bytes, count): `ok` says whether it
returned 1, `bytes i % 256` is the content of `bytes[i]` after the call. -/
structure rand_bytes where
  ok : Bool
  bytes : Nat → Nat

/-- A JSON value as tfdg_handle_set_option looks at it: a number with its
`valueint`, a boolean, or anything else. -/
inductive json_value where
  | number (valueint : Int)
  | bool (b : Bool)
  | other
  deriving DecidableEq, Repr

/-- What a handler reads of (client, msg): the client id of the connection
(mosquitto_client_id) and the outcome of json_parse_name_uuid on the payload,
`none` when it returns 1, else the name and the uuid.  For set-option also the
member "option" of the payload when it is a string, and the member "value" when
there is one. -/
structure mosquitto_acl_msg where
  client_id : String
  name_uuid : Option (String × String)
  option : Option String := none
  value : Option json_value := none

/-- Position of `p->next` in a circular list of n nodes. -/
def cdl_next (n i : Nat) : Nat := if i + 1 < n then i + 1 else 0

/-- Position of `p->prev` in a circular list of n nodes. -/
def cdl_prev (n i : Nat) : Nat := if i = 0 then n - 1 else i - 1

/-- Position of the first player with this uuid: the CDL_FOREACH / strcmp loop
of find_player_from_json. -/
def find_uuid (uuid : String) : List tfdg_player → Option Nat
  | [] => none
  | p :: ps => if p.uuid = uuid then some 0 else (find_uuid uuid ps).map (· + 1)

/-- Position of the struct with this address in a list. -/
def find_addr (a : Nat) : List tfdg_player → Option Nat
  | [] => none
  | p :: ps => if p.addr = a then some 0 else (find_addr a ps).map (· + 1)

def find_player_from_json (msg : mosquitto_acl_msg) (r : tfdg_room) : Option Nat :=
  match msg.name_uuid with
  | none => none
  | some nu => find_uuid nu.2 r.players

def find_player_check_id (msg : mosquitto_acl_msg) (r : tfdg_room) : Option Nat :=
  match find_player_from_json msg r with
  | none => none
  | some i =>
    match r.players[i]? with
    | none => none
    | some p => if msg.client_id = p.client_id then some i else none

def easy_publish (r : tfdg_room) (e : Event) : tfdg_room :=
  { r with published := r.published ++ [e] }

def player_set_state (p : tfdg_player) (s : tfdg_player_state) : tfdg_player :=
  { p with state := s }

def player_set_dice_count (p : tfdg_player) (n : Int) : tfdg_player :=
  { p with dice_count := n }

def player_set_ex_palifico (p : tfdg_player) : tfdg_player :=
  { p with ex_palifico := true }

def tfdg_send_host (r : tfdg_room) : tfdg_room :=
  match r.host with
  | none => r
  | some h => easy_publish r (Event.host h)

def room_set_host (r : tfdg_room) (h : Option Nat) : tfdg_room := { r with host := h }

/-- CDL_DELETE of the node at position i, then the host moves to the new list
head when the deleted player was the host. -/
def room_delete_player (r : tfdg_room) (i : Nat) : tfdg_room :=
  match r.players[i]? with
  | none => r
  | some p =>
    let r1 := { r with players := r.players.eraseIdx i }
    if r.host = some p.addr then
      tfdg_send_host (room_set_host r1 (r1.players.head?.map (fun q => q.addr)))
    else r1

/-- The player at position i leaves the turn order for the lost list.  The
second CDL_DELETE of the source relinks the same two neighbours again and
changes nothing. -/
def tfdg_handle_player_lost (r : tfdg_room) (i : Nat) : tfdg_room :=
  match r.players[i]? with
  | none => r
  | some p =>
    let r1 := { r with starter := (r.players[cdl_next r.players.length i]?).map (fun q => q.addr) }
    let r2 := room_delete_player r1 i
    let r3 := { r2 with lost_players := r2.lost_players ++ [p], current_count := r2.current_count - 1 }
    easy_publish r3 (Event.player_lost p.addr)

/-- The winner is the head of the turn order.  room_add_to_stats updates the
process-wide statistics, which are not room state, and publishes them. -/
def tfdg_handle_winner (r : tfdg_room) : tfdg_room :=
  let r1 := easy_publish r (Event.winner (r.players.head?.map (fun q => q.addr)))
  let r2 := easy_publish r1 Event.stats
  easy_publish { r2 with state := tgs_game_over } Event.room_closing

/-- An int read into `enum tfdg_player_state`; an int that names no state is
read as tps_none. -/
def player_state_of_int (v : Int) : tfdg_player_state :=
  if v = 0 then tps_lobby
  else if v = 1 then tps_awaiting_dice
  else if v = 2 then tps_have_dice
  else if v = 3 then tps_dudo_candidate
  else if v = 4 then tps_calza_candidate
  else if v = 5 then tps_awaiting_loser
  else if v = 6 then tps_awaiting_new_round
  else if v = 7 then tps_spectator
  else if v = 8 then tps_pre_roll
  else if v = 9 then tps_pre_roll_sent
  else if v = 10 then tps_pre_roll_lost
  else tps_none

/-- The low byte of an int stored into a `char` (signed). -/
def signed_char (v : Int) : Int :=
  if v % 256 < 128 then v % 256 else v % 256 - 256

/-- The write `player_s->dice_values[i] = v`.  The list dice_values is the array
`int dice_values[MAX_DICE]`, its length the size of the array (20 for every
struct that the handlers and the loader create).  The source does not bound i
by the size of the array, and behind the last entry the struct goes on with
`int login_count`, `enum tfdg_player_state state` and the word that holds
`char pre_roll` and `bool ex_palifico`: the writes at the three indices past
the array (20, 21 and 22) land on these members (ints and enums of four bytes,
least significant byte first, so that the low byte of the int is pre_roll and
the next byte ex_palifico).  A write at index 23 or beyond leaves the struct;
nothing of the embedding lies there. -/
def dice_values_write (p : tfdg_player) (i : Nat) (v : Int) : tfdg_player :=
  if i < p.dice_values.length then { p with dice_values := p.dice_values.set i v }
  else if i = p.dice_values.length then { p with login_count := v }
  else if i = p.dice_values.length + 1 then { p with state := player_state_of_int v }
  else if i = p.dice_values.length + 2 then
    { p with pre_roll := signed_char v, ex_palifico := decide (v / 256 % 256 ≠ 0) }
  else p

/-- The loop of player_set_dice_values: n dice are still to be set, the next
one is die i.  Returns the player and the room totals.  A face above 20 leaves
the array `totals` of the room and is left out: `List.modify` does nothing
there.  The byte is not negative, so `%` is the remainder of C for every
divisor but 0. -/
def player_set_dice_values_loop (bytes : Nat → Nat) (max_dice_value : Int) :
    Nat → Nat → tfdg_player → List Int → tfdg_player × List Int
  | 0, _, p, totals => (p, totals)
  | n + 1, i, p, totals =>
    let v : Int := ((bytes i % 256 : Nat) : Int) % max_dice_value + 1
    player_set_dice_values_loop bytes max_dice_value n (i + 1)
      (dice_values_write p i v) (List.modify (fun t => t + 1) (v - 1).toNat totals)

/-- Sets the dice of one player from the bytes at `bytes`: die i for every i
below the dice count of the player.  Returns the player and the room totals. -/
def player_set_dice_values (totals : List Int) (p : tfdg_player) (bytes : Nat → Nat)
    (max_dice_value : Int) : tfdg_player × List Int :=
  player_set_dice_values_loop bytes max_dice_value p.dice_count.toNat 0 p totals

/-- The dealing loop of tfdg_new_round: the player at position i of the turn
order reads its bytes at `&bytes[max_dice*i]`. -/
def new_round_deal (bytes : Nat → Nat) (max_dice max_dice_value : Int) :
    Nat → List tfdg_player → List Int → List tfdg_player × List Int
  | _, [], totals => ([], totals)
  | i, p :: ps, totals =>
    let res := player_set_dice_values totals p
      (fun j => bytes ((max_dice * (i : Int)).toNat + j)) max_dice_value
    let rest := new_round_deal bytes max_dice max_dice_value (i + 1) ps res.2
    (player_set_state res.1 tps_awaiting_dice :: rest.1, rest.2)

/-- Position of the first player without dice, the only one the first loop of
tfdg_new_round removes: tfdg_handle_player_lost appends the removed node to the
lost list with DL_APPEND, which sets its `next` to NULL, so CDL_FOREACH ends
right after it. -/
def first_without_dice : List tfdg_player → Option Nat
  | [] => none
  | p :: ps => if p.dice_count = 0 then some 0 else (first_without_dice ps).map (· + 1)

/-- The face bound of the round that starts: the configured bound in round one
or when random-max-dice-value is off, else drawn from the last random byte. -/
def new_round_max_dice_value (r : tfdg_room) (bytes : Nat → Nat) (count : Int) : Int :=
  if r.round = 1 ∨ r.options.random_max_dice_value = false then r.options.max_dice_value
  else 3 + ((bytes (count - 1).toNat % 256 : Nat) : Int) % (r.options.max_dice_value - 3 + 1)

def report_results_to_losers (r : tfdg_room) : tfdg_room :=
  easy_publish (easy_publish r Event.loser_results) Event.loser_summary_results

/-- The first loop of tfdg_new_round: a player without dice leaves the turn
order. -/
def new_round_remove (r : tfdg_room) : tfdg_room :=
  match first_without_dice r.players with
  | none => r
  | some i => tfdg_handle_player_lost r i

/-- The round counter moves on and the four round references are cleared. -/
def new_round_reset (r : tfdg_room) : tfdg_room :=
  { r with round := r.round + 1, calza_caller := none, dudo_caller := none,
           round_loser := none, round_winner := none }

/-- The body of tfdg_new_round once RAND_bytes has returned 1: `count` is the
number of bytes that were asked for. -/
def new_round_play (bytes : Nat → Nat) (count : Int) (r : tfdg_room) : tfdg_room :=
  let max_dice_value := new_round_max_dice_value r bytes count
  let r1 := if r.round = 1 ∨ r.options.random_max_dice_value = false then r
    else easy_publish r (Event.set_option_int "max-dice-value" max_dice_value)
  let dealt := new_round_deal bytes r1.options.max_dice max_dice_value 0 r1.players r1.totals
  let r2 := { r1 with state := tgs_playing_round, players := dealt.1, totals := dealt.2 }
  report_results_to_losers (easy_publish r2 (Event.new_round r2.starter r2.palifico_round))

def tfdg_new_round (rnd : rand_bytes) (r : tfdg_room) : tfdg_room :=
  if r.player_count > 199 then r
  else
    let count := r.player_count * r.options.max_dice + 1
    let r1 := new_round_reset (new_round_remove r)
    if rnd.ok then new_round_play rnd.bytes count r1 else r1

/-- The loop of room_shuffle_players: n players are still in the old list `src`,
byte i picks the one moved to the end of the new list `dst`. -/
def room_shuffle_loop (bytes : Nat → Nat) :
    Nat → Nat → List tfdg_player → List tfdg_player → List tfdg_player
  | 0, _, _, dst => dst
  | n + 1, i, src, dst =>
    let j := (bytes i % 256) % (n + 1)
    match src[j]? with
    | none => dst
    | some p => room_shuffle_loop bytes n (i + 1) (src.eraseIdx j) (dst ++ [p])

def room_shuffle_players (rnd : rand_bytes) (r : tfdg_room) : tfdg_room :=
  if rnd.ok then
    { r with players := room_shuffle_loop rnd.bytes r.players.length 0 r.players [] }
  else r

def tfdg_send_lobby_players (r : tfdg_room) : tfdg_room :=
  easy_publish r (Event.lobby_players (r.players.map (fun q => q.addr)))

/-- The loop of room_pre_roll_init: i counts the players that draw. -/
def room_pre_roll_init_loop (bytes : Nat → Nat) (max_dice_value : Int) :
    Nat → List tfdg_player → List tfdg_player × Nat
  | i, [] => ([], i)
  | i, p :: ps =>
    if p.state ≠ tps_pre_roll_lost then
      let p1 := player_set_state
        { p with pre_roll := ((bytes i % 256 : Nat) : Int) % max_dice_value + 1 } tps_pre_roll
      let rest := room_pre_roll_init_loop bytes max_dice_value (i + 1) ps
      (p1 :: rest.1, rest.2)
    else
      let rest := room_pre_roll_init_loop bytes max_dice_value i ps
      (p :: rest.1, rest.2)

/-- The return value of RAND_bytes is not looked at here. -/
def room_pre_roll_init (rnd : rand_bytes) (r : tfdg_room) : tfdg_room :=
  let res := room_pre_roll_init_loop rnd.bytes r.options.max_dice_value 0 r.players
  let r1 := { r with state := tgs_pre_roll, players := res.1, pre_roll_count := (res.2 : Int) }
  easy_publish r1 (Event.pre_roll_init
    ((r1.players.filter (fun q => q.state = tps_pre_roll)).map (fun q => q.addr)))

/-- Number of players that have sent the pre-roll value v. -/
def pre_roll_sent_count (v : Int) (ps : List tfdg_player) : Nat :=
  (ps.filter (fun q => q.state = tps_pre_roll_sent ∧ q.pre_roll = v)).length

/-- The downward search of tfdg_handle_pre_roll_result from value i: returns
(max_rolled, max_rolled_count). -/
def pre_roll_max (ps : List tfdg_player) : Nat → Int × Int
  | 0 => if pre_roll_sent_count 0 ps > 0 then (0, (pre_roll_sent_count 0 ps : Int)) else (0, 0)
  | i + 1 =>
    if pre_roll_sent_count ((i : Int) + 1) ps > 0 then
      ((i : Int) + 1, (pre_roll_sent_count ((i : Int) + 1) ps : Int))
    else pre_roll_max ps i

/-- The first loop of tfdg_handle_pre_roll_result, from max_dice_value + 1 down
to 0: (max_rolled, max_rolled_count). -/
def pre_roll_found (r : tfdg_room) : Int × Int :=
  if 0 ≤ r.options.max_dice_value + 1 then
    pre_roll_max r.players (r.options.max_dice_value + 1).toNat
  else (0, 0)

/-- The test of the second loop: the player has sent the top value. -/
def pre_roll_is_top (max_rolled : Int) (q : tfdg_player) : Bool :=
  decide (q.state = tps_pre_roll_sent ∧ q.pre_roll = max_rolled)

/-- The second loop of tfdg_handle_pre_roll_result and the pre-roll-results
event: the top rollers go back to tps_pre_roll, the others are out. -/
def pre_roll_mark (r : tfdg_room) (max_rolled : Int) : tfdg_room :=
  let r1 := { r with players := r.players.map (fun q =>
    if pre_roll_is_top max_rolled q then player_set_state q tps_pre_roll
    else player_set_state q tps_pre_roll_lost) }
  easy_publish r1 (Event.pre_roll_results
    ((r.players.filter (pre_roll_is_top max_rolled)).map (fun q => q.addr)))

/-- The local variable starter after the second loop: the last top roller. -/
def pre_roll_starter (r : tfdg_room) (max_rolled : Int) : Option Nat :=
  ((r.players.filter (pre_roll_is_top max_rolled)).getLast?).map (fun q => q.addr)

def tfdg_handle_pre_roll_result (rnd : rand_bytes) (r : tfdg_room) : tfdg_room :=
  let found := pre_roll_found r
  let r1 := pre_roll_mark r found.1
  if found.2 = 1 then
    { r1 with state := tgs_pre_roll_over, starter := pre_roll_starter r found.1 }
  else room_pre_roll_init rnd r1

/-- The writes of tfdg_handle_pre_roll_dice for the player p at position i: its
state, the pre-roll event, the count of rolls still awaited. -/
def pre_roll_sent (r : tfdg_room) (i : Nat) (p : tfdg_player) : tfdg_room :=
  let r1 := { r with players := List.modify (fun q => player_set_state q tps_pre_roll_sent) i r.players }
  let r2 := easy_publish r1 (Event.pre_roll p.addr p.pre_roll)
  { r2 with pre_roll_count := r2.pre_roll_count - 1 }

def tfdg_handle_pre_roll_dice (rnd : rand_bytes) (r : tfdg_room) (i : Nat) : tfdg_room :=
  match r.players[i]? with
  | none => r
  | some p =>
    if p.state = tps_pre_roll then
      let r1 := pre_roll_sent r i p
      if r1.pre_roll_count = 0 then tfdg_handle_pre_roll_result rnd r1 else r1
    else r

/-- The starter walk of tfdg_handle_start_game: from the list head, `steps`
times `starter->next`. -/
def starter_walk (ps : List tfdg_player) (steps : Nat) : Option Nat :=
  (ps[steps % ps.length]?).map (fun q => q.addr)

/-- The writes of tfdg_handle_start_game between its guards and the first
draw: the player count is frozen, the turn order shuffled, every player gets
max_dice dice, the starter is drawn and the clock starts. -/
def start_game_setup (now : Int) (rnd_shuffle rnd_starter : rand_bytes) (r : tfdg_room) :
    tfdg_room :=
  let r1 := { r with current_count := r.player_count }
  let r2 := tfdg_send_lobby_players (room_shuffle_players rnd_shuffle r1)
  let r3 := { r2 with players := r2.players.map (fun q => player_set_dice_count q r2.options.max_dice) }
  let r4 := if rnd_starter.ok then
      { r3 with starter :=
          starter_walk r3.players (((rnd_starter.bytes 0 % 256 : Nat) : Int) % r3.player_count).toNat }
    else { r3 with starter := r3.players.head?.map (fun q => q.addr) }
  { r4 with start_time := now, last_event := now }

/-- The start-game handler for this room at time `now`.  tfdg_expire_rooms
sweeps the room directory, which is not room state; the room at hand has just
been stamped by the dispatcher.  The three RAND_bytes calls are the shuffle,
the starter draw and the first draw of dice or pre-rolls. -/
def tfdg_handle_start_game (now : Int) (rnd_shuffle rnd_starter rnd_round : rand_bytes)
    (msg : mosquitto_acl_msg) (r : tfdg_room) : tfdg_room :=
  if r.state ≠ tgs_lobby ∨ r.player_count < 2 then r
  else
    match find_player_check_id msg r with
    | none => r
    | some i =>
      if (r.players[i]?).map (fun q => q.addr) ≠ r.host then r
      else
        let r1 := start_game_setup now rnd_shuffle rnd_starter r
        if r1.options.roll_dice_at_start then room_pre_roll_init rnd_round r1
        else tfdg_new_round rnd_round r1

def send_dice (r : tfdg_room) (p : tfdg_player) : tfdg_room :=
  easy_publish r (Event.dice p.addr)

/-- The tail of tfdg_handle_roll_dice, once the new round (if any) has been
started: `a` is the pointer player_s, whose struct is in the turn order or, when
the new round has just removed it, in the lost list. -/
def roll_dice_deliver (r : tfdg_room) (a : Nat) : tfdg_room :=
  match find_addr a r.players with
  | some k =>
    match r.players[k]? with
    | none => r
    | some p =>
      if p.state ≠ tps_awaiting_dice then r
      else
        let r1 := send_dice r p
        { r1 with players := List.modify (fun q => player_set_state q tps_have_dice) k r1.players }
  | none =>
    match find_addr a r.lost_players with
    | none => r
    | some k =>
      match r.lost_players[k]? with
      | none => r
      | some p =>
        if p.state ≠ tps_awaiting_dice then r
        else
          let r1 := send_dice r p
          { r1 with lost_players :=
              List.modify (fun q => player_set_state q tps_have_dice) k r1.lost_players }

/-- At most one of the two calls of tfdg_new_round runs: after the first the
room is in tgs_playing_round or still in tgs_pre_roll_over. -/
def tfdg_handle_roll_dice (rnd : rand_bytes) (msg : mosquitto_acl_msg) (r : tfdg_room) :
    tfdg_room :=
  match find_player_check_id msg r with
  | none => r
  | some i =>
    match r.players[i]? with
    | none => r
    | some p =>
      if r.state = tgs_pre_roll then tfdg_handle_pre_roll_dice rnd r i
      else
        let r1 := if r.state = tgs_pre_roll_over then tfdg_new_round rnd r else r
        let r2 := if r1.state = tgs_round_over then tfdg_new_round rnd r1 else r1
        roll_dice_deliver r2 p.addr

def report_player_results (r : tfdg_room) : tfdg_room :=
  easy_publish { r with state := tgs_sending_results } Event.player_results

def report_summary_results (r : tfdg_room) : tfdg_room :=
  easy_publish r Event.summary_results

/-- The writes of tfdg_handle_call_dudo for the caller p at position i.  The
first loop of the source runs once per player of the turn order and each time
sets the state of player_s (not of the loop variable p). -/
def call_dudo_apply (r : tfdg_room) (i : Nat) (p : tfdg_player) : tfdg_room :=
  let ps1 := r.players.foldl
    (fun acc _ => List.modify (fun q => player_set_state q tps_awaiting_loser) i acc) r.players
  let ps2 := List.modify (fun q => player_set_state q tps_dudo_candidate) i ps1
  let ps3 := List.modify (fun q => player_set_state q tps_dudo_candidate)
    (cdl_prev ps2.length i) ps2
  let r1 := { r with players := ps3, dudo_caller := some p.addr }
  let r2 := easy_publish r1 (Event.dudo_candidates p.addr
    ((r1.players[cdl_prev r1.players.length i]?).map (fun q => q.addr)))
  let r3 := report_summary_results (report_player_results r2)
  { r3 with state := tgs_awaiting_loser }

def tfdg_handle_call_dudo (msg : mosquitto_acl_msg) (r : tfdg_room) : tfdg_room :=
  match find_player_check_id msg r with
  | none => r
  | some i =>
    match r.players[i]? with
    | none => r
    | some p =>
      if p.state ≠ tps_have_dice ∨ r.state ≠ tgs_playing_round then r
      else call_dudo_apply r i p

/-- The writes of tfdg_handle_call_calza for the caller p at position i. -/
def call_calza_apply (r : tfdg_room) (i : Nat) (p : tfdg_player) : tfdg_room :=
  let ps1 := r.players.map (fun q => player_set_state q tps_awaiting_loser)
  let ps2 := List.modify (fun q => player_set_state q tps_calza_candidate) i ps1
  let r1 := { r with players := ps2, calza_caller := some p.addr }
  let r2 := easy_publish r1 (Event.calza_candidate p.addr)
  let r3 := report_summary_results (report_player_results r2)
  { r3 with state := tgs_awaiting_loser }

def tfdg_handle_call_calza (msg : mosquitto_acl_msg) (r : tfdg_room) : tfdg_room :=
  if r.options.allow_calza = false then r
  else
    match find_player_check_id msg r with
    | none => r
    | some i =>
      match r.players[i]? with
      | none => r
      | some p =>
        if p.state ≠ tps_have_dice then r
        else if p.dice_count = r.options.max_dice then r
        else call_calza_apply r i p

/-- The outcome counter an i-lost of player p bumps, `none` when p is not a
candidate. -/
def i_lost_count (r : tfdg_room) (p : tfdg_player) : Option tfdg_room :=
  if p.state = tps_dudo_candidate then
    if r.dudo_caller = some p.addr then some { r with dudo_fail := r.dudo_fail + 1 }
    else some { r with dudo_success := r.dudo_success + 1 }
  else if p.state = tps_calza_candidate then some { r with calza_fail := r.calza_fail + 1 }
  else none

/-- The three writes of tfdg_handle_i_lost that follow the counter: the room is
in tgs_round_over, the player p at position i is the round loser and has one
die less. -/
def i_lost_mark (r : tfdg_room) (i : Nat) (p : tfdg_player) : tfdg_room :=
  { r with
    state := tgs_round_over
    round_loser := some p.addr
    players := List.modify (fun q => player_set_dice_count q (q.dice_count - 1)) i r.players }

/-- The branch of tfdg_handle_i_lost in which the game goes on; p is the struct
of the reporter as it was before the decrement. -/
def i_lost_stay (r : tfdg_room) (i : Nat) (p : tfdg_player) : tfdg_room :=
  let r1 := easy_publish r (Event.round_loser p.addr)
  let r2 := if p.dice_count - 1 = 0 then easy_publish r1 (Event.game_loser p.addr) else r1
  let r3 := { r2 with starter := some p.addr, palifico_round := false }
  if p.dice_count - 1 = 1 ∧ r3.current_count > 2 ∧ p.ex_palifico = false then
    { r3 with players := List.modify player_set_ex_palifico i r3.players, palifico_round := true }
  else r3

def tfdg_handle_i_lost (msg : mosquitto_acl_msg) (r : tfdg_room) : tfdg_room :=
  match find_player_check_id msg r with
  | none => r
  | some i =>
    match r.players[i]? with
    | none => r
    | some p =>
      if r.round_loser ≠ none then r
      else
        match i_lost_count r p with
        | none => r
        | some r1 =>
          let r2 := i_lost_mark r1 i p
          if p.dice_count - 1 = 0 ∧ r2.current_count = 2 then
            tfdg_handle_winner (tfdg_handle_player_lost r2 i)
          else i_lost_stay r2 i p

/-- The writes of tfdg_handle_i_won for the calza candidate p at position i. -/
def i_won_apply (r : tfdg_room) (i : Nat) (p : tfdg_player) : tfdg_room :=
  let r1 := { r with
    calza_success := r.calza_success + 1
    state := tgs_round_over
    round_winner := some p.addr
    players := List.modify (fun q => player_set_dice_count q (q.dice_count + 1)) i r.players }
  let r2 := easy_publish r1 (Event.round_winner p.addr)
  { r2 with starter := some p.addr }

def tfdg_handle_i_won (msg : mosquitto_acl_msg) (r : tfdg_room) : tfdg_room :=
  match find_player_check_id msg r with
  | none => r
  | some i =>
    match r.players[i]? with
    | none => r
    | some p =>
      if p.state ≠ tps_calza_candidate then r
      else i_won_apply r i p

/-- The writes of tfdg_handle_undo_loser for the round loser p at position i.
The payload of the undo-loser event is the dudo candidates object (NULL, and
then nothing is published, when no dudo caller is recorded) for a dudo
candidate and the player for a calza candidate. -/
def undo_loser_apply (r : tfdg_room) (i : Nat) (p : tfdg_player) : tfdg_room :=
  let r1 := { r with
    players := List.modify (fun q => player_set_dice_count q (q.dice_count + 1)) i r.players
    round_loser := none }
  if p.state = tps_dudo_candidate ∧ r1.dudo_caller = none then r1
  else easy_publish r1 Event.undo_loser

def tfdg_handle_undo_loser (msg : mosquitto_acl_msg) (r : tfdg_room) : tfdg_room :=
  match find_player_check_id msg r with
  | none => r
  | some i =>
    match r.players[i]? with
    | none => r
    | some p =>
      if p.state ≠ tps_dudo_candidate ∧ p.state ≠ tps_calza_candidate then r
      else if r.state ≠ tgs_round_over then r
      else if r.round_loser ≠ some p.addr then r
      else undo_loser_apply r i p

/-- The writes of tfdg_handle_undo_winner for the round winner p at position i. -/
def undo_winner_apply (r : tfdg_room) (i : Nat) (p : tfdg_player) : tfdg_room :=
  let r1 := { r with
    players := List.modify (fun q => player_set_dice_count q (q.dice_count - 1)) i r.players }
  easy_publish r1 (Event.undo_winner p.addr)

def tfdg_handle_undo_winner (msg : mosquitto_acl_msg) (r : tfdg_room) : tfdg_room :=
  match find_player_check_id msg r with
  | none => r
  | some i =>
    match r.players[i]? with
    | none => r
    | some p =>
      if p.state ≠ tps_calza_candidate then r
      else if r.state ≠ tgs_round_over then r
      else if r.round_winner ≠ some p.addr then r
      else undo_winner_apply r i p

/-- HASH_FIND in the table keyed by client id. -/
def find_client_id (client_id : String) (r : tfdg_room) : Option Nat :=
  (r.player_by_client_id.find? (fun e => e.1 = client_id)).map (fun e => e.2)

def room_set_current_count (r : tfdg_room) (n : Int) : tfdg_room := { r with current_count := n }

/-- The writes of tfdg_handle_kick_player for the kicked player p at position
j.  The player is not added to the lost list; its struct is not freed and stays
in the two hash tables. -/
def kick_player_apply (r : tfdg_room) (j : Nat) (p : tfdg_player) : tfdg_room :=
  let r1 := easy_publish r (Event.player_left p.addr)
  let r2 := room_delete_player r1 j
  let r3 := room_set_current_count { r2 with others := r2.others ++ [p] } (r2.current_count - 1)
  if r3.current_count = 1 then tfdg_handle_winner r3 else r3

/-- The player to kick is looked up by uuid in the turn order, the kicker by
the client id of the connection. -/
def tfdg_handle_kick_player (msg : mosquitto_acl_msg) (r : tfdg_room) : tfdg_room :=
  match find_player_from_json msg r with
  | none => r
  | some j =>
    match r.players[j]? with
    | none => r
    | some p =>
      if find_client_id msg.client_id r ≠ none ∧ r.host = find_client_id msg.client_id r ∧
          (r.state = tgs_lobby ∨ r.state = tgs_playing_round ∨ r.state = tgs_round_over ∨
            r.state = tgs_game_over) then
        kick_player_apply r j p
      else r

/-- The write commands of a started game that are embedded here, each with the
inputs its handler reads. -/
inductive Command where
  | start_game (now : Int) (rnd_shuffle rnd_starter rnd_round : rand_bytes) (msg : mosquitto_acl_msg)
  | roll_dice (rnd : rand_bytes) (msg : mosquitto_acl_msg)
  | call_dudo (msg : mosquitto_acl_msg)
  | call_calza (msg : mosquitto_acl_msg)
  | i_lost (msg : mosquitto_acl_msg)
  | i_won (msg : mosquitto_acl_msg)
  | undo_loser (msg : mosquitto_acl_msg)
  | undo_winner (msg : mosquitto_acl_msg)
  | kick_player (msg : mosquitto_acl_msg)

def room_set_last_event (r : tfdg_room) (t : Int) : tfdg_room := { r with last_event := t }

/-- The WRITE branch of mosquitto_auth_acl_check for a room that exists: the
room is stamped with the time `now`, then the command is dispatched on its
name. -/
def acl_write (now : Int) (c : Command) (r : tfdg_room) : tfdg_room :=
  let r1 := room_set_last_event r now
  match c with
  | Command.start_game t s1 s2 s3 msg => tfdg_handle_start_game t s1 s2 s3 msg r1
  | Command.roll_dice rnd msg => tfdg_handle_roll_dice rnd msg r1
  | Command.call_dudo msg => tfdg_handle_call_dudo msg r1
  | Command.call_calza msg => tfdg_handle_call_calza msg r1
  | Command.i_lost msg => tfdg_handle_i_lost msg r1
  | Command.i_won msg => tfdg_handle_i_won msg r1
  | Command.undo_loser msg => tfdg_handle_undo_loser msg r1
  | Command.undo_winner msg => tfdg_handle_undo_winner msg r1
  | Command.kick_player msg => tfdg_handle_kick_player msg r1

/-- Runs timed commands in order. -/
def run (cs : List (Int × Command)) (r : tfdg_room) : tfdg_room :=
  cs.foldl (fun acc c => acl_write c.1 c.2 acc) r


/-! ## Predicates used to state the properties -/

/-- The guard of tfdg_handle_i_lost: the sender is the player p at position i
of the turn order, no round loser is recorded and p is a dudo or calza
candidate. -/
def i_lost_accepted (msg : mosquitto_acl_msg) (r : tfdg_room) (i : Nat) (p : tfdg_player) : Prop :=
  find_player_check_id msg r = some i ∧ r.players[i]? = some p ∧ r.round_loser = none ∧
    (p.state = tps_dudo_candidate ∨ p.state = tps_calza_candidate)

/-- The test of tfdg_handle_i_lost that ends the game: the reporter p has lost
the last die and two players are counted. -/
def i_lost_ends_game (r : tfdg_room) (p : tfdg_player) : Prop :=
  p.dice_count - 1 = 0 ∧ r.current_count = 2

/-- Sum of the dice counts of a list of players. -/
def dice_total (ps : List tfdg_player) : Int := (ps.map (fun q => q.dice_count)).sum

/-- The player structs of a room: the turn order and the lost list. -/
def all_players (r : tfdg_room) : List tfdg_player := r.players ++ r.lost_players

/-- Every struct of `after` is the struct of `before` at the same address, and
its palifico flag is set if it was set in `before`. -/
def flags_kept (before after : List tfdg_player) : Prop :=
  ∀ q2 ∈ after, ∃ q1 ∈ before, q1.addr = q2.addr ∧ (q1.ex_palifico = true → q2.ex_palifico = true)

/-- The struct at address a has triggered palifico: every struct of the room
with this address carries the flag. -/
def ex_palifico_at (r : tfdg_room) (a : Nat) : Prop :=
  ∀ q ∈ all_players r, q.addr = a → q.ex_palifico = true

/-- What identifies a seat and its part in a dispute: the struct address, the
uuid, the bound client id and the player state. -/
def seat_key (q : tfdg_player) : Nat × String × String × tfdg_player_state :=
  (q.addr, q.uuid, q.client_id, q.state)


/-! ## A lobby and command sequences to evaluate the handlers on -/

/-- A player struct as tfdg_handle_login leaves it in a lobby with max-dice 5. -/
def seated (a : Nat) (uuid name client : String) : tfdg_player :=
  { addr := a, uuid := uuid, name := name, client_id := client, dice_count := 5,
    dice_values := List.replicate 20 0, login_count := 1, state := tps_lobby, pre_roll := 0,
    ex_palifico := false }

/-- The options of room_create with roll-dice-at-start switched off, as in the
game tests of tfdg_test.c. -/
def test_options : tfdg_room_options :=
  { max_dice := 5, max_dice_value := 6, allow_calza := true, losers_see_dice := true,
    random_max_dice_value := false, roll_dice_at_start := false, show_results_table := true }

/-- A lobby with the three players of tfdg_test.c, player 1 being the host. -/
def lobby3 : tfdg_room :=
  { uuid := "00000000-0000-0000-0000-000000000000",
    player_by_uuid := [("00000000-0000-0000-0000-000000000003", 3),
                       ("00000000-0000-0000-0000-000000000002", 2),
                       ("00000000-0000-0000-0000-000000000001", 1)],
    player_by_client_id := [("client3", 3), ("client2", 2), ("client1", 1)],
    others := [],
    players := [seated 1 "00000000-0000-0000-0000-000000000001" "Player 1" "client1",
                seated 2 "00000000-0000-0000-0000-000000000002" "Player 2" "client2",
                seated 3 "00000000-0000-0000-0000-000000000003" "Player 3" "client3"],
    lost_players := [], player_count := 3, current_count := 0, state := tgs_lobby,
    start_time := 0, last_event := 1000, host := some 1, starter := none, dudo_caller := none,
    calza_caller := none, round_loser := none, round_winner := none, round := 0,
    dudo_success := 0, dudo_fail := 0, calza_success := 0, calza_fail := 0,
    palifico_round := false, options := test_options, pre_roll_count := 0,
    totals := List.replicate 20 0, published := [] }

/-- The same lobby with players 1 and 2 only. -/
def lobby2 : tfdg_room :=
  { lobby3 with
    player_by_uuid := [("00000000-0000-0000-0000-000000000002", 2),
                       ("00000000-0000-0000-0000-000000000001", 1)]
    player_by_client_id := [("client2", 2), ("client1", 1)]
    players := [seated 1 "00000000-0000-0000-0000-000000000001" "Player 1" "client1",
                seated 2 "00000000-0000-0000-0000-000000000002" "Player 2" "client2"]
    player_count := 2 }

/-- A RAND_bytes call that succeeds and fills the buffer with zero bytes. -/
def zero_bytes : rand_bytes := { ok := true, bytes := fun _ => 0 }

/-- The payload and connection of player 1. -/
def msg1 : mosquitto_acl_msg :=
  { client_id := "client1", name_uuid := some ("Player 1", "00000000-0000-0000-0000-000000000001") }

/-- The payload and connection of player 2. -/
def msg2 : mosquitto_acl_msg :=
  { client_id := "client2", name_uuid := some ("Player 2", "00000000-0000-0000-0000-000000000002") }

/-- The payload and connection of player 3. -/
def msg3 : mosquitto_acl_msg :=
  { client_id := "client3", name_uuid := some ("Player 3", "00000000-0000-0000-0000-000000000003") }

/-- Player 1, the host, names player 2 in a kick-player payload. -/
def msg1_kick2 : mosquitto_acl_msg :=
  { client_id := "client1", name_uuid := some ("Player 2", "00000000-0000-0000-0000-000000000002") }

/-- The host starts the game at time 1000. -/
def cmd_start : Int × Command :=
  (1000, Command.start_game 1000 zero_bytes zero_bytes zero_bytes msg1)

/-- Player 1 rolls (which starts the round when one is due) and calls dudo. -/
def cmds_dudo1 : List (Int × Command) :=
  [(1001, Command.roll_dice zero_bytes msg1), (1002, Command.call_dudo msg1)]

/-- A whole round that player 1 loses: roll, call dudo, report i-lost. -/
def cmds_round1 : List (Int × Command) :=
  cmds_dudo1 ++ [(1003, Command.i_lost msg1)]

/-- True for the events with topic suffix winner. -/
def is_winner_event : Event → Bool
  | Event.winner _ => true
  | _ => false

/-- Three-player game in which player 1 loses five rounds in a row and, with the
room in tgs_round_over and player 1 still seated without dice, the host kicks
player 2; then player 3 rolls for the next round. -/
def cmds_last_round : List (Int × Command) :=
  cmd_start :: (cmds_round1 ++ cmds_round1 ++ cmds_round1 ++ cmds_round1 ++ cmds_round1 ++
    [(1004, Command.kick_player msg1_kick2), (1005, Command.roll_dice zero_bytes msg3)])

/-- All three players roll in round one, then player 2 calls dudo. -/
def cmds_dudo2 : List (Int × Command) :=
  [cmd_start, (1001, Command.roll_dice zero_bytes msg1), (1001, Command.roll_dice zero_bytes msg2),
    (1001, Command.roll_dice zero_bytes msg3), (1002, Command.call_dudo msg2)]

/-- Two-player game: player 1 loses three rounds, rolls and calls dudo in the
fourth, holding two dice. -/
def cmds_two_dice : List (Int × Command) :=
  cmd_start :: (cmds_round1 ++ cmds_round1 ++ cmds_round1 ++ cmds_dudo1)

/-- Three-player game: player 1 loses round one, then rolls, calls calza and
reports i-won. -/
def cmds_calza_won : List (Int × Command) :=
  cmd_start :: (cmds_round1 ++ [(1004, Command.roll_dice zero_bytes msg1),
    (1005, Command.call_calza msg1), (1006, Command.i_won msg1)])

/-- The struct of player 1 in round one of the three-player game, once it has
rolled five ones and called dudo. -/
def caller1 : tfdg_player :=
  { seated 1 "00000000-0000-0000-0000-000000000001" "Player 1" "client1" with
    dice_values := List.replicate 5 1 ++ List.replicate 15 0
    state := tps_dudo_candidate }

/-- The struct of player 1 in the two-player game after cmds_two_dice: two dice
left, dudo called. -/
def caller1_two_dice : tfdg_player := { caller1 with dice_count := 2 }

/-- Three-player game in which player 1 has lost three rounds and has rolled
and called dudo in the fourth, holding two dice. -/
def cmds_three_two_dice : List (Int × Command) :=
  cmd_start :: (cmds_round1 ++ cmds_round1 ++ cmds_round1 ++ cmds_dudo1)

/-- Three-player game in which player 1 has lost four rounds: one die left,
palifico triggered. -/
def cmds_one_die : List (Int × Command) :=
  cmd_start :: (cmds_round1 ++ cmds_round1 ++ cmds_round1 ++ cmds_round1)

/-- The struct of player 1 in the palifico round, once it has rolled and called
dudo. -/
def caller1_one_die : tfdg_player := { caller1 with dice_count := 1, ex_palifico := true }

/-- The struct of player 3 in round one of the three-player game, once player 1
has called dudo: player 3 sits before player 1 in the circular turn order and
is the other dudo candidate. -/
def candidate3 : tfdg_player :=
  { seated 3 "00000000-0000-0000-0000-000000000003" "Player 3" "client3" with
    dice_values := List.replicate 5 1 ++ List.replicate 15 0
    state := tps_dudo_candidate }


/-! ## Login, logout, leave-game, set-option, sound

The uthash tables of a room hold one handle per struct (`hh_uuid`,
`hh_client_id`), hence one binding per struct: HASH_ADD_KEYPTR of a struct puts
its binding first and replaces the binding the struct had, HASH_DELETE removes
the binding of the struct, HASH_FIND returns the first binding with the key.
The effect of a repeated HASH_ADD on the bucket chains of uthash is not
modelled.  The allocations (calloc, strdup, cJSON) are taken to succeed. -/

def hash_find (key : String) (table : List (String × Nat)) : Option Nat :=
  (table.find? (fun e => e.1 = key)).map (fun e => e.2)

def hash_delete (a : Nat) (table : List (String × Nat)) : List (String × Nat) :=
  table.filter (fun e => e.2 ≠ a)

def hash_add (key : String) (a : Nat) (table : List (String × Nat)) : List (String × Nat) :=
  (key, a) :: hash_delete a table

/-- The player structs of a room that are allocated: the turn order, the lost
list, and the kicked players and spectators. -/
def room_structs (r : tfdg_room) : List tfdg_player := r.players ++ r.lost_players ++ r.others

/-- The struct at address a. -/
def find_struct (r : tfdg_room) (a : Nat) : Option tfdg_player :=
  (room_structs r).find? (fun q => q.addr = a)

def modify_struct (f : tfdg_player → tfdg_player) (a : Nat) (ps : List tfdg_player) :
    List tfdg_player :=
  ps.map (fun q => if q.addr = a then f q else q)

/-- A write through the pointer a. -/
def room_modify_struct (r : tfdg_room) (a : Nat) (f : tfdg_player → tfdg_player) : tfdg_room :=
  { r with
    players := modify_struct f a r.players
    lost_players := modify_struct f a r.lost_players
    others := modify_struct f a r.others }

/-- The options of room_create. -/
def room_create_options : tfdg_room_options :=
  { max_dice := 5, max_dice_value := 6, allow_calza := true, losers_see_dice := true,
    random_max_dice_value := false, roll_dice_at_start := true, show_results_table := true }

/-- The room that room_create leaves: calloc zeroes every field, then the
options, the state and the uuid are set. -/
def room_create (room : String) : tfdg_room :=
  { uuid := room, player_by_uuid := [], player_by_client_id := [], others := [], players := [],
    lost_players := [], player_count := 0, current_count := 0, state := tgs_lobby,
    start_time := 0, last_event := 0, host := none, starter := none, dudo_caller := none,
    calza_caller := none, round_loser := none, round_winner := none, round := 0,
    dudo_success := 0, dudo_fail := 0, calza_success := 0, calza_fail := 0,
    palifico_round := false, options := room_create_options, pre_roll_count := 0,
    totals := List.replicate 20 0, published := [] }

def tfdg_send_current_state (r : tfdg_room) (a : Nat) : tfdg_room :=
  easy_publish r (Event.state a)

/-- A struct fresh from calloc with uuid, name and client id set; the zero
state is tps_lobby. -/
def new_player (a : Nat) (uuid name client_id : String) : tfdg_player :=
  { addr := a, uuid := uuid, name := name, client_id := client_id, dice_count := 0,
    dice_values := List.replicate 20 0, login_count := 0, state := tps_lobby, pre_roll := 0,
    ex_palifico := false }

/-- Login to a lobby by a uuid that has no seat: a new struct at address
`fresh` joins the turn order and both hash tables. -/
def login_lobby_new (fresh : Nat) (name uuid client_id : String) (r : tfdg_room) : tfdg_room :=
  let p := player_set_dice_count (new_player fresh uuid name client_id) r.options.max_dice
  { r with
    players := r.players ++ [p]
    player_count := r.player_count + 1
    player_by_uuid := hash_add uuid fresh r.player_by_uuid
    player_by_client_id := hash_add client_id fresh r.player_by_client_id }

/-- Login to a lobby by the uuid of the seat q: the seat is bound to the client
id of the sender. -/
def login_lobby_rebind (client_id : String) (q : tfdg_player) (r : tfdg_room) : tfdg_room :=
  let table := match hash_find q.client_id r.player_by_client_id with
    | some _ => hash_delete q.addr r.player_by_client_id
    | none => r.player_by_client_id
  let r1 := room_modify_struct r q.addr (fun s => { s with client_id := client_id })
  { r1 with player_by_client_id := hash_add client_id q.addr table }

/-- Login to a running game by the uuid of the seat q. -/
def login_rebind (client_id : String) (q : tfdg_player) (r : tfdg_room) : tfdg_room :=
  let table := match hash_find client_id r.player_by_client_id with
    | some b => hash_delete b r.player_by_client_id
    | none => r.player_by_client_id
  let r1 := room_modify_struct r q.addr (fun s => { s with client_id := client_id })
  tfdg_send_current_state { r1 with player_by_client_id := hash_add client_id q.addr table } q.addr

/-- Login to a running game by a uuid that has no seat: a spectator struct at
address `fresh`, bound to the client id only. -/
def login_spectator (fresh : Nat) (name uuid client_id : String) (r : tfdg_room) : tfdg_room :=
  let p := player_set_state (player_set_dice_count (new_player fresh uuid name client_id) 0)
    tps_spectator
  let table := match hash_find client_id r.player_by_client_id with
    | some b => hash_delete b r.player_by_client_id
    | none => r.player_by_client_id
  tfdg_send_current_state
    { r with others := r.others ++ [p], player_by_client_id := hash_add client_id fresh table } fresh

/-- The end of tfdg_handle_login for the struct at address a. -/
def login_finish (a : Nat) (r : tfdg_room) : tfdg_room :=
  let r1 := if r.host = none then room_set_host r (some a) else r
  tfdg_send_host (room_modify_struct r1 a (fun s => { s with login_count := s.login_count + 1 }))

/-- The handler tfdg_handle_login(client, room, room_s, msg): `room_s` is `none`
for NULL, `now` is time(NULL), `fresh` the address a calloc of a player struct
returns.  The result is the room under the name `room` afterwards. -/
def tfdg_handle_login (now : Int) (fresh : Nat) (room : String) (msg : mosquitto_acl_msg)
    (room_s : Option tfdg_room) : Option tfdg_room :=
  match msg.name_uuid with
  | none => room_s
  | some nu =>
    let r0 := match room_s with
      | none => room_create room
      | some r => r
    let r1 := room_set_last_event r0 now
    let found := (find_player_from_json msg r1).bind (fun i => r1.players[i]?)
    if r1.state = tgs_lobby then
      match found with
      | none =>
        some (login_finish fresh
          (tfdg_send_lobby_players (login_lobby_new fresh nu.1 nu.2 msg.client_id r1)))
      | some q =>
        some (login_finish q.addr
          (tfdg_send_lobby_players (login_lobby_rebind msg.client_id q r1)))
    else
      match found with
      | some q => some (login_finish q.addr (login_rebind msg.client_id q r1))
      | none => some (login_finish fresh (login_spectator fresh nu.1 nu.2 msg.client_id r1))

/-- The client-id binding that logout removes: the one HASH_FIND returns for
the client id of the player, which is the player itself or a later struct with
the same client id. -/
def logout_unbind (r : tfdg_room) (p : tfdg_player) : tfdg_room :=
  match hash_find p.client_id r.player_by_client_id with
  | none => r
  | some b => { r with player_by_client_id := hash_delete b r.player_by_client_id }

/-- The lobby branch of tfdg_handle_logout: the struct leaves the uuid table and
the turn order and is freed.  For a struct that is not in the turn order (a
kicked player) the list is left as it is: what CDL_DELETE does with its stale
links is not modelled. -/
def logout_remove (r : tfdg_room) (p : tfdg_player) : tfdg_room :=
  let r1 : tfdg_room := { r with player_by_uuid := hash_delete p.addr r.player_by_uuid }
  let r2 : tfdg_room := match find_addr p.addr r1.players with
    | some i => room_delete_player r1 i
    | none =>
      if r1.host = some p.addr then
        tfdg_send_host (room_set_host r1 (r1.players.head?.map (fun q => q.addr)))
      else r1
  { r2 with
    player_count := r2.player_count - 1
    others := r2.others.filter (fun q => q.addr ≠ p.addr) }

/-- The end of tfdg_handle_logout for the struct that was at address a, when
the turn order is not empty. -/
def logout_finish (r : tfdg_room) (a : Nat) : tfdg_room :=
  let r1 : tfdg_room := if r.host = some a then
      tfdg_send_host (room_set_host r (r.players.head?.map (fun q => q.addr)))
    else r
  if r1.state = tgs_lobby then tfdg_send_lobby_players r1 else r1

/-- The handler tfdg_handle_logout for a room that exists.  The result `none`
is cleanup_room: the room is gone.  The player is looked up in the uuid table
only; the client id of the sender is not read. -/
def tfdg_handle_logout (msg : mosquitto_acl_msg) (r : tfdg_room) : Option tfdg_room :=
  match msg.name_uuid with
  | none => some r
  | some nu =>
    match hash_find nu.2 r.player_by_uuid with
    | none => some r
    | some a =>
      match find_struct r a with
      | none => some r
      | some p =>
        let r1 := room_modify_struct r a (fun s => { s with login_count := s.login_count - 1 })
        if p.login_count - 1 > 0 then some r1
        else
          let r2 := logout_unbind r1 p
          let r3 := if r2.state = tgs_lobby then logout_remove r2 p else r2
          if r3.players = [] then none else some (logout_finish r3 a)

/-- The writes of tfdg_handle_leave_game in a running game for the player p at
position i. -/
def leave_game_apply (r : tfdg_room) (i : Nat) (p : tfdg_player) : tfdg_room :=
  let r1 := easy_publish r (Event.player_left p.addr)
  let r2 := room_delete_player r1 i
  let r3 := room_set_current_count { r2 with lost_players := r2.lost_players ++ [p] }
    (r2.current_count - 1)
  if r3.current_count = 1 then tfdg_handle_winner r3 else r3

/-- The handler tfdg_handle_leave_game for a room that exists; `none` when the
logout it hands over to cleans the room up. -/
def tfdg_handle_leave_game (msg : mosquitto_acl_msg) (r : tfdg_room) : Option tfdg_room :=
  match find_player_check_id msg r with
  | none => some r
  | some i =>
    match r.players[i]? with
    | none => some r
    | some p =>
      if r.state = tgs_playing_round ∨ r.state = tgs_round_over ∨ r.state = tgs_game_over then
        some (leave_game_apply r i p)
      else if r.state = tgs_lobby then tfdg_handle_logout msg r
      else some r

def MAX_DICE : Int := 20

def MAX_DICE_VALUE : Int := 9

def publish_int_option (r : tfdg_room) (option : String) (value : Int) : tfdg_room :=
  easy_publish r (Event.set_option_int option value)

def publish_bool_option (r : tfdg_room) (option : String) (value : Bool) : tfdg_room :=
  easy_publish r (Event.set_option_bool option value)

/-- The chain of strcmp tests of tfdg_handle_set_option on the option name. -/
def set_option_apply (r : tfdg_room) (option : String) (value : json_value) : tfdg_room :=
  if option = "max-dice" then
    match value with
    | json_value.number ival =>
      if ival ≥ 3 ∧ ival ≤ MAX_DICE then
        publish_int_option { r with options := { r.options with max_dice := ival } }
          "max-dice" ival
      else r
    | _ => r
  else if option = "max-dice-value" then
    match value with
    | json_value.number ival =>
      if ival ≥ 3 ∧ ival ≤ MAX_DICE_VALUE then
        publish_int_option { r with options := { r.options with max_dice_value := ival } }
          "max-dice-value" ival
      else r
    | _ => r
  else if option = "random-max-dice-value" then
    match value with
    | json_value.bool b =>
      publish_bool_option { r with options := { r.options with random_max_dice_value := b } }
        "random-max-dice-value" b
    | _ => r
  else if option = "allow-calza" then
    match value with
    | json_value.bool b =>
      publish_bool_option { r with options := { r.options with allow_calza := b } }
        "allow-calza" b
    | _ => r
  else if option = "roll-dice-at-start" then
    match value with
    | json_value.bool b =>
      publish_bool_option { r with options := { r.options with roll_dice_at_start := b } }
        "roll-dice-at-start" b
    | _ => r
  else if option = "show-results-table" then
    match value with
    | json_value.bool b =>
      publish_bool_option { r with options := { r.options with show_results_table := b } }
        "show-results-table" b
    | _ => r
  else if option = "losers-see-dice" then
    match value with
    | json_value.bool b =>
      publish_bool_option { r with options := { r.options with losers_see_dice := b } }
        "losers-see-dice" b
    | _ => r
  else r

/-- The handler tfdg_handle_set_option for a room that exists. -/
def tfdg_handle_set_option (msg : mosquitto_acl_msg) (r : tfdg_room) : tfdg_room :=
  match find_player_check_id msg r with
  | none => r
  | some i =>
    match r.players[i]? with
    | none => r
    | some p =>
      if r.state ≠ tgs_lobby ∨ r.host ≠ some p.addr then r
      else
        match msg.option with
        | none => r
        | some option =>
          match msg.value with
          | none => r
          | some value => set_option_apply r option value

/-- The handler tfdg_handle_sound for a room that exists: the byte is published
whether or not RAND_bytes succeeded. -/
def tfdg_handle_sound (rnd : rand_bytes) (type : String) (r : tfdg_room) : tfdg_room :=
  if r.state ≠ tgs_playing_round then r
  else easy_publish r (Event.sound type (rnd.bytes 0 % 256))

/-! ## The access check -/

/-- The function is_hex on a character code. -/
def is_hex (c : Nat) : Bool :=
  (48 ≤ c ∧ c ≤ 57) ∨ (65 ≤ c ∧ c ≤ 70) ∨ (97 ≤ c ∧ c ≤ 102)

/-- The byte `s[i]` of a C string as far as validate_uuid needs it: the
character that starts at byte offset i, and a non-zero value that is no dash
when offset i is inside a character. -/
def c_char (s : String) (i : Nat) : Nat := (s.get ⟨i⟩).toNat

/-- One step of the four loops of validate_uuid: the argument of is_hex is the
value of the comparison `uuid[i] == false`, that is 1 for a zero byte and 0
otherwise. -/
def validate_uuid_step (uuid : String) (i : Nat) : Bool :=
  is_hex (if c_char uuid i = 0 then 1 else 0)

/-- The function validate_uuid: strlen is the number of bytes of the string. -/
def validate_uuid (uuid : String) : Bool :=
  if uuid.utf8ByteSize ≠ 36 then false
  else if c_char uuid 8 ≠ 45 ∨ c_char uuid 13 ≠ 45 ∨ c_char uuid 18 ≠ 45 ∨ c_char uuid 23 ≠ 45 then
    false
  else if (List.range 8).any (fun i => validate_uuid_step uuid i) then false
  else if (List.range 4).any (fun i => validate_uuid_step uuid (9 + i)) then false
  else if (List.range 4).any (fun i => validate_uuid_step uuid (14 + i)) then false
  else if (List.range 17).any (fun i => validate_uuid_step uuid (19 + i)) then false
  else true

/-- One of the three loops of tfdg_topic_tokenise: `cur` holds the characters
from `start` up to the scanning position, the list is the rest of the topic.
A delimiter (a slash or the end of the string) after a non-empty `cur` ends the
token; the scan of the next loop starts behind the delimiter. -/
def tokenise_loop : List Char → List Char → Option String × List Char
  | cur, [] => (if cur ≠ [] then some (String.mk cur) else none, [])
  | cur, c :: cs =>
    if c = '/' then
      if cur ≠ [] then (some (String.mk cur), cs) else tokenise_loop [] cs
    else tokenise_loop (cur ++ [c]) cs

/-- The function tfdg_topic_tokenise: the tokens room, cmd and player. -/
def tfdg_topic_tokenise (topic : List Char) : Option String × Option String × Option String :=
  let t1 := tokenise_loop [] topic
  let t2 := tokenise_loop [] t1.2
  let t3 := tokenise_loop [] t2.2
  (t1.1, t2.1, t3.1)

/-- The access kinds MOSQ_ACL_READ, MOSQ_ACL_WRITE, MOSQ_ACL_SUBSCRIBE of the
broker, and any other value of `access`. -/
inductive acl_access where
  | MOSQ_ACL_READ
  | MOSQ_ACL_WRITE
  | MOSQ_ACL_SUBSCRIBE
  | other
  deriving DecidableEq, Repr

/-- The return codes of the access check. -/
inductive acl_result where
  | MOSQ_ERR_SUCCESS
  | MOSQ_ERR_ACL_DENIED
  | MOSQ_ERR_PLUGIN_DEFER
  | MOSQ_ERR_INVAL
  deriving DecidableEq, Repr

open acl_access acl_result

/-- What one call of the access check reads of the outside, besides the
message: the clock at the stamp of the dispatcher and inside the handler, the
address of the next player struct, and the outcomes of the calls of RAND_bytes
in order. -/
structure acl_outside where
  now : Int
  later : Int
  fresh : Nat
  rnd1 : rand_bytes
  rnd2 : rand_bytes
  rnd3 : rand_bytes

/-- The READ branch of mosquitto_auth_acl_check behind the room lookup.  The
result is the return code and the room afterwards; `none` stands for a run
that reads through a NULL or dangling pointer and has no defined answer. -/
def acl_check_read (cmd : String) (player : Option String) (msg : mosquitto_acl_msg)
    (room_s : Option tfdg_room) : Option (acl_result × Option tfdg_room) :=
  if cmd = "room-closing" ∧ (room_s.map (fun r => r.state)) = some tgs_game_over then
    some (MOSQ_ERR_ACL_DENIED, none)
  else if cmd = "dice" ∨ cmd = "msg" then
    match player, room_s with
    | some player, some r =>
      match find_client_id msg.client_id r with
      | none => some (MOSQ_ERR_ACL_DENIED, room_s)
      | some a =>
        match find_struct r a with
        | none => none
        | some p =>
          if p.uuid ≠ player then some (MOSQ_ERR_ACL_DENIED, room_s)
          else some (MOSQ_ERR_SUCCESS, room_s)
    | _, _ => some (MOSQ_ERR_ACL_DENIED, room_s)
  else if cmd = "loser-results" ∨ cmd = "loser-summary-results" then
    match room_s with
    | none => none
    | some r =>
      if r.lost_players.any (fun q => q.client_id = msg.client_id) then
        some (MOSQ_ERR_SUCCESS, room_s)
      else some (MOSQ_ERR_ACL_DENIED, room_s)
  else
    match room_s with
    | none => some (MOSQ_ERR_ACL_DENIED, room_s)
    | some r =>
      match find_client_id msg.client_id r with
      | none => some (MOSQ_ERR_ACL_DENIED, room_s)
      | some _ => some (MOSQ_ERR_SUCCESS, room_s)

/-- The dispatch of the WRITE branch on the command name, after the stamp.
Most handlers return at once for a NULL room; tfdg_handle_call_calza and
tfdg_handle_sound read `room_s->options` and `room_s->state` first. -/
def acl_check_dispatch (room cmd : String) (msg : mosquitto_acl_msg) (o : acl_outside)
    (room_s : Option tfdg_room) : Option (Option tfdg_room) :=
  if cmd = "login" then some (tfdg_handle_login o.later o.fresh room msg room_s)
  else if cmd = "logout" then some (room_s.bind (tfdg_handle_logout msg))
  else if cmd = "start-game" then
    some (room_s.map (tfdg_handle_start_game o.later o.rnd1 o.rnd2 o.rnd3 msg))
  else if cmd = "roll-dice" then some (room_s.map (tfdg_handle_roll_dice o.rnd1 msg))
  else if cmd = "call-dudo" then some (room_s.map (tfdg_handle_call_dudo msg))
  else if cmd = "call-calza" then
    match room_s with
    | none => none
    | some r => some (some (tfdg_handle_call_calza msg r))
  else if cmd = "i-lost" then some (room_s.map (tfdg_handle_i_lost msg))
  else if cmd = "i-won" then some (room_s.map (tfdg_handle_i_won msg))
  else if cmd = "undo-loser" then some (room_s.map (tfdg_handle_undo_loser msg))
  else if cmd = "undo-winner" then some (room_s.map (tfdg_handle_undo_winner msg))
  else if cmd = "leave-game" then some (room_s.bind (tfdg_handle_leave_game msg))
  else if cmd = "kick-player" then some (room_s.map (tfdg_handle_kick_player msg))
  else if cmd = "set-option" then some (room_s.map (tfdg_handle_set_option msg))
  else if cmd = "snd-higher" then
    match room_s with
    | none => none
    | some r => some (some (tfdg_handle_sound o.rnd1 "higher" r))
  else if cmd = "snd-exact" then
    match room_s with
    | none => none
    | some r => some (some (tfdg_handle_sound o.rnd1 "exact" r))
  else some room_s

/-- The WRITE branch of mosquitto_auth_acl_check behind the room lookup. -/
def acl_check_write (room cmd : String) (msg : mosquitto_acl_msg) (o : acl_outside)
    (room_s : Option tfdg_room) : Option (acl_result × Option tfdg_room) :=
  (acl_check_dispatch room cmd msg o (room_s.map (fun r => room_set_last_event r o.now))).map
    (fun after => (MOSQ_ERR_ACL_DENIED, after))

/-- The directory of rooms with the entry under `room` replaced. -/
def room_by_uuid_set (room_by_uuid : String → Option tfdg_room) (room : String)
    (room_s : Option tfdg_room) : String → Option tfdg_room :=
  fun key => if key = room then room_s else room_by_uuid key

/-- The function mosquitto_auth_acl_check for a message on `topic`.
`room_by_uuid` is the directory of rooms (HASH_FIND by the room token).  The
result is the return code and the directory afterwards; `none` stands for a run
that reads through a NULL or dangling pointer and has no defined answer. -/
def mosquitto_auth_acl_check (access : acl_access) (topic : String) (msg : mosquitto_acl_msg)
    (o : acl_outside) (room_by_uuid : String → Option tfdg_room) :
    Option (acl_result × (String → Option tfdg_room)) :=
  if topic.data.take 5 ≠ ['t', 'f', 'd', 'g', '/'] then some (MOSQ_ERR_PLUGIN_DEFER, room_by_uuid)
  else if access = MOSQ_ACL_SUBSCRIBE then
    if topic = "tfdg/#" ∨ topic = "tfdg/stats" then some (MOSQ_ERR_SUCCESS, room_by_uuid)
    else some (MOSQ_ERR_ACL_DENIED, room_by_uuid)
  else if access = MOSQ_ACL_READ ∧ topic = "tfdg/stats" then some (MOSQ_ERR_SUCCESS, room_by_uuid)
  else
    match tfdg_topic_tokenise (topic.data.drop 5) with
    | (some room, some cmd, player) =>
      if validate_uuid room = false then some (MOSQ_ERR_ACL_DENIED, room_by_uuid)
      else if (player.map validate_uuid) = some false then some (MOSQ_ERR_ACL_DENIED, room_by_uuid)
      else
        let room_s := room_by_uuid room
        if access = MOSQ_ACL_READ then
          (acl_check_read cmd player msg room_s).map
            (fun x => (x.1, room_by_uuid_set room_by_uuid room x.2))
        else if access = MOSQ_ACL_WRITE then
          (acl_check_write room cmd msg o room_s).map
            (fun x => (x.1, room_by_uuid_set room_by_uuid room x.2))
        else some (MOSQ_ERR_INVAL, room_by_uuid)
    | _ => some (MOSQ_ERR_ACL_DENIED, room_by_uuid)

/-! ## Requests to the access check, from an empty server -/

/-- The room id used in the examples. -/
def room0 : String := "00000000-0000-0000-0000-000000000000"

/-- A directory without rooms. -/
def no_rooms : String → Option tfdg_room := fun _ => none

/-- The outside of a request at time 1000: the next player struct is at
address `fresh` and RAND_bytes fills its buffer with zero bytes. -/
def outside (fresh : Nat) : acl_outside :=
  { now := 1000, later := 1000, fresh := fresh, rnd1 := zero_bytes, rnd2 := zero_bytes,
    rnd3 := zero_bytes }

/-- A request to the access check: access kind, topic, message, outside. -/
abbrev acl_request : Type := acl_access × String × mosquitto_acl_msg × acl_outside

/-- The access check called on the requests in order, each on the directory the
one before left; `none` once a call has no defined answer. -/
def serve : List acl_request → (String → Option tfdg_room) → Option (String → Option tfdg_room)
  | [], dir => some dir
  | q :: qs, dir =>
    match mosquitto_auth_acl_check q.1 q.2.1 q.2.2.1 q.2.2.2 dir with
    | none => none
    | some res => serve qs res.2

/-- A WRITE request on a command topic of room0. -/
def write_cmd (cmd : String) (msg : mosquitto_acl_msg) (fresh : Nat) : acl_request :=
  (acl_access.MOSQ_ACL_WRITE, "tfdg/00000000-0000-0000-0000-000000000000/" ++ cmd, msg,
    outside fresh)

/-- Players 1 and 2 log in to room0, which creates the room with player 1 as
host. -/
def logins2 : List acl_request := [write_cmd "login" msg1 1, write_cmd "login" msg2 2]

/-- Client 2 sends a logout that names player 1. -/
def msg2_names1 : mosquitto_acl_msg :=
  { client_id := "client2", name_uuid := some ("Player 1", "00000000-0000-0000-0000-000000000001") }

/-- What is looked at of a room in the examples: state, seated players with
their login counts, player count, host. -/
structure room_view where
  state : tfdg_game_state
  seats : List (Nat × Int)
  player_count : Int
  host : Option Nat
  deriving DecidableEq, Repr

def view (r : tfdg_room) : room_view :=
  { state := r.state, seats := r.players.map (fun q => (q.addr, q.login_count)),
    player_count := r.player_count, host := r.host }

/-- The view of room0 after the requests, from an empty server. -/
def served_view (qs : List acl_request) : Option (Option room_view) :=
  (serve qs no_rooms).map (fun dir => (dir room0).map view)

/-- The host sets an option of the lobby. -/
def msg1_option (option : String) (value : json_value) : mosquitto_acl_msg :=
  { msg1 with option := some option, value := some value }

/-- A lobby of two in which both players have rolled the same pre-roll value
and the second roll has just been counted. -/
def pre_roll_tie : tfdg_room :=
  { lobby2 with
    state := tgs_pre_roll
    players := lobby2.players.map (fun q => { q with state := tps_pre_roll_sent, pre_roll := 1 })
    pre_roll_count := 0 }

/-! ## Words for the pre-roll claims -/

/-- The player q has sent its pre-roll and no player of the list that has sent
one holds a higher value. -/
def holds_pre_roll_max (ps : List tfdg_player) (q : tfdg_player) : Bool :=
  decide (q.state = tps_pre_roll_sent) &&
    ps.all (fun s => decide (s.state = tps_pre_roll_sent → s.pre_roll ≤ q.pre_roll))

/-- The players that are to draw: the addresses of the players in tps_pre_roll. -/
def pre_roll_eligible (ps : List tfdg_player) : List Nat :=
  (ps.filter (fun q => q.state = tps_pre_roll)).map (fun q => q.addr)

/-- The players that have drawn and sent their value in this iteration. -/
def pre_roll_drew (ps : List tfdg_player) : List Nat :=
  (ps.filter (fun q => q.state = tps_pre_roll_sent)).map (fun q => q.addr)

/-- What is looked at of a room in the pre-roll examples. -/
structure pre_roll_view where
  state : tfdg_game_state
  seats : List (Nat × tfdg_player_state × Int)
  pre_roll_count : Int
  starter : Option Nat
  deriving DecidableEq, Repr

def view_pre_roll (r : tfdg_room) : pre_roll_view :=
  { state := r.state, seats := r.players.map (fun q => (q.addr, q.state, q.pre_roll)),
    pre_roll_count := r.pre_roll_count, starter := r.starter }

/-- Both players of the room send roll-dice during the pre-roll. -/
def rolls2 : List acl_request := [write_cmd "roll-dice" msg1 3, write_cmd "roll-dice" msg2 3]

/-- Players 1 and 2 log in and the host starts the game; the room was created
with roll-dice-at-start on, so the pre-roll begins. -/
def pre_roll_start : List acl_request := logins2 ++ [write_cmd "start-game" msg1 3]

/-- A pre-roll of two in which player 2 holds the higher value and the second
roll has just been counted. -/
def pre_roll_unique : tfdg_room :=
  { lobby2 with
    state := tgs_pre_roll
    players := [{ seated 1 "00000000-0000-0000-0000-000000000001" "Player 1" "client1" with
                  state := tps_pre_roll_sent, pre_roll := 1 },
                { seated 2 "00000000-0000-0000-0000-000000000002" "Player 2" "client2" with
                  state := tps_pre_roll_sent, pre_roll := 2 }]
    pre_roll_count := 0 }

/-- One round of a pre-roll of players 1 and 2 in which RAND_bytes gives zero
bytes: both send roll-dice. -/
def tie_round (r : tfdg_room) : tfdg_room :=
  tfdg_handle_roll_dice zero_bytes msg2 (tfdg_handle_roll_dice zero_bytes msg1 r)

/-- The room after pre_roll_start, from an empty server. -/
def pre_roll_started : tfdg_room :=
  ((serve pre_roll_start no_rooms).bind (fun dir => dir room0)).getD lobby2

/-- Players 1 and 2, both about to draw with the pre-roll value 1. -/
def tie_players : List tfdg_player :=
  [{ seated 1 "00000000-0000-0000-0000-000000000001" "Player 1" "client1" with
      state := tps_pre_roll, pre_roll := 1 },
   { seated 2 "00000000-0000-0000-0000-000000000002" "Player 2" "client2" with
      state := tps_pre_roll, pre_roll := 1 }]

/-! ## JSON documents: payloads and the persisted state

A parsed JSON document is a value of `cJSON`.  A number holds an integer: the
numbers of the documents at hand are integers in the range of `int`, for which
`valueint` and `valuedouble` agree.  A payload that cJSON_ParseWithLength does
not accept is `none`. -/

inductive cJSON where
  | null
  | bool (b : Bool)
  | number (value : Int)
  | string (valuestring : String)
  | array (items : List cJSON)
  | object (members : List (String × cJSON))

/-- The first member of an object with this name; NULL for anything that is
not an object. -/
def cJSON_GetObjectItemCaseSensitive (json : cJSON) (name : String) : Option cJSON :=
  match json with
  | cJSON.object members => (members.find? (fun m => m.1 = name)).map (fun m => m.2)
  | _ => none

/-- The function json_get_int (and json_get_long): `none` for MOSQ_ERR_INVAL. -/
def json_get_int (json : cJSON) (name : String) : Option Int :=
  match cJSON_GetObjectItemCaseSensitive json name with
  | some (cJSON.number v) => some v
  | _ => none

def json_get_bool (json : cJSON) (name : String) : Option Bool :=
  match cJSON_GetObjectItemCaseSensitive json name with
  | some (cJSON.bool b) => some b
  | _ => none

def json_get_string (json : cJSON) (name : String) : Option String :=
  match cJSON_GetObjectItemCaseSensitive json name with
  | some (cJSON.string s) => some s
  | _ => none

def MAX_NAME_LEN : Nat := 30

/-- The function json_parse_name_uuid on the parsed payload: `none` when it
returns 1, else the name and the uuid.  strlen counts the bytes of the name. -/
def json_parse_name_uuid (tree : Option cJSON) : Option (String × String) :=
  match tree.bind (fun t => json_get_string t "name"),
      tree.bind (fun t => json_get_string t "uuid") with
  | some name, some uuid =>
    if name.utf8ByteSize > MAX_NAME_LEN ∨ validate_uuid uuid = false then none
    else some (name, uuid)
  | _, _ => none

/-- The value member of a set-option payload as the handler looks at it. -/
def json_value_of : cJSON → json_value
  | cJSON.number v => json_value.number v
  | cJSON.bool b => json_value.bool b
  | _ => json_value.other

/-- What the handlers read of a message with this parsed payload, sent by the
connection with this client id. -/
def payload_msg (client_id : String) (tree : Option cJSON) : mosquitto_acl_msg :=
  { client_id := client_id,
    name_uuid := json_parse_name_uuid tree,
    option := tree.bind (fun t => json_get_string t "option"),
    value := tree.bind (fun t =>
      (cJSON_GetObjectItemCaseSensitive t "value").map json_value_of) }

/-- An int read into `enum tfdg_game_state`.  An int that names no state of the
enum is read as tgs_none: the handlers compare the state with named constants
only, so both behave alike. -/
def game_state_of_int (v : Int) : tfdg_game_state :=
  if v = 0 then tgs_lobby
  else if v = 1 then tgs_playing_round
  else if v = 4 then tgs_sending_results
  else if v = 5 then tgs_awaiting_loser
  else if v = 6 then tgs_round_over
  else if v = 7 then tgs_game_over
  else if v = 8 then tgs_pre_roll
  else if v = 9 then tgs_pre_roll_over
  else tgs_none

/-- The loop of load_player_state over the array "dice", at index i.  The
outer `none` is a write behind the 20 entries of dice_values, `some none` is
`goto cleanup`. -/
def load_dice_loop (max_dice_value : Int) : Nat → List cJSON → Option (Option (List Int))
  | _, [] => some (some [])
  | i, cJSON.number v :: rest =>
    if i ≥ 20 then none
    else if v > MAX_DICE_VALUE ∨ v < 0 ∨ v > max_dice_value then some none
    else (load_dice_loop max_dice_value (i + 1) rest).map (fun o => o.map (fun vs => v :: vs))
  | _, _ :: _ => some none

/-- The function load_player_state for a room with these options: the struct
it appends to the turn order, at address a.  `some none` is the return value
NULL; the outer `none` is a run without a defined result.  The client id of a
loaded player is NULL, rendered as the empty string. -/
def load_player_state (options : tfdg_room_options) (a : Nat) (j_player : cJSON) :
    Option (Option tfdg_player) :=
  match json_get_int j_player "state", json_get_int j_player "dice-count",
      json_get_string j_player "uuid", json_get_string j_player "name",
      json_get_bool j_player "ex-palifico" with
  | some state, some dice_count, some uuid, some name, some ex_palifico =>
    if validate_uuid uuid = false then some none
    else
      match cJSON_GetObjectItemCaseSensitive j_player "dice" with
      | some (cJSON.array j_dice) =>
        if dice_count > MAX_DICE ∨ dice_count > options.max_dice then some none
        else
          (load_dice_loop options.max_dice_value 0 j_dice).map (fun o => o.map (fun vs =>
            { addr := a, uuid := uuid, name := name, client_id := "", dice_count := dice_count,
              dice_values := vs ++ List.replicate (20 - vs.length) 0, login_count := 0,
              state := player_state_of_int state, pre_roll := 0, ex_palifico := ex_palifico }))
      | _ => some none
  | _, _, _, _, _ => some none

/-- The function load_lost_player_state: uuid and name only, every other field
as calloc leaves it. -/
def load_lost_player_state (a : Nat) (j_player : cJSON) : Option tfdg_player :=
  match json_get_string j_player "uuid", json_get_string j_player "name" with
  | some uuid, some name =>
    if validate_uuid uuid = false then none else some (new_player a uuid name "")
  | _, _ => none

/-- The scalar members of a game entry that load_game_state reads first. -/
structure game_fields where
  player_count : Int
  state : Int
  start_time : Int
  last_event : Int
  round : Int
  dudo_success : Int
  dudo_fail : Int
  calza_success : Int
  calza_fail : Int
  uuid : String
  host : String
  starter : String
  dudo_caller : String
  calza_caller : String
  round_loser : String
  round_winner : String
  palifico_round : Bool

def load_game_fields (j_game : cJSON) : Option game_fields :=
  match json_get_int j_game "player-count", json_get_int j_game "state",
      json_get_int j_game "start-time", json_get_int j_game "last-event",
      json_get_int j_game "round", json_get_int j_game "dudo-success",
      json_get_int j_game "dudo-fail", json_get_int j_game "calza-success",
      json_get_int j_game "calza-fail" with
  | some player_count, some state, some start_time, some last_event, some round,
      some dudo_success, some dudo_fail, some calza_success, some calza_fail =>
    match json_get_string j_game "uuid", json_get_string j_game "host",
        json_get_string j_game "starter", json_get_string j_game "dudo-caller",
        json_get_string j_game "calza-caller", json_get_string j_game "round-loser",
        json_get_string j_game "round-winner", json_get_bool j_game "palifico-round" with
    | some uuid, some host, some starter, some dudo_caller, some calza_caller, some round_loser,
        some round_winner, some palifico_round =>
      some { player_count := player_count, state := state, start_time := start_time,
             last_event := last_event, round := round, dudo_success := dudo_success,
             dudo_fail := dudo_fail, calza_success := calza_success, calza_fail := calza_fail,
             uuid := uuid, host := host, starter := starter, dudo_caller := dudo_caller,
             calza_caller := calza_caller, round_loser := round_loser,
             round_winner := round_winner, palifico_round := palifico_round }
    | _, _, _, _, _, _, _, _ => none
  | _, _, _, _, _, _, _, _, _ => none

/-- The options of a game entry as load_game_state reads them: five members are
read, the two upper bounds are clamped; random_max_dice_value and
roll_dice_at_start are not read and stay as calloc leaves them. -/
def load_game_options (j_options : cJSON) : Option tfdg_room_options :=
  match json_get_int j_options "max-dice", json_get_int j_options "max-dice-value",
      json_get_bool j_options "allow-calza", json_get_bool j_options "losers-see-dice",
      json_get_bool j_options "show-results-table" with
  | some max_dice, some max_dice_value, some allow_calza, some losers_see_dice,
      some show_results_table =>
    some { max_dice := if max_dice > MAX_DICE then MAX_DICE else max_dice,
           max_dice_value :=
             if max_dice_value > MAX_DICE_VALUE then MAX_DICE_VALUE else max_dice_value,
           allow_calza := allow_calza, losers_see_dice := losers_see_dice,
           random_max_dice_value := false, roll_dice_at_start := false,
           show_results_table := show_results_table }
  | _, _, _, _, _ => none

/-- The room as load_game_state has it after the scalar members and the
options: every other field as calloc leaves it. -/
def load_room_init (f : game_fields) (options : tfdg_room_options) : tfdg_room :=
  { uuid := f.uuid, player_by_uuid := [], player_by_client_id := [], others := [], players := [],
    lost_players := [], player_count := f.player_count, current_count := 0,
    state := game_state_of_int f.state, start_time := f.start_time, last_event := f.last_event,
    host := none, starter := none, dudo_caller := none, calza_caller := none,
    round_loser := none, round_winner := none, round := f.round,
    dudo_success := f.dudo_success, dudo_fail := f.dudo_fail,
    calza_success := f.calza_success, calza_fail := f.calza_fail,
    palifico_round := f.palifico_round, options := options, pre_roll_count := 0,
    totals := List.replicate 20 0, published := [] }

/-- The six strcmp tests of the player loop for the player p just loaded. -/
def load_room_roles (f : game_fields) (p : tfdg_player) (r : tfdg_room) : tfdg_room :=
  { r with
    host := if p.uuid = f.host then some p.addr else r.host
    starter := if p.uuid = f.starter then some p.addr else r.starter
    dudo_caller := if p.uuid = f.dudo_caller then some p.addr else r.dudo_caller
    calza_caller := if p.uuid = f.calza_caller then some p.addr else r.calza_caller
    round_loser := if p.uuid = f.round_loser then some p.addr else r.round_loser
    round_winner := if p.uuid = f.round_winner then some p.addr else r.round_winner }

/-- The loop of load_game_state over the array "players"; the structs get the
addresses a, a + 1, ...  `some none` is cleanup_room. -/
def load_players_loop (f : game_fields) : Nat → List cJSON → tfdg_room →
    Option (Option tfdg_room)
  | _, [], r => some (some r)
  | a, j_player :: rest, r =>
    match load_player_state r.options a j_player with
    | none => none
    | some none => some none
    | some (some p) =>
      let r1 : tfdg_room := { r with
        players := r.players ++ [p]
        player_by_uuid := hash_add p.uuid p.addr r.player_by_uuid }
      load_players_loop f (a + 1) rest (load_room_roles f p r1)

/-- The loop of load_game_state over the array "lost-players".  When a lost
player does not load, the source cleans the room up and goes on with the array
on the freed room: no defined result. -/
def load_lost_players_loop : Nat → List cJSON → tfdg_room → Option tfdg_room
  | _, [], r => some r
  | a, j_player :: rest, r =>
    match load_lost_player_state a j_player with
    | none => none
    | some p =>
      load_lost_players_loop (a + 1) rest
        { r with
          lost_players := r.lost_players ++ [p]
          player_by_uuid := hash_add p.uuid p.addr r.player_by_uuid }

/-- The two player loops of load_game_state for a game entry whose member
"players" is the array j_players.  An empty array leaves the local variable
`player_s` unset at its test after the loop: no defined result. -/
def load_game_lists (f : game_fields) (options : tfdg_room_options) (j_game : cJSON)
    (j_players : List cJSON) : Option (Option tfdg_room) :=
  if j_players.isEmpty then none
  else
    match load_players_loop f 1 j_players
        (room_set_current_count (load_room_init f options) j_players.length) with
    | none => none
    | some none => some none
    | some (some r1) =>
      match cJSON_GetObjectItemCaseSensitive j_game "lost-players" with
      | some (cJSON.array j_lost) =>
        (load_lost_players_loop (1 + j_players.length) j_lost r1).map some
      | _ => some none

/-- One turn of the loop of load_game_state, for the game entry j_game at the
time `now`.  `some none`: the entry is dropped and no room is left for it;
`some (some r)`: the room r is in the directory; `none`: a run without a
defined result (cleanup_room of a room that was never added to the directory
after a uuid that does not validate, an empty array of players, a lost player
that does not load, a die written behind dice_values). -/
def load_game_entry (now : Int) (j_game : cJSON) : Option (Option tfdg_room) :=
  match cJSON_GetObjectItemCaseSensitive j_game "last-event" with
  | some (cJSON.number last_event) =>
    if now > last_event + 7200 then some none
    else
      match load_game_fields j_game with
      | none => some none
      | some f =>
        if validate_uuid f.uuid = false then none
        else
          match cJSON_GetObjectItemCaseSensitive j_game "options" with
          | none => some none
          | some j_options =>
            match load_game_options j_options with
            | none => some none
            | some options =>
              match cJSON_GetObjectItemCaseSensitive j_game "players" with
              | some (cJSON.array j_players) => load_game_lists f options j_game j_players
              | _ => some none
  | _ => some none

/-- The loop of load_game_state over the game entries: the rooms of the
directory afterwards. -/
def load_game_state (now : Int) : List cJSON → Option (List tfdg_room)
  | [] => some []
  | j_game :: rest =>
    match load_game_entry now j_game with
    | none => none
    | some none => load_game_state now rest
    | some (some r) => (load_game_state now rest).map (fun rs => r :: rs)

/-- The digits of atoi. -/
def atoi_digits : Int → List Char → Int
  | acc, [] => acc
  | acc, c :: cs => if c.isDigit then atoi_digits (acc * 10 + ((c.toNat : Int) - 48)) cs else acc

/-- The libc function atoi: white space, an optional sign, decimal digits. -/
def atoi (s : String) : Int :=
  match s.data.dropWhile Char.isWhitespace with
  | '-' :: cs => - atoi_digits 0 cs
  | '+' :: cs => atoi_digits 0 cs
  | cs => atoi_digits 0 cs

/-- The loop of mosquitto_auth_plugin_init over the options, for the global
room_expiry_time. -/
def init_room_expiry_time : List (String × String) → Int → Int
  | [], t => t
  | opt :: rest, t =>
    init_room_expiry_time rest (if opt.1 = "room-expiry-time" then atoi opt.2 else t)

/-- What mosquitto_auth_plugin_init leaves: the expiry window and the rooms. -/
structure plugin_state where
  room_expiry_time : Int
  rooms : Option (List tfdg_room)

/-- The children of the member "games" that load_game_state walks. -/
def state_games (j_full_state : cJSON) : List cJSON :=
  match cJSON_GetObjectItemCaseSensitive j_full_state "games" with
  | some (cJSON.array items) => items
  | some (cJSON.object members) => members.map (fun m => m.2)
  | _ => []

/-- The function mosquitto_auth_plugin_init at the time `now`: the options are
read, then the state document (`none` when there is no file or it does not
parse) is loaded. -/
def mosquitto_auth_plugin_init (auth_opts : List (String × String)) (now : Int)
    (j_full_state : Option cJSON) : plugin_state :=
  { room_expiry_time := init_room_expiry_time auth_opts 7200,
    rooms := match j_full_state with
      | none => some []
      | some doc => load_game_state now (state_games doc) }

/-! ## Messages and documents for the examples -/

/-- Player 2, who is not the host, asks for max-dice 10. -/
def msg2_option : mosquitto_acl_msg :=
  { msg2 with option := some "max-dice", value := some (json_value.number 10) }

/-- A payload with a name and no uuid, as in TEST_single_login_bad_payload. -/
def payload_name_only : Option cJSON :=
  some (cJSON.object [("name", cJSON.string "Player 1")])

/-- Player 1 has logged in twice to a lobby of two. -/
def lobby2_twice : tfdg_room :=
  { lobby2 with
    players := [{ seated 1 "00000000-0000-0000-0000-000000000001" "Player 1" "client1" with
                  login_count := 2 },
                seated 2 "00000000-0000-0000-0000-000000000002" "Player 2" "client2"] }

/-- A player entry of the state document, with the members of
player_create_json. -/
def sample_player (uuid name : String) (state dice_count : Int) (dice : List Int) : cJSON :=
  cJSON.object [("uuid", cJSON.string uuid), ("name", cJSON.string name),
    ("state", cJSON.number state), ("dice-count", cJSON.number dice_count),
    ("dice", cJSON.array (dice.map cJSON.number)), ("ex-palifico", cJSON.bool false)]

/-- A game entry of the state document, with the members of room_create_json:
a round of room0 being played, hosted and started by player 1. -/
def sample_game (last_event max_dice max_dice_value : Int) (players : List cJSON) : cJSON :=
  cJSON.object [("player-count", cJSON.number 2), ("current-count", cJSON.number 2),
    ("state", cJSON.number 1), ("start-time", cJSON.number 1000),
    ("last-event", cJSON.number last_event), ("round", cJSON.number 1),
    ("dudo-success", cJSON.number 0), ("dudo-fail", cJSON.number 0),
    ("calza-success", cJSON.number 0), ("calza-fail", cJSON.number 0),
    ("host", cJSON.string "00000000-0000-0000-0000-000000000001"),
    ("starter", cJSON.string "00000000-0000-0000-0000-000000000001"),
    ("dudo-caller", cJSON.string ""), ("calza-caller", cJSON.string ""),
    ("round-loser", cJSON.string ""), ("round-winner", cJSON.string ""),
    ("palifico-round", cJSON.bool false),
    ("uuid", cJSON.string "00000000-0000-0000-0000-000000000000"),
    ("players", cJSON.array players), ("lost-players", cJSON.array []),
    ("options", cJSON.object [("max-dice", cJSON.number max_dice),
      ("max-dice-value", cJSON.number max_dice_value), ("results-timeout", cJSON.number 4),
      ("allow-calza", cJSON.bool true), ("roll-dice-at-start", cJSON.bool true),
      ("losers-see-dice", cJSON.bool true), ("show-results-table", cJSON.bool true)])]

/-- Players 1 and 2 holding `dice_count` dice each, all showing 1. -/
def sample_players (dice_count : Int) : List cJSON :=
  [sample_player "00000000-0000-0000-0000-000000000001" "Player 1" 2 dice_count
      (List.replicate dice_count.toNat 1),
   sample_player "00000000-0000-0000-0000-000000000002" "Player 2" 2 dice_count
      (List.replicate dice_count.toNat 1)]

/-- A state document with these game entries. -/
def state_doc (games : List cJSON) : cJSON :=
  cJSON.object [("statistics", cJSON.object [("games", cJSON.array [])]),
    ("games", cJSON.array games)]

/-- What is looked at of a loaded room in the examples. -/
structure load_view where
  uuid : String
  state : tfdg_game_state
  max_dice : Int
  max_dice_value : Int
  seats : List (Nat × Int)
  host : Option Nat
  deriving DecidableEq, Repr

def view_loaded (r : tfdg_room) : load_view :=
  { uuid := r.uuid, state := r.state, max_dice := r.options.max_dice,
    max_dice_value := r.options.max_dice_value,
    seats := r.players.map (fun q => (q.addr, q.dice_count)), host := r.host }

/-- The state document with one game entry, last touched at time 5000. -/
def sample_doc : cJSON := state_doc [sample_game 5000 5 6 (sample_players 5)]

/-- The room that the entry with max-dice 21 is loaded to at time 10000. -/
def loaded_sample : tfdg_room :=
  ((load_game_entry 10000 (sample_game 5000 21 6 (sample_players 5))).getD none).getD lobby2

/-- What is looked at of a started room in the restart example. -/
structure options_view where
  state : tfdg_game_state
  roll_dice_at_start : Bool
  random_max_dice_value : Bool
  deriving DecidableEq, Repr

def view_options (r : tfdg_room) : options_view :=
  { state := r.state, roll_dice_at_start := r.options.roll_dice_at_start,
    random_max_dice_value := r.options.random_max_dice_value }

/-- Players 1 and 2 log in, the host switches random-max-dice-value on and
roll-dice-at-start off and starts the game. -/
def random_start : List acl_request :=
  logins2 ++ [write_cmd "set-option" (msg1_option "random-max-dice-value" (json_value.bool true)) 3,
    write_cmd "set-option" (msg1_option "roll-dice-at-start" (json_value.bool false)) 3,
    write_cmd "start-game" msg1 3]

/-! ## Words and requests for the claims on ignored commands, GameOver and role references -/

/-- The test of find_player_check_id fails, or it gives the seat p and the test
G of the handler on p fails the command. -/
def seat_fails (msg : mosquitto_acl_msg) (r : tfdg_room) (G : tfdg_player → Prop) : Prop :=
  find_player_check_id msg r = none ∨
    ∃ i p, find_player_check_id msg r = some i ∧ r.players[i]? = some p ∧ G p

/-- The command names that the WRITE branch of the access check dispatches on. -/
def command_names : List String :=
  ["login", "logout", "start-game", "roll-dice", "call-dudo", "call-calza", "i-lost", "i-won",
    "undo-loser", "undo-winner", "leave-game", "kick-player", "set-option", "snd-higher",
    "snd-exact"]

/-- The five option names of tfdg_handle_set_option that take a boolean. -/
def bool_option_names : List String :=
  ["random-max-dice-value", "allow-calza", "roll-dice-at-start", "show-results-table",
    "losers-see-dice"]

/-- The option and value of a set-option for which the chain of strcmp tests of
tfdg_handle_set_option writes nothing: max-dice or max-dice-value with a value
that is no number or is out of range, a boolean option with a value that is no
boolean, an option name that is none of the seven. -/
def set_option_refused (option : String) (value : json_value) : Prop :=
  (option = "max-dice" ∧ ∀ ival, value = json_value.number ival → ¬ (3 ≤ ival ∧ ival ≤ 20)) ∨
  (option = "max-dice-value" ∧
    ∀ ival, value = json_value.number ival → ¬ (3 ≤ ival ∧ ival ≤ 9)) ∨
  (option ∈ bool_option_names ∧ ∀ b, value ≠ json_value.bool b) ∨
  option ∉ "max-dice" :: "max-dice-value" :: bool_option_names

/-- The failures for which a write command on the room r is ignored, command by
command: every path on which the handler (and what it calls) returns before its
first write.  A payload that does not parse or names no seat, a sender that is
not the connection of the seat or not the host, a room or player state in which
the command is not allowed, an option or value that is not accepted, a room too
large for the buffer of a new round, a command name that is not known. -/
def write_rejected (cmd : String) (msg : mosquitto_acl_msg) (r : tfdg_room) : Prop :=
  (cmd = "login" ∧ msg.name_uuid = none) ∨
  (cmd = "logout" ∧ (msg.name_uuid = none ∨
    ∃ nu, msg.name_uuid = some nu ∧ hash_find nu.2 r.player_by_uuid = none)) ∨
  (cmd = "start-game" ∧ (r.state ≠ tgs_lobby ∨ r.player_count < 2 ∨
    seat_fails msg r (fun p => r.host ≠ some p.addr))) ∨
  (cmd = "roll-dice" ∧ seat_fails msg r (fun p =>
    (r.state = tgs_pre_roll ∧ p.state ≠ tps_pre_roll) ∨
    (r.state ≠ tgs_pre_roll ∧
      ((r.state ≠ tgs_pre_roll_over ∧ r.state ≠ tgs_round_over) ∨ r.player_count > 199) ∧
      ∃ k q, find_addr p.addr r.players = some k ∧ r.players[k]? = some q ∧
        q.state ≠ tps_awaiting_dice))) ∨
  (cmd = "call-dudo" ∧
    seat_fails msg r (fun p => p.state ≠ tps_have_dice ∨ r.state ≠ tgs_playing_round)) ∨
  (cmd = "call-calza" ∧ (r.options.allow_calza = false ∨
    seat_fails msg r (fun p => p.state ≠ tps_have_dice ∨ p.dice_count = r.options.max_dice))) ∨
  (cmd = "i-lost" ∧ seat_fails msg r (fun p => r.round_loser ≠ none ∨
    (p.state ≠ tps_dudo_candidate ∧ p.state ≠ tps_calza_candidate))) ∨
  (cmd = "i-won" ∧ seat_fails msg r (fun p => p.state ≠ tps_calza_candidate)) ∨
  (cmd = "undo-loser" ∧ seat_fails msg r (fun p =>
    (p.state ≠ tps_dudo_candidate ∧ p.state ≠ tps_calza_candidate) ∨
      r.state ≠ tgs_round_over ∨ r.round_loser ≠ some p.addr)) ∨
  (cmd = "undo-winner" ∧ seat_fails msg r (fun p =>
    p.state ≠ tps_calza_candidate ∨ r.state ≠ tgs_round_over ∨
      r.round_winner ≠ some p.addr)) ∨
  (cmd = "leave-game" ∧ seat_fails msg r (fun _ =>
    (r.state ≠ tgs_playing_round ∧ r.state ≠ tgs_round_over ∧ r.state ≠ tgs_game_over ∧
      r.state ≠ tgs_lobby) ∨
    (r.state = tgs_lobby ∧
      ∃ nu, msg.name_uuid = some nu ∧ hash_find nu.2 r.player_by_uuid = none))) ∨
  (cmd = "kick-player" ∧ (find_player_from_json msg r = none ∨
    find_client_id msg.client_id r = none ∨ r.host ≠ find_client_id msg.client_id r ∨
    (r.state ≠ tgs_lobby ∧ r.state ≠ tgs_playing_round ∧ r.state ≠ tgs_round_over ∧
      r.state ≠ tgs_game_over))) ∨
  (cmd = "set-option" ∧ seat_fails msg r (fun p =>
    r.state ≠ tgs_lobby ∨ r.host ≠ some p.addr ∨ msg.option = none ∨ msg.value = none ∨
      ∃ option value, msg.option = some option ∧ msg.value = some value ∧
        set_option_refused option value)) ∨
  ((cmd = "snd-higher" ∨ cmd = "snd-exact") ∧ r.state ≠ tgs_playing_round) ∨
  cmd ∉ command_names

/-- The outside of a request at time 2000. -/
def outside_later : acl_outside :=
  { now := 2000, later := 2000, fresh := 4, rnd1 := zero_bytes, rnd2 := zero_bytes,
    rnd3 := zero_bytes }

/-- Players 1, 2 and 3 log in to room0. -/
def logins3 : List acl_request := logins2 ++ [write_cmd "login" msg3 3]

/-- The host switches the pre-roll off and starts the game. -/
def start_plain : List acl_request :=
  [write_cmd "set-option" (msg1_option "roll-dice-at-start" (json_value.bool false)) 4,
    write_cmd "start-game" msg1 4]

/-- A game of players 1 and 2 in which player 1 loses round one, rolls in round
two, calls calza and reports i-lost, and then player 2 leaves the game, which
ends it. -/
def game_over_calza : List acl_request :=
  logins2 ++ start_plain ++
    [write_cmd "roll-dice" msg1 4, write_cmd "roll-dice" msg2 4, write_cmd "call-dudo" msg1 4,
      write_cmd "i-lost" msg1 4, write_cmd "roll-dice" msg1 4, write_cmd "call-calza" msg1 4,
      write_cmd "i-lost" msg1 4, write_cmd "leave-game" msg2 4]

/-- A game of players 1 and 2 in which player 1 loses round one and rolls in
round two, and then the host (player 1) kicks player 2, which ends the game. -/
def game_over_kick : List acl_request :=
  logins2 ++ start_plain ++
    [write_cmd "roll-dice" msg1 4, write_cmd "roll-dice" msg2 4, write_cmd "call-dudo" msg1 4,
      write_cmd "i-lost" msg1 4, write_cmd "roll-dice" msg1 4,
      write_cmd "kick-player" msg1_kick2 4]

/-- A game of players 1, 2 and 3 in which all roll, player 2 calls dudo and
reports i-lost, and then the host (player 1) kicks player 2. -/
def kicked_caller : List acl_request :=
  logins3 ++ start_plain ++
    [write_cmd "roll-dice" msg1 4, write_cmd "roll-dice" msg2 4, write_cmd "roll-dice" msg3 4,
      write_cmd "call-dudo" msg2 4, write_cmd "i-lost" msg2 4,
      write_cmd "kick-player" msg1_kick2 4]

/-- What is looked at of a room in the examples of a game. -/
structure game_view where
  state : tfdg_game_state
  seats : List (Nat × tfdg_player_state × Int)
  lost : List Nat
  deriving DecidableEq, Repr

def view_game (r : tfdg_room) : game_view :=
  { state := r.state, seats := r.players.map (fun q => (q.addr, q.state, q.dice_count)),
    lost := r.lost_players.map (fun q => q.addr) }

/-- The role references of a room and the players they may refer to. -/
structure roles_view where
  players : List Nat
  lost : List Nat
  host : Option Nat
  starter : Option Nat
  dudo_caller : Option Nat
  calza_caller : Option Nat
  round_loser : Option Nat
  round_winner : Option Nat
  deriving DecidableEq, Repr

def view_roles (r : tfdg_room) : roles_view :=
  { players := r.players.map (fun q => q.addr), lost := r.lost_players.map (fun q => q.addr),
    host := r.host, starter := r.starter, dudo_caller := r.dudo_caller,
    calza_caller := r.calza_caller, round_loser := r.round_loser,
    round_winner := r.round_winner }

/-- The room0 after the requests, from an empty server. -/
def served_room (qs : List acl_request) : Option tfdg_room :=
  (serve qs no_rooms).bind (fun dir => dir room0)

/-- The decrement of logout. -/
def login_count_down (s : tfdg_player) : tfdg_player := { s with login_count := s.login_count - 1 }

/-- The ranges that load_player_state tests, for a player p of a room with the
options o. -/
def loaded_player_ok (o : tfdg_room_options) (p : tfdg_player) : Prop :=
  p.dice_count ≤ o.max_dice ∧ p.dice_count ≤ 20 ∧
    ∀ v ∈ p.dice_values, 0 ≤ v ∧ (v = 0 ∨ v ≤ o.max_dice_value) ∧ v ≤ 9


/-- The stored player j_player of a game entry and the player p of the room
reconstructed from it belong together, for a room with the options o: p holds
the stored dice count, which is at most max-dice and at most 20; the member
"dice" of j_player is an array of at most 20 numbers, the die array of p holds
these numbers (and 0 behind them), and each of them lies between 0 and 9 and
is at most max-dice-value. -/
def stored_player (o : tfdg_room_options) (j_player : cJSON) (p : tfdg_player) : Prop :=
  json_get_int j_player "dice-count" = some p.dice_count ∧
    p.dice_count ≤ o.max_dice ∧ p.dice_count ≤ 20 ∧
    ∃ dice : List Int,
      cJSON_GetObjectItemCaseSensitive j_player "dice" =
        some (cJSON.array (dice.map cJSON.number)) ∧
      dice.length ≤ 20 ∧
      p.dice_values = dice ++ List.replicate (20 - dice.length) 0 ∧
      ∀ v ∈ dice, 0 ≤ v ∧ v ≤ 9 ∧ v ≤ o.max_dice_value

/-- Players 1 and 2 holding `dice_count` dice each, all showing `face`. -/
def sample_players_showing (dice_count face : Int) : List cJSON :=
  [sample_player "00000000-0000-0000-0000-000000000001" "Player 1" 2 dice_count
      (List.replicate dice_count.toNat face),
   sample_player "00000000-0000-0000-0000-000000000002" "Player 2" 2 dice_count
      (List.replicate dice_count.toNat face)]

/-! ## The random-byte buffer of a new round -/

/-- The size of the buffer `unsigned char bytes[1000]` of tfdg_new_round. -/
def new_round_bytes_size : Int := 1000

/-- The number of bytes tfdg_new_round asks RAND_bytes to write into the
buffer: `count = room_s->player_count*room_s->options.max_dice + 1`. -/
def new_round_count (r : tfdg_room) : Int := r.player_count * r.options.max_dice + 1

/-! ## The face counts of report_summary_results -/

/-- The statement `a[i] += v` on an array of int. -/
def array_add (a : Nat → Int) (i : Nat) (v : Int) : Nat → Int :=
  fun j => if j = i then a j + v else a j

/-- The inner loop of report_summary_results for one player: n dice are still
to be counted, the next one is die i.  `totals` is the local array
`int totals[MAX_DICE_VALUE]` as a function of the index.  The result is `none`
when the loop reads past the die array of the player or writes outside
`totals`. -/
def summary_count_dice (vals : List Int) : Nat → Nat → (Nat → Int) → Option (Nat → Int)
  | 0, _, totals => some totals
  | n + 1, i, totals =>
    match vals[i]? with
    | none => none
    | some v =>
      if 1 ≤ v ∧ v ≤ MAX_DICE_VALUE then
        summary_count_dice vals n (i + 1) (array_add totals (v - 1).toNat 1)
      else none

/-- The outer loop of report_summary_results over the turn order. -/
def summary_count_players : List tfdg_player → (Nat → Int) → Option (Nat → Int)
  | [], totals => some totals
  | p :: ps, totals =>
    (summary_count_dice p.dice_values p.dice_count.toNat 0 totals).bind
      (summary_count_players ps)

/-- The array `totals_wild` of report_summary_results. -/
def summary_totals_wild (max_dice_value : Int) (totals : Nat → Int) : Nat → Int :=
  fun i => if i = 0 then totals 0 else if (i : Int) < max_dice_value then totals 0 + totals i else 0

/-- The array "totals" that report_summary_results publishes: one entry per
face up to the face bound of the room.  `none` when a loop leaves an array
(a face bound above MAX_DICE_VALUE leaves both local arrays). -/
def summary_results_totals (r : tfdg_room) : Option (List Int) :=
  if r.options.max_dice_value > MAX_DICE_VALUE then none
  else
    (summary_count_players r.players (fun _ => 0)).map (fun totals =>
      (List.range r.options.max_dice_value.toNat).map (fun i =>
        if r.palifico_round then totals i
        else summary_totals_wild r.options.max_dice_value totals i))

/-- The number of dice in play that show the face f: the first dice_count dice
of every player of the turn order. -/
def dice_showing (ps : List tfdg_player) (f : Int) : Int :=
  ((ps.map (fun p => (p.dice_values.take p.dice_count.toNat).count f)).sum : Nat)

/-! ## The process-wide statistics -/

/-- The struct tfdg_stats.  An array is a function of the index; an access that
the source does not guard is checked against the array size where it is
made. -/
structure tfdg_stats where
  calza_success : Int
  calza_fail : Int
  dudo_success : Int
  dudo_fail : Int
  dice_count : Nat → Int
  thrown_dice_values : Nat → Int
  dice_values : Nat → Int
  players : Nat → Int
  durations : Nat → Int
  duration_counts : Nat → Int
  game_count : Int
  max_players : Int
  max_duration : Int

/-- The statistics at process start: `static struct tfdg_stats stats;`. -/
def stats_init : tfdg_stats :=
  { calza_success := 0, calza_fail := 0, dudo_success := 0, dudo_fail := 0,
    dice_count := fun _ => 0, thrown_dice_values := fun _ => 0, dice_values := fun _ => 0,
    players := fun _ => 0, durations := fun _ => 0, duration_counts := fun _ => 0,
    game_count := 0, max_players := 0, max_duration := 0 }

/-- The comparison of cJSON_GetObjectItem: equal up to the case of letters. -/
def case_insensitive_eq (a b : String) : Bool :=
  a.data.map Char.toLower = b.data.map Char.toLower

/-- The first member of an object whose name is this one up to case; NULL for
anything that is not an object. -/
def cJSON_GetObjectItem (json : cJSON) (name : String) : Option cJSON :=
  match json with
  | cJSON.object members =>
    (members.find? (fun m => case_insensitive_eq m.1 name)).map (fun m => m.2)
  | _ => none

/-- The member `valuedouble` of an item: 0 unless the item is a number. -/
def cJSON_valuedouble : cJSON → Int
  | cJSON.number v => v
  | _ => 0

/-- The test `jtmp && cJSON_IsNumber(jtmp)` of load_stats on a member, with the
value of the number. -/
def stats_number (j_result : cJSON) (name : String) : Option Int :=
  match cJSON_GetObjectItem j_result name with
  | some (cJSON.number v) => some v
  | _ => none

/-- The statement `counter += jtmp->valuedouble` under the test
`jtmp && cJSON_IsNumber(jtmp)`. -/
def add_if_number (counter : Int) (o : Option Int) : Int :=
  match o with
  | some v => counter + v
  | none => counter

/-- The four outcome counters of a record. -/
def load_stats_counters (j_result : cJSON) (s : tfdg_stats) : tfdg_stats :=
  { s with
    calza_success := add_if_number s.calza_success (stats_number j_result "calza-success")
    calza_fail := add_if_number s.calza_fail (stats_number j_result "calza-fail")
    dudo_success := add_if_number s.dudo_success (stats_number j_result "dudo-success")
    dudo_fail := add_if_number s.dudo_fail (stats_number j_result "dudo-fail") }

/-- The dice bound of a record, 5 when it is missing or out of range. -/
def load_stats_max_dice_count (j_result : cJSON) : Int :=
  match stats_number j_result "max-dice" with
  | some v => if v ≥ 3 ∧ v ≤ 20 then v else 5
  | none => 5

/-- The dice-bound bucket of a record. -/
def load_stats_dice_count (j_result : cJSON) (s : tfdg_stats) : tfdg_stats :=
  { s with dice_count := array_add s.dice_count (load_stats_max_dice_count j_result).toNat 1 }

/-- The face-bound bucket of a record, 6 when the bound is missing or out of
range. -/
def load_stats_dice_values (j_result : cJSON) (s : tfdg_stats) : tfdg_stats :=
  match stats_number j_result "max-dice-value" with
  | some v =>
    if v ≥ 3 ∧ v ≤ 9 then { s with dice_values := array_add s.dice_values v.toNat 1 }
    else { s with dice_values := array_add s.dice_values 6 1 }
  | none => { s with dice_values := array_add s.dice_values 6 1 }

/-- The player-count bucket and the duration bucket of a record; `none` when
the member "duration" is read through a NULL pointer. -/
def load_stats_players (j_result : cJSON) (max_dice_count : Int) (s : tfdg_stats) :
    Option tfdg_stats :=
  match stats_number j_result "players" with
  | some v =>
    if v > 1 ∧ v < 100 then
      let s1 := if v > s.max_players then { s with max_players := v } else s
      let s2 := { s1 with players := array_add s1.players v.toNat 1 }
      match cJSON_GetObjectItem j_result "duration" with
      | none => none
      | some j_duration =>
        let s3 := { s2 with
          durations := array_add s2.durations (v * max_dice_count).toNat
            (cJSON_valuedouble j_duration)
          duration_counts := array_add s2.duration_counts (v * max_dice_count).toNat 1 }
        if v * max_dice_count > s3.max_duration then
          some { s3 with max_duration := v * max_dice_count }
        else some s3
    else some s
  | none => some s

/-- The loop over the array "dice-totals" of a record into
`int thrown_dice_values[10]`; `none` when it writes past the array. -/
def load_stats_dice_totals : Nat → List cJSON → (Nat → Int) → Option (Nat → Int)
  | _, [], a => some a
  | i, j :: js, a =>
    if i < 10 then load_stats_dice_totals (i + 1) js (array_add a i (cJSON_valuedouble j))
    else none

/-- The global face histogram of a record. -/
def load_stats_thrown (j_result : cJSON) (s : tfdg_stats) : Option tfdg_stats :=
  match cJSON_GetObjectItem j_result "dice-totals" with
  | some (cJSON.array items) =>
    (load_stats_dice_totals 0 items s.thrown_dice_values).map
      (fun a => { s with thrown_dice_values := a })
  | _ => some s

/-- The body of the loop of load_stats for a record that has passed the two
tests at its head. -/
def load_stats_apply (j_result : cJSON) (s : tfdg_stats) : Option tfdg_stats :=
  let s1 := load_stats_counters j_result s
  let s2 := load_stats_dice_count j_result s1
  let s3 := load_stats_dice_values j_result s2
  (load_stats_players j_result (load_stats_max_dice_count j_result) s3).bind
    (load_stats_thrown j_result)

/-- One round of the loop of load_stats: the record is skipped (`continue`)
when it has no member "duration", when the duration is below 100, when it has
no member "result" and when the result is not the string "game-over". -/
def load_stats_record (j_result : cJSON) (s : tfdg_stats) : Option tfdg_stats :=
  match cJSON_GetObjectItem j_result "duration" with
  | none => some s
  | some j_duration =>
    if cJSON_valuedouble j_duration < 100 then some s
    else
      match cJSON_GetObjectItem j_result "result" with
      | some (cJSON.string valuestring) =>
        if valuestring ≠ "game-over" then some s else load_stats_apply j_result s
      | _ => some s

/-- The function load_stats on the items of j_stats_games; `none` when a record
takes it outside an array. -/
def load_stats : List cJSON → tfdg_stats → Option tfdg_stats
  | [], s => some s
  | j_result :: rest, s => (load_stats_record j_result s).bind (load_stats rest)

/-- A finished-game record counts: its duration is a number of at least 100
(seconds) and its result is "game-over". -/
def record_counts (j_result : cJSON) : Bool :=
  match cJSON_GetObjectItem j_result "duration", cJSON_GetObjectItem j_result "result" with
  | some (cJSON.number d), some (cJSON.string result) =>
    decide (100 ≤ d) && decide (result = "game-over")
  | _, _ => false

/-- The function room_dice_totals: the first max_dice_value entries of the
array `totals` of the room. -/
def room_dice_totals (r : tfdg_room) : cJSON :=
  cJSON.array ((List.range r.options.max_dice_value.toNat).map
    (fun i => cJSON.number (r.totals.getD i 0)))

/-- The members of the record add_room_to_stats builds, in order; `timestr` is
the local time that strftime prints. -/
def stats_record_members (now : Int) (timestr : String) (r : tfdg_room) (reason : String) :
    List (String × cJSON) :=
  [("players", cJSON.number r.player_count)] ++
  (if r.options.allow_calza ≠ true then [("allow-calza", cJSON.bool r.options.allow_calza)]
    else []) ++
  (if r.options.losers_see_dice ≠ true then
      [("losers-see-dice", cJSON.bool r.options.losers_see_dice)] else []) ++
  (if r.options.show_results_table ≠ true then
      [("show-results-table", cJSON.bool r.options.show_results_table)] else []) ++
  (if r.options.max_dice ≠ 5 then [("max-dice", cJSON.number r.options.max_dice)] else []) ++
  (if r.options.max_dice_value ≠ 6 then
      [("max-dice-value", cJSON.number r.options.max_dice_value)] else []) ++
  (if r.options.random_max_dice_value ≠ false then
      [("random-max-dice-value", cJSON.bool r.options.random_max_dice_value)] else []) ++
  [("result", cJSON.string reason), ("dudo-success", cJSON.number r.dudo_success),
    ("dudo-fail", cJSON.number r.dudo_fail)] ++
  (if r.calza_success > 0 then [("calza-success", cJSON.number r.calza_success)] else []) ++
  (if r.calza_fail > 0 then [("calza-fail", cJSON.number r.calza_fail)] else []) ++
  [("round", cJSON.number r.round), ("start-time", cJSON.string timestr),
    ("duration", cJSON.number (now - r.start_time)), ("dice-totals", room_dice_totals r)]

/-- The function add_room_to_stats at time `now`: the record of the room is
appended to j_stats_games, unless the room has no player. -/
def add_room_to_stats (now : Int) (timestr : String) (r : tfdg_room) (reason : String)
    (j_stats_games : List cJSON) : List cJSON :=
  if r.player_count = 0 then j_stats_games
  else j_stats_games ++ [cJSON.object (stats_record_members now timestr r reason)]

/-- The loop `for(i=0; i<10; i++) stats.thrown_dice_values[i] += room_s->totals[i]`
of room_add_to_stats, from index i on. -/
def add_thrown_dice_values (totals : List Int) : Nat → Nat → (Nat → Int) → (Nat → Int)
  | 0, _, a => a
  | n + 1, i, a => add_thrown_dice_values totals n (i + 1) (array_add a i (totals.getD i 0))

/-- The function room_add_to_stats at time `now`, which tfdg_handle_winner
calls for the room that has just been completed (the publication of the
statistics apart). -/
def room_add_to_stats (now : Int) (r : tfdg_room) (s : tfdg_stats) : tfdg_stats :=
  let s1 :=
    if r.player_count > 1 ∧ r.player_count < 100 then
      let a := { s with players := array_add s.players r.player_count.toNat 1 }
      let b := if r.player_count > a.max_players then { a with max_players := r.player_count }
        else a
      { b with
        duration_counts := array_add b.duration_counts r.player_count.toNat 1
        durations := array_add b.durations r.player_count.toNat (now - r.start_time) }
    else s
  let s2 := { s1 with
    calza_success := s1.calza_success + r.calza_success
    calza_fail := s1.calza_fail + r.calza_fail
    dudo_success := s1.dudo_success + r.dudo_success
    dudo_fail := s1.dudo_fail + r.dudo_fail }
  let s3 := if r.options.max_dice ≥ 3 ∧ r.options.max_dice ≤ 20 then
      { s2 with dice_count := array_add s2.dice_count r.options.max_dice.toNat 1 }
    else s2
  let s4 := if r.options.max_dice_value ≥ 3 ∧ r.options.max_dice_value ≤ 9 then
      { s3 with dice_values := array_add s3.dice_values r.options.max_dice_value.toNat 1 }
    else s3
  { s4 with thrown_dice_values := add_thrown_dice_values r.totals 10 0 s4.thrown_dice_values }

/-- A division of two doubles; the numbers at hand are ratios of integers and
are kept exact.  `none` stands for the division by zero, which gives no
number (NaN or an infinity in IEEE arithmetic). -/
def double_div (x y : ℚ) : Option ℚ := if y = 0 then none else some (x / y)

/-- The sum `total += a[i]` for i from `first` over n indices. -/
def array_total (a : Nat → Int) (first n : Nat) : Int :=
  ((List.range n).map (fun i => a (first + i))).sum

/-- The percentages `100.0*(double)a[i] / total` for i from `first` over n
indices. -/
def array_percent (a : Nat → Int) (first n : Nat) : List (Option ℚ) :=
  (List.range n).map (fun i => double_div (100 * (a (first + i) : ℚ)) (array_total a first n))

/-- The numbers of the snapshot of publish_stats, in the order of the
document. -/
structure stats_snapshot where
  calza_success : Option ℚ
  calza_fail : Option ℚ
  dudo_success : Option ℚ
  dudo_fail : Option ℚ
  players : List (Option ℚ)
  durations : List (Option ℚ)
  dice_count : List (Option ℚ)
  dice_values : List (Option ℚ)
  thrown_dice_values : List (Option ℚ)
  deriving DecidableEq

/-- The function publish_stats: the numbers it computes for the message on
tfdg/stats.  The player percentages run over i = 2 .. max_players, the
durations over i = 0 .. max_duration (the only division with a test of the
divisor), the other three over the whole array. -/
def publish_stats (s : tfdg_stats) : stats_snapshot :=
  { calza_success := double_div (100 * (s.calza_success : ℚ)) (s.calza_success + s.calza_fail : Int),
    calza_fail := double_div (100 * (s.calza_fail : ℚ)) (s.calza_success + s.calza_fail : Int),
    dudo_success := double_div (100 * (s.dudo_success : ℚ)) (s.dudo_success + s.dudo_fail : Int),
    dudo_fail := double_div (100 * (s.dudo_fail : ℚ)) (s.dudo_success + s.dudo_fail : Int),
    players := array_percent s.players 2 (s.max_players + 1 - 2).toNat,
    durations := (List.range (s.max_duration + 1).toNat).map (fun i =>
      if s.duration_counts i > 0 then double_div (s.durations i) (s.duration_counts i)
      else some 0),
    dice_count := array_percent s.dice_count 0 21,
    dice_values := array_percent s.dice_values 0 10,
    thrown_dice_values := array_percent s.thrown_dice_values 0 10 }

/-! ## The sweep of the room directory -/

/-- The two globals that cleanup_room writes: the hash table room_by_uuid, as
the list of its rooms in the order HASH_ITER meets them, and the array
j_stats_games of finished-game records. -/
structure server_tables where
  room_by_uuid : List tfdg_room
  j_stats_games : List cJSON

/-- The function cleanup_room at time `now`: the record of the room is added to
the statistics document, the players are freed and the room is taken out of the
directory (HASH_DELETE) and freed. -/
def cleanup_room (now : Int) (timestr : String) (t : server_tables) (r : tfdg_room)
    (reason : String) : server_tables :=
  { room_by_uuid := t.room_by_uuid.erase r,
    j_stats_games := add_room_to_stats now timestr r reason t.j_stats_games }

/-- The function tfdg_expire_rooms at time `now`: HASH_ITER visits every room
that is in the directory when the sweep starts and is safe against the removal
of the room at hand. -/
def tfdg_expire_rooms (now room_expiry_time : Int) (timestr : String) (t : server_tables) :
    server_tables :=
  t.room_by_uuid.foldl
    (fun acc r =>
      if now > r.last_event + room_expiry_time then cleanup_room now timestr acc r "expire"
      else acc)
    t

/-! ## Requests for the claims on buffers, dice counts and disputes -/

/-- Two decimal digits. -/
def two_digits (k : Nat) : String :=
  String.mk [Char.ofNat (48 + k / 10 % 10), Char.ofNat (48 + k % 10)]

/-- The payload and connection of player k, for k below 100. -/
def player_msg (k : Nat) : mosquitto_acl_msg :=
  { client_id := "client" ++ two_digits k,
    name_uuid := some ("Player " ++ two_digits k,
      "00000000-0000-0000-0000-0000000000" ++ two_digits k) }

/-- Players 1 to n log in to room0, player 1 first. -/
def logins_upto (n : Nat) : List acl_request :=
  (List.range n).map (fun k => write_cmd "login" (player_msg (k + 1)) (k + 1))

/-- Fifty players log in; the host (player 1) sets max-dice to 20 and switches
the pre-roll off. -/
def crowd : List acl_request :=
  logins_upto 50 ++
    [write_cmd "set-option"
        { player_msg 1 with option := some "max-dice", value := some (json_value.number 20) } 51,
      write_cmd "set-option"
        { player_msg 1 with option := some "roll-dice-at-start",
                            value := some (json_value.bool false) } 51]

/-- All three players roll. -/
def roll3 : List acl_request :=
  [write_cmd "roll-dice" msg1 4, write_cmd "roll-dice" msg2 4, write_cmd "roll-dice" msg3 4]

/-- A game of players 1, 2 and 3 with max-dice 3: player 2 calls dudo and loses
rounds one and two, which leaves it with one die and flags round three
palifico; in round three player 2 calls calza and reports i-won. -/
def palifico_calza : List acl_request :=
  logins3 ++ [write_cmd "set-option" (msg1_option "max-dice" (json_value.number 3)) 4] ++
    start_plain ++
    roll3 ++ [write_cmd "call-dudo" msg2 4, write_cmd "i-lost" msg2 4] ++
    roll3 ++ [write_cmd "call-dudo" msg2 4, write_cmd "i-lost" msg2 4] ++
    roll3 ++ [write_cmd "call-calza" msg2 4, write_cmd "i-won" msg2 4]

/-- The game palifico_calza with 21 more i-won of player 2, which then holds 23
dice when round four is dealt. -/
def flag_before_deal : List acl_request :=
  palifico_calza ++ List.replicate 21 (write_cmd "i-won" msg2 4)

/-- The game flag_before_deal goes on: round four is dealt and player 1 loses
it; in round five player 2 calls calza, reports i-won and sends undo-winner 22
times; in round six player 2 calls dudo and reports i-lost. -/
def flag_cleared : List acl_request :=
  flag_before_deal ++ roll3 ++ [write_cmd "call-dudo" msg1 4, write_cmd "i-lost" msg1 4] ++
    roll3 ++ [write_cmd "call-calza" msg2 4, write_cmd "i-won" msg2 4] ++
    List.replicate 22 (write_cmd "undo-winner" msg2 4) ++
    roll3 ++ [write_cmd "call-dudo" msg2 4, write_cmd "i-lost" msg2 4]

/-- What is looked at of a room in the examples of the palifico flag: round,
game state, the flag of the room, and the players of the turn order with their
dice counts and one-shot flags. -/
structure flags_view where
  round : Int
  state : tfdg_game_state
  palifico_round : Bool
  seats : List (Nat × Int × Bool)
  deriving DecidableEq, Repr

def view_flags (r : tfdg_room) : flags_view :=
  { round := r.round, state := r.state, palifico_round := r.palifico_round,
    seats := r.players.map (fun q => (q.addr, q.dice_count, q.ex_palifico)) }

/-- A game of players 1 and 2 with max-dice 20: player 1 loses round one, and
in round two calls calza and reports i-won twice. -/
def over_max : List acl_request :=
  logins2 ++ [write_cmd "set-option" (msg1_option "max-dice" (json_value.number 20)) 4] ++
    start_plain ++
    [write_cmd "roll-dice" msg1 4, write_cmd "roll-dice" msg2 4, write_cmd "call-dudo" msg1 4,
      write_cmd "i-lost" msg1 4, write_cmd "roll-dice" msg1 4, write_cmd "roll-dice" msg2 4,
      write_cmd "call-calza" msg1 4, write_cmd "i-won" msg1 4, write_cmd "i-won" msg1 4]

/-- A game of players 1 and 2: player 1 loses round one, and in round two calls
calza, reports i-won and then sends undo-winner six times. -/
def under_zero : List acl_request :=
  logins2 ++ start_plain ++
    [write_cmd "roll-dice" msg1 4, write_cmd "roll-dice" msg2 4, write_cmd "call-dudo" msg1 4,
      write_cmd "i-lost" msg1 4, write_cmd "roll-dice" msg1 4, write_cmd "roll-dice" msg2 4,
      write_cmd "call-calza" msg1 4, write_cmd "i-won" msg1 4] ++
    List.replicate 6 (write_cmd "undo-winner" msg1 4)

/-- A game of players 1, 2 and 3: player 3 loses round one; in round two all
roll and player 2 calls dudo. -/
def dudo_open : List acl_request :=
  logins3 ++ start_plain ++ roll3 ++
    [write_cmd "call-dudo" msg3 4, write_cmd "i-lost" msg3 4] ++
    roll3 ++ [write_cmd "call-dudo" msg2 4]

/-- A round of the game of players 1 and 2 that player 1 loses. -/
def round_lost_by_1 : List acl_request :=
  [write_cmd "roll-dice" msg1 4, write_cmd "roll-dice" msg2 4, write_cmd "call-dudo" msg1 4,
    write_cmd "i-lost" msg1 4]

/-- A WRITE request on a command topic of room0 at time 1100. -/
def write_cmd_1100 (cmd : String) (msg : mosquitto_acl_msg) : acl_request :=
  (acl_access.MOSQ_ACL_WRITE, "tfdg/00000000-0000-0000-0000-000000000000/" ++ cmd, msg,
    { now := 1100, later := 1100, fresh := 4, rnd1 := zero_bytes, rnd2 := zero_bytes,
      rnd3 := zero_bytes })

/-- A game of players 1 and 2, started at time 1000, that player 2 wins at time
1100: player 1 loses five rounds in a row. -/
def game_finished : List acl_request :=
  logins2 ++ start_plain ++ round_lost_by_1 ++ round_lost_by_1 ++ round_lost_by_1 ++
    round_lost_by_1 ++
    [write_cmd "roll-dice" msg1 4, write_cmd "roll-dice" msg2 4, write_cmd "call-dudo" msg1 4,
      write_cmd_1100 "i-lost" msg1]

/-- What is compared of the statistics in the examples: the duration buckets 2
and 10, the player bucket 2, the dice bucket 5, the face bucket 6, the first
two entries of the face histogram and the two maxima. -/
structure stats_view where
  durations_2 : Int
  duration_counts_2 : Int
  durations_10 : Int
  duration_counts_10 : Int
  players_2 : Int
  dice_count_5 : Int
  dice_values_6 : Int
  thrown_1 : Int
  thrown_2 : Int
  dudo_fail : Int
  max_players : Int
  max_duration : Int
  deriving DecidableEq, Repr

def view_stats (s : tfdg_stats) : stats_view :=
  { durations_2 := s.durations 2, duration_counts_2 := s.duration_counts 2,
    durations_10 := s.durations 10, duration_counts_10 := s.duration_counts 10,
    players_2 := s.players 2, dice_count_5 := s.dice_count 5, dice_values_6 := s.dice_values 6,
    thrown_1 := s.thrown_dice_values 0, thrown_2 := s.thrown_dice_values 1,
    dudo_fail := s.dudo_fail, max_players := s.max_players, max_duration := s.max_duration }

/-- A finished-game record with this duration and result. -/
def sample_record (duration : Int) (result : String) : cJSON :=
  cJSON.object [("players", cJSON.number 3), ("result", cJSON.string result),
    ("dudo-success", cJSON.number 2), ("dudo-fail", cJSON.number 7),
    ("round", cJSON.number 9), ("start-time", cJSON.string "2020-05-01T20:00:00"),
    ("duration", cJSON.number duration),
    ("dice-totals", cJSON.array [cJSON.number 30, cJSON.number 20, cJSON.number 25,
      cJSON.number 20, cJSON.number 22, cJSON.number 18])]


/-- A round of three players with dice on the table: eleven dice, of which
three show the face 1. -/
def sample_round : tfdg_room :=
  { lobby3 with
    state := tgs_playing_round
    current_count := 3
    round := 3
    players :=
      [{ seated 1 "00000000-0000-0000-0000-000000000001" "Player 1" "client1" with
          dice_values := [1, 3, 3, 6, 2] ++ List.replicate 15 0, state := tps_have_dice },
       { seated 2 "00000000-0000-0000-0000-000000000002" "Player 2" "client2" with
          dice_count := 4, dice_values := [1, 1, 4, 6, 5] ++ List.replicate 15 0,
          state := tps_have_dice },
       { seated 3 "00000000-0000-0000-0000-000000000003" "Player 3" "client3" with
          dice_count := 2, dice_values := [2, 3, 6, 6, 6] ++ List.replicate 15 0,
          state := tps_have_dice }] }

/-- A directory of three rooms whose last events were at times 1000, 5000 and
9000. -/
def sample_tables : server_tables :=
  { room_by_uuid :=
      [lobby3, { lobby2 with uuid := "00000000-0000-0000-0000-00000000000a", last_event := 5000 },
        { sample_round with uuid := "00000000-0000-0000-0000-00000000000b", last_event := 9000 }],
    j_stats_games := [] }


/-! ## Dice dealt by tfdg_new_round -/

theorem dice_values_write_dice_count (p : tfdg_player) (i : Nat) (v : Int) :
    (dice_values_write p i v).dice_count = p.dice_count := by
  unfold dice_values_write
  split
  · rfl
  · split
    · rfl
    · split
      · rfl
      · split <;> rfl

theorem set_dice_loop_dice_count (bytes : Nat → Nat) (m : Int) :
    ∀ (n i : Nat) (p : tfdg_player) (totals : List Int),
      (player_set_dice_values_loop bytes m n i p totals).1.dice_count = p.dice_count := by
  intro n
  induction n with
  | zero => intro i p totals; rfl
  | succ n ih =>
    intro i p totals
    simp only [player_set_dice_values_loop]
    rw [ih, dice_values_write_dice_count]

/-- The die array after the write at index i: entry i is the value when the
index is inside the array, and the array is as before when it is not. -/
theorem dice_values_write_dice_values (p : tfdg_player) (i : Nat) (v : Int) :
    (dice_values_write p i v).dice_values =
      if i < p.dice_values.length then p.dice_values.set i v else p.dice_values := by
  unfold dice_values_write
  split
  · rfl
  · split
    · rfl
    · split
      · rfl
      · split <;> rfl

theorem set_dice_loop_range (bytes : Nat → Nat) (m : Int) (hm : 0 < m) :
    ∀ (n i : Nat) (p : tfdg_player) (totals : List Int),
      (∀ (j : Nat) (v : Int), j < i → p.dice_values[j]? = some v → 1 ≤ v ∧ v ≤ m) →
      ∀ (j : Nat) (v : Int), j < i + n →
        (player_set_dice_values_loop bytes m n i p totals).1.dice_values[j]? = some v →
          1 ≤ v ∧ v ≤ m := by
  intro n
  induction n with
  | zero => intro i p totals h j v hj hv; exact h j v (by omega) hv
  | succ n ih =>
    intro i p totals h j v hj hv
    simp only [player_set_dice_values_loop] at hv
    refine ih (i + 1) _ _ ?_ j v (by omega) hv
    intro k w hk hw
    rw [dice_values_write_dice_values] at hw
    by_cases hlen : i < p.dice_values.length
    · rw [if_pos hlen, List.getElem?_set] at hw
      by_cases hik : i = k
      · simp only [hik, if_true] at hw
        split at hw
        · cases hw
          have h1 := Int.emod_nonneg ((bytes k % 256 : Nat) : Int) (ne_of_gt hm)
          have h2 := Int.emod_lt_of_pos ((bytes k % 256 : Nat) : Int) hm
          omega
        · cases hw
      · simp only [hik, if_false] at hw
        exact h k w (by omega) hw
    · rw [if_neg hlen] at hw
      by_cases hik : i = k
      · subst hik
        rw [List.getElem?_eq_none (by omega)] at hw
        cases hw
      · exact h k w (by omega) hw

theorem new_round_deal_range (bytes : Nat → Nat) (md m : Int) (hm : 0 < m) :
    ∀ (ps : List tfdg_player) (i : Nat) (totals : List Int),
      ∀ p ∈ (new_round_deal bytes md m i ps totals).1, ∀ (j : Nat) (v : Int),
        (j : Int) < p.dice_count → p.dice_values[j]? = some v → 1 ≤ v ∧ v ≤ m := by
  intro ps
  induction ps with
  | nil => intro i totals p hp; simp [new_round_deal] at hp
  | cons q qs ih =>
    intro i totals p hp j v hj hv
    simp only [new_round_deal, List.mem_cons] at hp
    rcases hp with hp | hp
    · subst hp
      simp only [player_set_state, player_set_dice_values] at hj hv
      rw [set_dice_loop_dice_count] at hj
      refine set_dice_loop_range _ m hm q.dice_count.toNat 0 q totals ?_ j v ?_ hv
      · intro k w hk; omega
      · omega
    · exact ih _ _ p hp j v hj hv

@[simp] theorem easy_publish_options (r : tfdg_room) (e : Event) :
    (easy_publish r e).options = r.options := rfl

@[simp] theorem easy_publish_players (r : tfdg_room) (e : Event) :
    (easy_publish r e).players = r.players := rfl

theorem room_delete_player_options (r : tfdg_room) (i : Nat) :
    (room_delete_player r i).options = r.options := by
  unfold room_delete_player
  split
  · rfl
  · split
    · simp only [tfdg_send_host, room_set_host]
      split <;> rfl
    · rfl

theorem tfdg_handle_player_lost_options (r : tfdg_room) (i : Nat) :
    (tfdg_handle_player_lost r i).options = r.options := by
  unfold tfdg_handle_player_lost
  split
  · rfl
  · simp [room_delete_player_options]

theorem new_round_remove_options (r : tfdg_room) :
    (new_round_remove r).options = r.options := by
  unfold new_round_remove
  split
  · rfl
  · exact tfdg_handle_player_lost_options r _

theorem max_dice_value_range (r : tfdg_room) (bytes : Nat → Nat) (count : Int)
    (hlo : 3 ≤ r.options.max_dice_value) :
    3 ≤ new_round_max_dice_value r bytes count ∧
      new_round_max_dice_value r bytes count ≤ r.options.max_dice_value := by
  unfold new_round_max_dice_value
  split
  · exact ⟨hlo, le_refl _⟩
  · have hpos : (0 : Int) < r.options.max_dice_value - 3 + 1 := by omega
    have h1 := Int.emod_nonneg ((bytes (count - 1).toNat % 256 : Nat) : Int) (ne_of_gt hpos)
    have h2 := Int.emod_lt_of_pos ((bytes (count - 1).toNat % 256 : Nat) : Int) hpos
    omega

theorem new_round_play_range (bytes : Nat → Nat) (count : Int) (r : tfdg_room)
    (hlo : 3 ≤ r.options.max_dice_value) :
    ∀ p ∈ (new_round_play bytes count r).players, ∀ (j : Nat) (v : Int),
      (j : Int) < p.dice_count → p.dice_values[j]? = some v →
        1 ≤ v ∧ v ≤ r.options.max_dice_value := by
  intro p hp j v hj hv
  have hrange := max_dice_value_range r bytes count hlo
  simp only [new_round_play, report_results_to_losers, easy_publish_players] at hp
  have := new_round_deal_range bytes _ _
    (by omega : (0 : Int) < new_round_max_dice_value r bytes count) _ _ _ p hp j v hj hv
  omega

/-- C1: when tfdg_new_round passes its size guard and RAND_bytes
succeeds, every die it deals (position j below the dice count of an active
player) lies between 1 and the configured max-dice-value, whatever the random
bytes, the round number and the random-max-dice-value option; the configured
bound only has to be at least 3. -/
theorem new_round_dice_in_range (rnd : rand_bytes) (r : tfdg_room)
    (hlo : 3 ≤ r.options.max_dice_value) (hok : rnd.ok = true) (hsize : r.player_count ≤ 199) :
    ∀ p ∈ (tfdg_new_round rnd r).players, ∀ (j : Nat) (v : Int),
      (j : Int) < p.dice_count → p.dice_values[j]? = some v →
        1 ≤ v ∧ v ≤ r.options.max_dice_value := by
  intro p hp j v hj hv
  unfold tfdg_new_round at hp
  rw [if_neg (by omega)] at hp
  simp only [hok, if_true] at hp
  have ho : (new_round_reset (new_round_remove r)).options = r.options :=
    new_round_remove_options r
  have := new_round_play_range rnd.bytes _ (new_round_reset (new_round_remove r))
    (by rw [ho]; exact hlo) p hp j v hj hv
  rw [ho] at this
  exact this

/-- The premises of new_round_dice_in_range hold for the round that follows the
first lost round of the three-player game. -/
theorem new_round_dice_in_range_witness :
    3 ≤ (run (cmd_start :: cmds_round1) lobby3).options.max_dice_value ∧
      zero_bytes.ok = true ∧ (run (cmd_start :: cmds_round1) lobby3).player_count ≤ 199 ∧
      ∀ p ∈ (tfdg_new_round zero_bytes (run (cmd_start :: cmds_round1) lobby3)).players,
        ∀ (j : Nat) (v : Int), (j : Int) < p.dice_count → p.dice_values[j]? = some v →
          1 ≤ v ∧ v ≤ (run (cmd_start :: cmds_round1) lobby3).options.max_dice_value :=
  ⟨by decide!, rfl, by decide!,
    new_round_dice_in_range zero_bytes (run (cmd_start :: cmds_round1) lobby3)
      (by decide!) rfl (by decide!)⟩


/-! ## The i-lost handler -/

theorem dice_total_modify (f : tfdg_player → tfdg_player) (d : Int)
    (hf : ∀ q, (f q).dice_count = q.dice_count + d) :
    ∀ (ps : List tfdg_player) (i : Nat), i < ps.length →
      dice_total (List.modify f i ps) = dice_total ps + d := by
  intro ps
  induction ps with
  | nil => intro i hi; simp at hi
  | cons q qs ih =>
    intro i hi
    cases i with
    | zero => simp [dice_total, hf]; ring
    | succ k =>
      have := ih k (by simpa using hi)
      simp only [dice_total] at this
      simp [dice_total, this]; ring

theorem dice_total_eraseIdx :
    ∀ (ps : List tfdg_player) (i : Nat) (p : tfdg_player), ps[i]? = some p →
      dice_total (ps.eraseIdx i) = dice_total ps - p.dice_count := by
  intro ps
  induction ps with
  | nil => intro i p h; simp at h
  | cons q qs ih =>
    intro i p h
    cases i with
    | zero =>
      simp at h
      subst h
      simp [dice_total]
    | succ k =>
      have := ih k p (by simpa using h)
      simp only [dice_total] at this
      simp [dice_total, this]; ring

theorem lt_length_of_getElem? {α : Type} {l : List α} {i : Nat} {a : α} (h : l[i]? = some a) :
    i < l.length := by
  rcases Nat.lt_or_ge i l.length with hlt | hge
  · exact hlt
  · rw [List.getElem?_eq_none_iff.mpr hge] at h; cases h

theorem room_delete_player_players (r : tfdg_room) (i : Nat) :
    (room_delete_player r i).players = r.players.eraseIdx i := by
  unfold room_delete_player
  split
  · rename_i h
    rw [List.getElem?_eq_none_iff] at h
    exact (List.eraseIdx_of_length_le h).symm
  · split
    · simp only [tfdg_send_host, room_set_host]
      split <;> rfl
    · rfl

theorem tfdg_handle_player_lost_players (r : tfdg_room) (i : Nat) :
    (tfdg_handle_player_lost r i).players = r.players.eraseIdx i := by
  unfold tfdg_handle_player_lost
  split
  · rename_i h
    rw [List.getElem?_eq_none_iff] at h
    exact (List.eraseIdx_of_length_le h).symm
  · simp [room_delete_player_players]

@[simp] theorem tfdg_handle_winner_players (r : tfdg_room) :
    (tfdg_handle_winner r).players = r.players := rfl

/-- The counter step of an accepted i-lost touches the three counters only. -/
theorem i_lost_count_some (r : tfdg_room) (p : tfdg_player)
    (h : p.state = tps_dudo_candidate ∨ p.state = tps_calza_candidate) :
    ∃ r1, i_lost_count r p = some r1 ∧
      r1 = { r with dudo_fail := r1.dudo_fail, dudo_success := r1.dudo_success,
                    calza_fail := r1.calza_fail } := by
  unfold i_lost_count
  rcases h with h | h
  · rw [if_pos h]
    split
    · exact ⟨_, rfl, rfl⟩
    · exact ⟨_, rfl, rfl⟩
  · rw [if_neg (by rw [h]; decide), if_pos h]
    exact ⟨_, rfl, rfl⟩

/-- An accepted i-lost runs the counter step, marks the loser and then takes one
of the two branches. -/
theorem i_lost_eq (msg : mosquitto_acl_msg) (r : tfdg_room) (i : Nat) (p : tfdg_player)
    (h : i_lost_accepted msg r i p) :
    ∃ r1, i_lost_count r p = some r1 ∧
      r1 = { r with dudo_fail := r1.dudo_fail, dudo_success := r1.dudo_success,
                    calza_fail := r1.calza_fail } ∧
      tfdg_handle_i_lost msg r =
        if p.dice_count - 1 = 0 ∧ r.current_count = 2 then
          tfdg_handle_winner (tfdg_handle_player_lost (i_lost_mark r1 i p) i)
        else i_lost_stay (i_lost_mark r1 i p) i p := by
  obtain ⟨h1, h2, h3, h4⟩ := h
  obtain ⟨r1, hc, hr1⟩ := i_lost_count_some r p h4
  refine ⟨r1, hc, hr1, ?_⟩
  have hcc : (i_lost_mark r1 i p).current_count = r.current_count := by
    rw [hr1]; rfl
  simp only [tfdg_handle_i_lost, h1, h2, h3, hc, ne_eq, not_true_eq_false, if_false, hcc]

theorem i_lost_stay_players (r : tfdg_room) (i : Nat) (p : tfdg_player) :
    (i_lost_stay r i p).players =
      if p.dice_count - 1 = 1 ∧ r.current_count > 2 ∧ p.ex_palifico = false then
        List.modify player_set_ex_palifico i r.players
      else r.players := by
  unfold i_lost_stay
  by_cases h0 : p.dice_count - 1 = 0 <;> simp only [h0, if_true, if_false, easy_publish] <;>
    split <;> rfl

/-- C2: an accepted i-lost takes exactly one die from the players of
the turn order, both when the reporter stays seated and when it is removed and
the game ends. -/
theorem i_lost_dice_total (msg : mosquitto_acl_msg) (r : tfdg_room) (i : Nat) (p : tfdg_player)
    (h : i_lost_accepted msg r i p) :
    dice_total (tfdg_handle_i_lost msg r).players = dice_total r.players - 1 := by
  obtain ⟨r1, _, hr1, heq⟩ := i_lost_eq msg r i p h
  obtain ⟨h1, h2, h3, h4⟩ := h
  have hi : i < r.players.length := lt_length_of_getElem? h2
  have hps : (i_lost_mark r1 i p).players =
      List.modify (fun q => player_set_dice_count q (q.dice_count - 1)) i r.players := by
    rw [hr1]; rfl
  have hmod := dice_total_modify (fun q => player_set_dice_count q (q.dice_count - 1)) (-1)
    (by intro q; simp [player_set_dice_count]; ring) r.players i hi
  rw [heq]
  split
  · rename_i hend
    rw [tfdg_handle_winner_players, tfdg_handle_player_lost_players, hps,
      dice_total_eraseIdx _ i (player_set_dice_count p (p.dice_count - 1))
        (by rw [List.getElem?_modify_eq, h2]; rfl), hmod]
    simp only [player_set_dice_count]
    omega
  · rw [i_lost_stay_players, hps]
    split
    · rw [dice_total_modify player_set_ex_palifico 0 (by intro q; simp [player_set_ex_palifico])
        _ i (by simpa using hi), hmod]
      ring
    · rw [hmod]; ring

/-- The i-lost of player 1 after its dudo in round one is accepted. -/
theorem i_lost_dice_total_witness :
    i_lost_accepted msg1 (run (cmd_start :: cmds_dudo1) lobby3) 0 caller1 ∧
      dice_total (tfdg_handle_i_lost msg1 (run (cmd_start :: cmds_dudo1) lobby3)).players =
        dice_total (run (cmd_start :: cmds_dudo1) lobby3).players - 1 :=
  ⟨⟨by decide!, by decide!, by decide!, by decide!⟩,
    i_lost_dice_total msg1 (run (cmd_start :: cmds_dudo1) lobby3) 0 caller1
      ⟨by decide!, by decide!, by decide!, by decide!⟩⟩

/-- The fields that the branch i_lost_stay leaves alone or sets to a fixed
value. -/
theorem i_lost_stay_fields (r : tfdg_room) (i : Nat) (p : tfdg_player) :
    (i_lost_stay r i p).state = r.state ∧ (i_lost_stay r i p).round_loser = r.round_loser ∧
    (i_lost_stay r i p).starter = some p.addr ∧
    (i_lost_stay r i p).dudo_fail = r.dudo_fail ∧
    (i_lost_stay r i p).dudo_success = r.dudo_success ∧
    (i_lost_stay r i p).calza_fail = r.calza_fail ∧
    (i_lost_stay r i p).calza_success = r.calza_success ∧
    (i_lost_stay r i p).current_count = r.current_count ∧
    (i_lost_stay r i p).dudo_caller = r.dudo_caller ∧
    (i_lost_stay r i p).calza_caller = r.calza_caller ∧
    (i_lost_stay r i p).round_winner = r.round_winner ∧
    (i_lost_stay r i p).lost_players = r.lost_players := by
  unfold i_lost_stay
  by_cases h0 : p.dice_count - 1 = 0 <;> simp only [h0, if_true, if_false, easy_publish] <;>
    split <;> simp

theorem i_lost_stay_palifico (r : tfdg_room) (i : Nat) (p : tfdg_player) :
    (i_lost_stay r i p).palifico_round =
      decide (p.dice_count - 1 = 1 ∧ r.current_count > 2 ∧ p.ex_palifico = false) := by
  unfold i_lost_stay
  by_cases h0 : p.dice_count - 1 = 0 <;> simp only [h0, if_true, if_false, easy_publish] <;>
    split <;> simp_all

theorem getElem?_modify_ex_palifico (ps : List tfdg_player) (i : Nat) (q : tfdg_player)
    (h : ps[i]? = some q) :
    (List.modify player_set_ex_palifico i ps)[i]? = some (player_set_ex_palifico q) := by
  rw [List.getElem?_modify_eq, h]; rfl

/-- C3: an accepted i-lost of player P that does not end the game takes one
die from P, records P as round loser and as starter, puts the room in
tgs_round_over and adds one to exactly one outcome counter: dudo-fail when P
is the dudo caller, dudo-success when P is the other dudo candidate,
calza-fail when P is the calza candidate. -/
theorem i_lost_effect (msg : mosquitto_acl_msg) (r : tfdg_room) (i : Nat) (p : tfdg_player)
    (h : i_lost_accepted msg r i p) (hgo : ¬ i_lost_ends_game r p) :
    (∃ q, (tfdg_handle_i_lost msg r).players[i]? = some q ∧ q.addr = p.addr ∧
        q.uuid = p.uuid ∧ q.dice_count = p.dice_count - 1) ∧
      (tfdg_handle_i_lost msg r).round_loser = some p.addr ∧
      (tfdg_handle_i_lost msg r).starter = some p.addr ∧
      (tfdg_handle_i_lost msg r).state = tgs_round_over ∧
      (tfdg_handle_i_lost msg r).calza_success = r.calza_success ∧
      (p.state = tps_dudo_candidate ∧ r.dudo_caller = some p.addr →
        (tfdg_handle_i_lost msg r).dudo_fail = r.dudo_fail + 1 ∧
        (tfdg_handle_i_lost msg r).dudo_success = r.dudo_success ∧
        (tfdg_handle_i_lost msg r).calza_fail = r.calza_fail) ∧
      (p.state = tps_dudo_candidate ∧ r.dudo_caller ≠ some p.addr →
        (tfdg_handle_i_lost msg r).dudo_fail = r.dudo_fail ∧
        (tfdg_handle_i_lost msg r).dudo_success = r.dudo_success + 1 ∧
        (tfdg_handle_i_lost msg r).calza_fail = r.calza_fail) ∧
      (p.state = tps_calza_candidate →
        (tfdg_handle_i_lost msg r).dudo_fail = r.dudo_fail ∧
        (tfdg_handle_i_lost msg r).dudo_success = r.dudo_success ∧
        (tfdg_handle_i_lost msg r).calza_fail = r.calza_fail + 1) := by
  obtain ⟨r1, hc, hr1, heq⟩ := i_lost_eq msg r i p h
  obtain ⟨h1, h2, h3, h4⟩ := h
  have hgo2 : ¬ (p.dice_count - 1 = 0 ∧ r.current_count = 2) := hgo
  rw [heq, if_neg hgo2]
  obtain ⟨f1, f2, f3, f4, f5, f6, f7, -⟩ := i_lost_stay_fields (i_lost_mark r1 i p) i p
  rw [f1, f2, f3, f4, f5, f6, f7]
  have hps : (i_lost_mark r1 i p).players =
      List.modify (fun q => player_set_dice_count q (q.dice_count - 1)) i r.players := by
    rw [hr1]; rfl
  have hget : (i_lost_mark r1 i p).players[i]? = some (player_set_dice_count p (p.dice_count - 1)) := by
    rw [hps, List.getElem?_modify_eq, h2]; rfl
  have hcs : r1.calza_success = r.calza_success := by rw [hr1]
  refine ⟨?_, rfl, rfl, rfl, hcs, ?_, ?_, ?_⟩
  · rw [i_lost_stay_players]
    split
    · exact ⟨_, getElem?_modify_ex_palifico _ i _ hget, rfl, rfl, rfl⟩
    · exact ⟨_, hget, rfl, rfl, rfl⟩
  · rintro ⟨hs, hcaller⟩
    simp only [i_lost_count, hs, hcaller, if_true] at hc
    cases hc
    exact ⟨rfl, rfl, rfl⟩
  · rintro ⟨hs, hcaller⟩
    simp only [i_lost_count, hs, hcaller, if_true, if_false] at hc
    cases hc
    exact ⟨rfl, rfl, rfl⟩
  · intro hs
    simp only [i_lost_count, hs, if_true] at hc
    rw [if_neg (by decide)] at hc
    cases hc
    exact ⟨rfl, rfl, rfl⟩

/-- In round one of the three-player game player 1 is the dudo caller: its
i-lost counts as a dudo-fail. -/
theorem i_lost_effect_witness :
    i_lost_accepted msg1 (run (cmd_start :: cmds_dudo1) lobby3) 0 caller1 ∧
      ¬ i_lost_ends_game (run (cmd_start :: cmds_dudo1) lobby3) caller1 ∧
      (tfdg_handle_i_lost msg1 (run (cmd_start :: cmds_dudo1) lobby3)).round_loser = some 1 ∧
      (tfdg_handle_i_lost msg1 (run (cmd_start :: cmds_dudo1) lobby3)).dudo_fail = 1 :=
  have hacc : i_lost_accepted msg1 (run (cmd_start :: cmds_dudo1) lobby3) 0 caller1 :=
    ⟨by decide!, by decide!, by decide!, by decide!⟩
  have hgo : ¬ i_lost_ends_game (run (cmd_start :: cmds_dudo1) lobby3) caller1 :=
    fun h => absurd h.1 (by decide!)
  have h := i_lost_effect msg1 (run (cmd_start :: cmds_dudo1) lobby3) 0 caller1 hacc hgo
  ⟨hacc, hgo, h.2.1, by
    have h5 := (h.2.2.2.2.2.1 ⟨rfl, by decide!⟩).1
    rw [h5]; decide!⟩

theorem room_delete_player_round_loser (r : tfdg_room) (i : Nat) :
    (room_delete_player r i).round_loser = r.round_loser := by
  unfold room_delete_player
  split
  · rfl
  · split
    · simp only [tfdg_send_host, room_set_host]
      split <;> rfl
    · rfl

theorem tfdg_handle_player_lost_round_loser (r : tfdg_room) (i : Nat) :
    (tfdg_handle_player_lost r i).round_loser = r.round_loser := by
  unfold tfdg_handle_player_lost
  split
  · rfl
  · simp [easy_publish, room_delete_player_round_loser]

@[simp] theorem tfdg_handle_winner_round_loser (r : tfdg_room) :
    (tfdg_handle_winner r).round_loser = r.round_loser := rfl

@[simp] theorem i_lost_mark_round_loser (r : tfdg_room) (i : Nat) (p : tfdg_player) :
    (i_lost_mark r i p).round_loser = some p.addr := rfl

/-- Either the i-lost is ignored and the room is unchanged, or its guard holds
for the sender. -/
theorem i_lost_cases (msg : mosquitto_acl_msg) (r : tfdg_room) :
    tfdg_handle_i_lost msg r = r ∨ ∃ i p, i_lost_accepted msg r i p := by
  unfold tfdg_handle_i_lost
  split
  · exact Or.inl rfl
  · rename_i i hf
    split
    · exact Or.inl rfl
    · rename_i p hp
      by_cases hl : r.round_loser = none
      · by_cases hs : p.state = tps_dudo_candidate ∨ p.state = tps_calza_candidate
        · exact Or.inr ⟨i, p, hf, hp, hl, hs⟩
        · left
          have : i_lost_count r p = none := by
            unfold i_lost_count
            rw [if_neg (fun h => hs (Or.inl h)), if_neg (fun h => hs (Or.inr h))]
          simp [hl, this]
      · left
        simp [hl]

/-- After an accepted i-lost a round loser is recorded. -/
theorem i_lost_round_loser (msg : mosquitto_acl_msg) (r : tfdg_room) (i : Nat) (p : tfdg_player)
    (h : i_lost_accepted msg r i p) :
    (tfdg_handle_i_lost msg r).round_loser = some p.addr := by
  obtain ⟨r1, _, _, heq⟩ := i_lost_eq msg r i p h
  rw [heq]
  split
  · rw [tfdg_handle_winner_round_loser, tfdg_handle_player_lost_round_loser,
      i_lost_mark_round_loser]
  · rw [(i_lost_stay_fields (i_lost_mark r1 i p) i p).2.1, i_lost_mark_round_loser]

/-- With a round loser recorded an i-lost is ignored. -/
theorem i_lost_ignored_of_round_loser (msg : mosquitto_acl_msg) (r : tfdg_room)
    (h : r.round_loser ≠ none) : tfdg_handle_i_lost msg r = r := by
  unfold tfdg_handle_i_lost
  split
  · rfl
  · split
    · rfl
    · rw [if_pos h]

/-- The guard of i-lost does not read the time stamp of the room. -/
theorem i_lost_accepted_last_event (msg : mosquitto_acl_msg) (r : tfdg_room) (t : Int) (i : Nat)
    (p : tfdg_player) (h : i_lost_accepted msg (room_set_last_event r t) i p) :
    i_lost_accepted msg r i p := h

/-- An i-lost that is ignored at one time is ignored at any other time. -/
theorem i_lost_ignored_last_event (msg : mosquitto_acl_msg) (r : tfdg_room) (t : Int)
    (h : tfdg_handle_i_lost msg r = r) :
    tfdg_handle_i_lost msg (room_set_last_event r t) = room_set_last_event r t := by
  rcases i_lost_cases msg (room_set_last_event r t) with h2 | ⟨i, p, h2⟩
  · exact h2
  · have hacc := i_lost_accepted_last_event msg r t i p h2
    have hl := i_lost_round_loser msg r i p hacc
    rw [h, hacc.2.2.1] at hl
    cases hl

/-- C4: the same i-lost sent twice in a row gives the room that one i-lost
gives: the second finds a round loser recorded (or, when the first was ignored,
is ignored for the same reason) and changes no field of the room.  Through the
dispatcher, which stamps the room with the time of each command, the second
i-lost changes the last-event stamp and nothing else. -/
theorem i_lost_twice (msg : mosquitto_acl_msg) (r : tfdg_room) :
    tfdg_handle_i_lost msg (tfdg_handle_i_lost msg r) = tfdg_handle_i_lost msg r ∧
      ∀ (t1 t2 : Int),
        acl_write t2 (Command.i_lost msg) (acl_write t1 (Command.i_lost msg) r) =
          room_set_last_event (acl_write t1 (Command.i_lost msg) r) t2 := by
  constructor
  · rcases i_lost_cases msg r with h | ⟨i, p, h⟩
    · rw [h, h]
    · apply i_lost_ignored_of_round_loser
      rw [i_lost_round_loser msg r i p h]
      exact Option.some_ne_none _
  · intro t1 t2
    show tfdg_handle_i_lost msg
        (room_set_last_event (tfdg_handle_i_lost msg (room_set_last_event r t1)) t2) =
      room_set_last_event (tfdg_handle_i_lost msg (room_set_last_event r t1)) t2
    rcases i_lost_cases msg (room_set_last_event r t1) with h | ⟨i, p, h⟩
    · exact i_lost_ignored_last_event msg _ t2 (by rw [h, h])
    · apply i_lost_ignored_of_round_loser
      show (tfdg_handle_i_lost msg (room_set_last_event r t1)).round_loser ≠ none
      rw [i_lost_round_loser msg _ i p h]
      exact Option.some_ne_none _


/-! ## Command sequences on which the engine leaves its rules -/

/-- C5, the single-survivor rule, evaluated on cmds_last_round: after
the last roll-dice the turn order holds player 3 alone, yet the room is in
tgs_playing_round, not in tgs_game_over, and no winner event was published
(tfdg_new_round removes the player without dice and does not look at the
number of players left). -/
theorem new_round_leaves_single_player :
    (run cmds_last_round lobby3).players.map (fun q => q.addr) = [3] ∧
      (run cmds_last_round lobby3).state = tgs_playing_round ∧
      (run cmds_last_round lobby3).current_count = 1 ∧
      (run cmds_last_round lobby3).published.filter is_winner_event = [] := by
  decide!

/-- C6, call-dudo evaluated on cmds_dudo2: the caller (player 2) and
the player before it (player 1) are dudo candidates and the room is in
tgs_awaiting_loser, but player 3 is still in tps_have_dice, not in
tps_awaiting_loser (the loop of tfdg_handle_call_dudo sets the state of the
caller on every turn). -/
theorem call_dudo_leaves_third_player :
    (run cmds_dudo2 lobby3).players.map (fun q => (q.addr, q.state)) =
        [(1, tps_dudo_candidate), (2, tps_dudo_candidate), (3, tps_have_dice)] ∧
      (run cmds_dudo2 lobby3).dudo_caller = some 2 ∧
      (run cmds_dudo2 lobby3).state = tgs_awaiting_loser := by
  decide!

/-- C9, i-won evaluated right after a first i-won (cmds_calza_won):
the room is in tgs_round_over, and the second i-won of player 1 is not ignored:
calza-success goes from 1 to 2 and the dice of player 1 from 5 to 6, above
max-dice 5. -/
theorem i_won_twice_counts_twice :
    (run cmds_calza_won lobby3).state = tgs_round_over ∧
      (run cmds_calza_won lobby3).calza_success = 1 ∧
      (run cmds_calza_won lobby3).players.map (fun q => q.dice_count) = [5, 5, 5] ∧
      (tfdg_handle_i_won msg1 (run cmds_calza_won lobby3)).calza_success = 2 ∧
      (tfdg_handle_i_won msg1 (run cmds_calza_won lobby3)).players.map (fun q => q.dice_count)
        = [6, 5, 5] ∧
      (run cmds_calza_won lobby3).options.max_dice = 5 := by
  decide!



/-! ## The palifico flag of a player through the steps of the handlers -/

theorem flags_kept_refl (ps : List tfdg_player) : flags_kept ps ps :=
  fun q hq => ⟨q, hq, rfl, id⟩

theorem flags_kept_trans {a b c : List tfdg_player} (h1 : flags_kept a b) (h2 : flags_kept b c) :
    flags_kept a c := by
  intro q3 hq3
  obtain ⟨q2, hq2, ha2, hf2⟩ := h2 q3 hq3
  obtain ⟨q1, hq1, ha1, hf1⟩ := h1 q2 hq2
  exact ⟨q1, hq1, ha1.trans ha2, fun h => hf2 (hf1 h)⟩

theorem flags_kept_of_subset {a b : List tfdg_player} (h : ∀ q ∈ b, q ∈ a) : flags_kept a b :=
  fun q hq => ⟨q, h q hq, rfl, id⟩

theorem flags_kept_append {a b c d : List tfdg_player} (h1 : flags_kept a c)
    (h2 : flags_kept b d) : flags_kept (a ++ b) (c ++ d) := by
  intro q hq
  rcases List.mem_append.mp hq with hq | hq
  · obtain ⟨q1, hq1, h⟩ := h1 q hq
    exact ⟨q1, List.mem_append_left _ hq1, h⟩
  · obtain ⟨q1, hq1, h⟩ := h2 q hq
    exact ⟨q1, List.mem_append_right _ hq1, h⟩

theorem flags_kept_map (f : tfdg_player → tfdg_player) (hf : ∀ q, (f q).addr = q.addr)
    (hx : ∀ q, q.ex_palifico = true → (f q).ex_palifico = true) (ps : List tfdg_player) :
    flags_kept ps (ps.map f) := by
  intro q hq
  obtain ⟨q1, hq1, rfl⟩ := List.mem_map.mp hq
  exact ⟨q1, hq1, (hf q1).symm, hx q1⟩

theorem mem_modify {α : Type} (f : α → α) :
    ∀ (l : List α) (i : Nat) (x : α), x ∈ List.modify f i l → x ∈ l ∨ ∃ y ∈ l, x = f y := by
  intro l
  induction l with
  | nil => intro i x h; simp at h
  | cons a as ih =>
    intro i x h
    cases i with
    | zero =>
      simp only [List.modify_zero_cons, List.mem_cons] at h
      rcases h with h | h
      · exact Or.inr ⟨a, List.mem_cons_self _ _, h⟩
      · exact Or.inl (List.mem_cons_of_mem _ h)
    | succ k =>
      simp only [List.modify_succ_cons, List.mem_cons] at h
      rcases h with h | h
      · exact Or.inl (h ▸ List.mem_cons_self _ _)
      · rcases ih k x h with h | ⟨y, hy, hxy⟩
        · exact Or.inl (List.mem_cons_of_mem _ h)
        · exact Or.inr ⟨y, List.mem_cons_of_mem _ hy, hxy⟩

theorem flags_kept_modify (f : tfdg_player → tfdg_player) (hf : ∀ q, (f q).addr = q.addr)
    (hx : ∀ q, q.ex_palifico = true → (f q).ex_palifico = true) (ps : List tfdg_player)
    (i : Nat) : flags_kept ps (List.modify f i ps) := by
  intro q hq
  rcases mem_modify f ps i q hq with h | ⟨y, hy, rfl⟩
  · exact ⟨q, h, rfl, id⟩
  · exact ⟨y, hy, (hf y).symm, hx y⟩

theorem flags_kept_set_state (s : tfdg_player_state) (ps : List tfdg_player) (i : Nat) :
    flags_kept ps (List.modify (fun q => player_set_state q s) i ps) :=
  flags_kept_modify (fun q => player_set_state q s) (fun _ => rfl) (fun _ h => h) ps i

theorem flags_kept_set_dice (g : tfdg_player → Int) (ps : List tfdg_player) (i : Nat) :
    flags_kept ps (List.modify (fun q => player_set_dice_count q (g q)) i ps) :=
  flags_kept_modify (fun q => player_set_dice_count q (g q)) (fun _ => rfl) (fun _ h => h) ps i

theorem flags_kept_set_ex_palifico (ps : List tfdg_player) (i : Nat) :
    flags_kept ps (List.modify player_set_ex_palifico i ps) :=
  flags_kept_modify player_set_ex_palifico (fun _ => rfl) (fun _ _ => rfl) ps i

theorem flags_kept_eraseIdx (ps : List tfdg_player) (i : Nat) : flags_kept ps (ps.eraseIdx i) :=
  flags_kept_of_subset (fun _ hq => List.mem_of_mem_eraseIdx hq)

theorem room_delete_player_lost_players (r : tfdg_room) (i : Nat) :
    (room_delete_player r i).lost_players = r.lost_players := by
  unfold room_delete_player
  split
  · rfl
  · split
    · simp only [tfdg_send_host, room_set_host]
      split <;> rfl
    · rfl

theorem tfdg_handle_player_lost_lost_players (r : tfdg_room) (i : Nat) (p : tfdg_player)
    (h : r.players[i]? = some p) :
    (tfdg_handle_player_lost r i).lost_players = r.lost_players ++ [p] := by
  unfold tfdg_handle_player_lost
  simp only [h, easy_publish]
  rw [room_delete_player_lost_players]

theorem kept_easy_publish (r : tfdg_room) (e : Event) :
    all_players (easy_publish r e) = all_players r := rfl

theorem kept_room_delete_player (r : tfdg_room) (i : Nat) :
    flags_kept (all_players r) (all_players (room_delete_player r i)) := by
  unfold all_players
  rw [room_delete_player_players, room_delete_player_lost_players]
  exact flags_kept_append (flags_kept_eraseIdx _ _) (flags_kept_refl _)

theorem kept_player_lost (r : tfdg_room) (i : Nat) :
    flags_kept (all_players r) (all_players (tfdg_handle_player_lost r i)) := by
  cases h : r.players[i]? with
  | none =>
    have : tfdg_handle_player_lost r i = r := by
      unfold tfdg_handle_player_lost
      simp only [h]
    rw [this]
    exact flags_kept_refl _
  | some p =>
    unfold all_players
    rw [tfdg_handle_player_lost_players, tfdg_handle_player_lost_lost_players r i p h]
    apply flags_kept_of_subset
    intro q hq
    rcases List.mem_append.mp hq with hq | hq
    · exact List.mem_append_left _ (List.mem_of_mem_eraseIdx hq)
    · rcases List.mem_append.mp hq with hq | hq
      · exact List.mem_append_right _ hq
      · rw [List.mem_singleton] at hq
        subst hq
        exact List.mem_append_left _ (List.getElem?_mem h)

theorem kept_winner (r : tfdg_room) : all_players (tfdg_handle_winner r) = all_players r := rfl

theorem kept_new_round_remove (r : tfdg_room) :
    flags_kept (all_players r) (all_players (new_round_remove r)) := by
  unfold new_round_remove
  split
  · exact flags_kept_refl _
  · exact kept_player_lost r _

theorem kept_new_round_reset (r : tfdg_room) :
    all_players (new_round_reset r) = all_players r := rfl

/-- A write of a die at an index below the word of pre_roll and ex_palifico
leaves the address, the size of the die array and the palifico flag. -/
theorem dice_values_write_kept (p : tfdg_player) (i : Nat) (v : Int)
    (hi : i < p.dice_values.length + 2) :
    (dice_values_write p i v).addr = p.addr ∧
      (dice_values_write p i v).dice_values.length = p.dice_values.length ∧
      (dice_values_write p i v).ex_palifico = p.ex_palifico := by
  unfold dice_values_write
  split
  · exact ⟨rfl, List.length_set _ _ _, rfl⟩
  · split
    · exact ⟨rfl, rfl, rfl⟩
    · split
      · exact ⟨rfl, rfl, rfl⟩
      · split
        · omega
        · exact ⟨rfl, rfl, rfl⟩

/-- The loop of player_set_dice_values keeps the palifico flag of a player as
long as it stays below the word of pre_roll and ex_palifico, that is for a
player with at most two dice more than the die array has entries. -/
theorem set_dice_loop_kept (bytes : Nat → Nat) (m : Int) :
    ∀ (n i : Nat) (p : tfdg_player) (totals : List Int),
      i + n ≤ p.dice_values.length + 2 →
      (player_set_dice_values_loop bytes m n i p totals).1.addr = p.addr ∧
        (player_set_dice_values_loop bytes m n i p totals).1.ex_palifico = p.ex_palifico := by
  intro n
  induction n with
  | zero => intro i p totals _; exact ⟨rfl, rfl⟩
  | succ n ih =>
    intro i p totals h
    simp only [player_set_dice_values_loop]
    obtain ⟨ha, hl, hx⟩ := dice_values_write_kept p i
      (((bytes i % 256 : Nat) : Int) % m + 1) (by omega)
    obtain ⟨ha2, hx2⟩ := ih (i + 1) (dice_values_write p i (((bytes i % 256 : Nat) : Int) % m + 1))
      (List.modify (fun t => t + 1) ((((bytes i % 256 : Nat) : Int) % m + 1) - 1).toNat totals)
      (by rw [hl]; omega)
    exact ⟨ha2.trans ha, hx2.trans hx⟩

/-- The deal of tfdg_new_round keeps the palifico flags when no player holds
more than two dice above the size of its die array (22 dice for the array of
MAX_DICE entries). -/
theorem kept_new_round_deal (bytes : Nat → Nat) (md m : Int) :
    ∀ (ps : List tfdg_player) (i : Nat) (totals : List Int),
      (∀ p ∈ ps, p.dice_count ≤ p.dice_values.length + 2) →
      flags_kept ps (new_round_deal bytes md m i ps totals).1 := by
  intro ps
  induction ps with
  | nil => intro i totals _ q hq; simp [new_round_deal] at hq
  | cons p ps ih =>
    intro i totals hfit q hq
    simp only [new_round_deal, List.mem_cons] at hq
    rcases hq with hq | hq
    · subst hq
      have hp := hfit p (List.mem_cons_self _ _)
      obtain ⟨ha, hx⟩ := set_dice_loop_kept (fun j => bytes ((md * (i : Int)).toNat + j)) m
        p.dice_count.toNat 0 p totals (by omega)
      refine ⟨p, List.mem_cons_self _ _, ?_, ?_⟩
      · simp only [player_set_state, player_set_dice_values]
        exact ha.symm
      · intro hflag
        simp only [player_set_state, player_set_dice_values]
        rw [hx]
        exact hflag
    · obtain ⟨q1, hq1, h⟩ := ih _ _ (fun p hp => hfit p (List.mem_cons_of_mem _ hp)) q hq
      exact ⟨q1, List.mem_cons_of_mem _ hq1, h⟩

theorem new_round_play_lost_players (bytes : Nat → Nat) (count : Int) (r : tfdg_room) :
    (new_round_play bytes count r).lost_players = r.lost_players := by
  unfold new_round_play
  simp only [report_results_to_losers, easy_publish]
  split <;> rfl

theorem new_round_play_players (bytes : Nat → Nat) (count : Int) (r : tfdg_room) :
    (new_round_play bytes count r).players =
      (new_round_deal bytes r.options.max_dice (new_round_max_dice_value r bytes count) 0
        r.players r.totals).1 := by
  unfold new_round_play
  simp only [report_results_to_losers, easy_publish]
  split <;> rfl

theorem kept_new_round_play (bytes : Nat → Nat) (count : Int) (r : tfdg_room)
    (hfit : ∀ p ∈ r.players, p.dice_count ≤ p.dice_values.length + 2) :
    flags_kept (all_players r) (all_players (new_round_play bytes count r)) := by
  unfold all_players
  rw [new_round_play_players, new_round_play_lost_players]
  exact flags_kept_append (kept_new_round_deal _ _ _ _ _ _ hfit) (flags_kept_refl _)

theorem new_round_remove_players_subset (r : tfdg_room) :
    ∀ p ∈ (new_round_remove r).players, p ∈ r.players := by
  intro p hp
  unfold new_round_remove at hp
  split at hp
  · exact hp
  · rw [tfdg_handle_player_lost_players] at hp
    exact List.mem_of_mem_eraseIdx hp

/-- The function tfdg_new_round keeps the palifico flag of every player when no
player of the turn order holds more than two dice above the size of its die
array (22 dice): only then does the deal stay clear of ex_palifico. -/
theorem kept_new_round (rnd : rand_bytes) (r : tfdg_room)
    (hfit : ∀ p ∈ r.players, p.dice_count ≤ p.dice_values.length + 2) :
    flags_kept (all_players r) (all_players (tfdg_new_round rnd r)) := by
  unfold tfdg_new_round
  split
  · exact flags_kept_refl _
  · have h1 : flags_kept (all_players r) (all_players (new_round_reset (new_round_remove r))) := by
      rw [kept_new_round_reset]
      exact kept_new_round_remove r
    simp only []
    split
    · exact flags_kept_trans h1 (kept_new_round_play _ _ _
        (fun p hp => hfit p (new_round_remove_players_subset r p hp)))
    · exact h1

theorem room_shuffle_loop_subset (bytes : Nat → Nat) :
    ∀ (n i : Nat) (src dst : List tfdg_player),
      ∀ q ∈ room_shuffle_loop bytes n i src dst, q ∈ src ∨ q ∈ dst := by
  intro n
  induction n with
  | zero => intro i src dst q hq; exact Or.inr hq
  | succ n ih =>
    intro i src dst q hq
    simp only [room_shuffle_loop] at hq
    split at hq
    · exact Or.inr hq
    · rename_i p hp
      rcases ih _ _ _ q hq with h | h
      · exact Or.inl (List.mem_of_mem_eraseIdx h)
      · rcases List.mem_append.mp h with h | h
        · exact Or.inr h
        · rw [List.mem_singleton] at h
          subst h
          exact Or.inl (List.getElem?_mem hp)

theorem kept_shuffle (rnd : rand_bytes) (r : tfdg_room) :
    flags_kept (all_players r) (all_players (room_shuffle_players rnd r)) := by
  unfold room_shuffle_players
  split
  · unfold all_players
    refine flags_kept_append (flags_kept_of_subset ?_) (flags_kept_refl _)
    intro q hq
    rcases room_shuffle_loop_subset _ _ _ _ _ q hq with h | h
    · exact h
    · simp at h
  · exact flags_kept_refl _

theorem kept_pre_roll_init_loop (bytes : Nat → Nat) (m : Int) :
    ∀ (ps : List tfdg_player) (i : Nat),
      flags_kept ps (room_pre_roll_init_loop bytes m i ps).1 := by
  intro ps
  induction ps with
  | nil => intro i q hq; simp [room_pre_roll_init_loop] at hq
  | cons p ps ih =>
    intro i q hq
    simp only [room_pre_roll_init_loop] at hq
    split at hq
    · simp only [List.mem_cons] at hq
      rcases hq with hq | hq
      · subst hq
        exact ⟨p, List.mem_cons_self _ _, rfl, id⟩
      · obtain ⟨q1, hq1, h⟩ := ih _ q hq
        exact ⟨q1, List.mem_cons_of_mem _ hq1, h⟩
    · simp only [List.mem_cons] at hq
      rcases hq with hq | hq
      · subst hq
        exact ⟨q, List.mem_cons_self _ _, rfl, id⟩
      · obtain ⟨q1, hq1, h⟩ := ih _ q hq
        exact ⟨q1, List.mem_cons_of_mem _ hq1, h⟩

theorem kept_pre_roll_init (rnd : rand_bytes) (r : tfdg_room) :
    flags_kept (all_players r) (all_players (room_pre_roll_init rnd r)) := by
  unfold room_pre_roll_init all_players
  exact flags_kept_append (kept_pre_roll_init_loop _ _ _ _) (flags_kept_refl _)

theorem kept_pre_roll_mark (r : tfdg_room) (m : Int) :
    flags_kept (all_players r) (all_players (pre_roll_mark r m)) := by
  unfold pre_roll_mark all_players
  refine flags_kept_append (flags_kept_map _ ?_ ?_ _) (flags_kept_refl _)
  · intro q; split <;> rfl
  · intro q hq; split <;> exact hq

theorem kept_pre_roll_result (rnd : rand_bytes) (r : tfdg_room) :
    flags_kept (all_players r) (all_players (tfdg_handle_pre_roll_result rnd r)) := by
  unfold tfdg_handle_pre_roll_result
  simp only []
  split
  · exact kept_pre_roll_mark r _
  · exact flags_kept_trans (kept_pre_roll_mark r _) (kept_pre_roll_init rnd _)

theorem kept_pre_roll_sent (r : tfdg_room) (i : Nat) (p : tfdg_player) :
    flags_kept (all_players r) (all_players (pre_roll_sent r i p)) := by
  unfold pre_roll_sent all_players
  exact flags_kept_append
    (flags_kept_modify (fun q => player_set_state q tps_pre_roll_sent) (fun _ => rfl)
      (fun _ h => h) r.players i)
    (flags_kept_refl _)

theorem kept_pre_roll_dice (rnd : rand_bytes) (r : tfdg_room) (i : Nat) :
    flags_kept (all_players r) (all_players (tfdg_handle_pre_roll_dice rnd r i)) := by
  unfold tfdg_handle_pre_roll_dice
  split
  · exact flags_kept_refl _
  · split
    · simp only []
      split
      · exact flags_kept_trans (kept_pre_roll_sent r i _) (kept_pre_roll_result rnd _)
      · exact kept_pre_roll_sent r i _
    · exact flags_kept_refl _

theorem start_game_setup_players (now : Int) (s1 s2 : rand_bytes) (r : tfdg_room) :
    (start_game_setup now s1 s2 r).players =
      (room_shuffle_players s1 { r with current_count := r.player_count }).players.map
        (fun q => player_set_dice_count q
          (room_shuffle_players s1 { r with current_count := r.player_count }).options.max_dice) := by
  unfold start_game_setup
  simp only [tfdg_send_lobby_players, easy_publish]
  split <;> rfl

theorem start_game_setup_lost_players (now : Int) (s1 s2 : rand_bytes) (r : tfdg_room) :
    (start_game_setup now s1 s2 r).lost_players =
      (room_shuffle_players s1 { r with current_count := r.player_count }).lost_players := by
  unfold start_game_setup
  simp only [tfdg_send_lobby_players, easy_publish]
  split <;> rfl

theorem kept_start_game_setup (now : Int) (s1 s2 : rand_bytes) (r : tfdg_room) :
    flags_kept (all_players r) (all_players (start_game_setup now s1 s2 r)) := by
  have h1 : flags_kept (all_players r)
      (all_players (room_shuffle_players s1 { r with current_count := r.player_count })) :=
    kept_shuffle s1 { r with current_count := r.player_count }
  refine flags_kept_trans h1 ?_
  unfold all_players
  rw [start_game_setup_players, start_game_setup_lost_players]
  exact flags_kept_append
    (flags_kept_map (fun q => player_set_dice_count q
      (room_shuffle_players s1 { r with current_count := r.player_count }).options.max_dice)
      (fun _ => rfl) (fun _ h => h) _)
    (flags_kept_refl _)

theorem kept_roll_dice_deliver (r : tfdg_room) (a : Nat) :
    flags_kept (all_players r) (all_players (roll_dice_deliver r a)) := by
  unfold roll_dice_deliver
  split
  · split
    · exact flags_kept_refl _
    · split
      · exact flags_kept_refl _
      · exact flags_kept_append
          (flags_kept_modify (fun q => player_set_state q tps_have_dice) (fun _ => rfl)
            (fun _ h => h) r.players _)
          (flags_kept_refl _)
  · split
    · exact flags_kept_refl _
    · split
      · exact flags_kept_refl _
      · split
        · exact flags_kept_refl _
        · exact flags_kept_append (flags_kept_refl _)
            (flags_kept_modify (fun q => player_set_state q tps_have_dice) (fun _ => rfl)
              (fun _ h => h) r.lost_players _)

theorem flags_kept_foldl_modify (f : tfdg_player → tfdg_player) (hf : ∀ q, (f q).addr = q.addr)
    (hx : ∀ q, q.ex_palifico = true → (f q).ex_palifico = true) (i : Nat)
    (base : List tfdg_player) :
    ∀ (xs acc : List tfdg_player), flags_kept base acc →
      flags_kept base (xs.foldl (fun a _ => List.modify f i a) acc) := by
  intro xs
  induction xs with
  | nil => intro acc h; exact h
  | cons x xs ih =>
    intro acc h
    exact ih _ (flags_kept_trans h (flags_kept_modify f hf hx acc i))

theorem call_dudo_apply_lists (r : tfdg_room) (i : Nat) (p : tfdg_player) :
    (call_dudo_apply r i p).players =
        List.modify (fun q => player_set_state q tps_dudo_candidate)
          (cdl_prev (List.modify (fun q => player_set_state q tps_dudo_candidate) i
            (r.players.foldl (fun acc _ =>
              List.modify (fun q => player_set_state q tps_awaiting_loser) i acc) r.players)).length i)
          (List.modify (fun q => player_set_state q tps_dudo_candidate) i
            (r.players.foldl (fun acc _ =>
              List.modify (fun q => player_set_state q tps_awaiting_loser) i acc) r.players)) ∧
      (call_dudo_apply r i p).lost_players = r.lost_players :=
  ⟨rfl, rfl⟩

theorem kept_call_dudo_apply (r : tfdg_room) (i : Nat) (p : tfdg_player) :
    flags_kept (all_players r) (all_players (call_dudo_apply r i p)) := by
  unfold all_players
  rw [(call_dudo_apply_lists r i p).1, (call_dudo_apply_lists r i p).2]
  refine flags_kept_append ?_ (flags_kept_refl _)
  refine flags_kept_trans ?_ (flags_kept_set_state _ _ _)
  refine flags_kept_trans ?_ (flags_kept_set_state _ _ _)
  exact flags_kept_foldl_modify (fun q => player_set_state q tps_awaiting_loser) (fun _ => rfl)
    (fun _ h => h) i r.players r.players r.players (flags_kept_refl _)

theorem kept_call_dudo (msg : mosquitto_acl_msg) (r : tfdg_room) :
    flags_kept (all_players r) (all_players (tfdg_handle_call_dudo msg r)) := by
  unfold tfdg_handle_call_dudo
  split
  · exact flags_kept_refl _
  · split
    · exact flags_kept_refl _
    · split
      · exact flags_kept_refl _
      · exact kept_call_dudo_apply r _ _

theorem call_calza_apply_lists (r : tfdg_room) (i : Nat) (p : tfdg_player) :
    (call_calza_apply r i p).players =
        List.modify (fun q => player_set_state q tps_calza_candidate) i
          (r.players.map (fun q => player_set_state q tps_awaiting_loser)) ∧
      (call_calza_apply r i p).lost_players = r.lost_players :=
  ⟨rfl, rfl⟩

theorem kept_call_calza_apply (r : tfdg_room) (i : Nat) (p : tfdg_player) :
    flags_kept (all_players r) (all_players (call_calza_apply r i p)) := by
  unfold all_players
  rw [(call_calza_apply_lists r i p).1, (call_calza_apply_lists r i p).2]
  refine flags_kept_append ?_ (flags_kept_refl _)
  refine flags_kept_trans ?_ (flags_kept_set_state _ _ _)
  exact flags_kept_map (fun q => player_set_state q tps_awaiting_loser) (fun _ => rfl)
    (fun _ h => h) r.players

theorem kept_call_calza (msg : mosquitto_acl_msg) (r : tfdg_room) :
    flags_kept (all_players r) (all_players (tfdg_handle_call_calza msg r)) := by
  unfold tfdg_handle_call_calza
  split
  · exact flags_kept_refl _
  · split
    · exact flags_kept_refl _
    · split
      · exact flags_kept_refl _
      · split
        · exact flags_kept_refl _
        · split
          · exact flags_kept_refl _
          · exact kept_call_calza_apply r _ _

theorem i_won_apply_lists (r : tfdg_room) (i : Nat) (p : tfdg_player) :
    (i_won_apply r i p).players =
        List.modify (fun q => player_set_dice_count q (q.dice_count + 1)) i r.players ∧
      (i_won_apply r i p).lost_players = r.lost_players :=
  ⟨rfl, rfl⟩

theorem kept_i_won_apply (r : tfdg_room) (i : Nat) (p : tfdg_player) :
    flags_kept (all_players r) (all_players (i_won_apply r i p)) := by
  unfold all_players
  rw [(i_won_apply_lists r i p).1, (i_won_apply_lists r i p).2]
  exact flags_kept_append (flags_kept_set_dice _ _ _) (flags_kept_refl _)

theorem kept_i_won (msg : mosquitto_acl_msg) (r : tfdg_room) :
    flags_kept (all_players r) (all_players (tfdg_handle_i_won msg r)) := by
  unfold tfdg_handle_i_won
  split
  · exact flags_kept_refl _
  · split
    · exact flags_kept_refl _
    · split
      · exact flags_kept_refl _
      · exact kept_i_won_apply r _ _

theorem undo_loser_apply_lists (r : tfdg_room) (i : Nat) (p : tfdg_player) :
    (undo_loser_apply r i p).players =
        List.modify (fun q => player_set_dice_count q (q.dice_count + 1)) i r.players ∧
      (undo_loser_apply r i p).lost_players = r.lost_players ∧
      (undo_loser_apply r i p).round_loser = none := by
  unfold undo_loser_apply
  simp only []
  split <;> exact ⟨rfl, rfl, rfl⟩

theorem kept_undo_loser_apply (r : tfdg_room) (i : Nat) (p : tfdg_player) :
    flags_kept (all_players r) (all_players (undo_loser_apply r i p)) := by
  unfold all_players
  rw [(undo_loser_apply_lists r i p).1, (undo_loser_apply_lists r i p).2.1]
  exact flags_kept_append (flags_kept_set_dice _ _ _) (flags_kept_refl _)

theorem kept_undo_loser (msg : mosquitto_acl_msg) (r : tfdg_room) :
    flags_kept (all_players r) (all_players (tfdg_handle_undo_loser msg r)) := by
  unfold tfdg_handle_undo_loser
  split
  · exact flags_kept_refl _
  · split
    · exact flags_kept_refl _
    · split
      · exact flags_kept_refl _
      · split
        · exact flags_kept_refl _
        · split
          · exact flags_kept_refl _
          · exact kept_undo_loser_apply r _ _

theorem undo_winner_apply_lists (r : tfdg_room) (i : Nat) (p : tfdg_player) :
    (undo_winner_apply r i p).players =
        List.modify (fun q => player_set_dice_count q (q.dice_count - 1)) i r.players ∧
      (undo_winner_apply r i p).lost_players = r.lost_players :=
  ⟨rfl, rfl⟩

theorem kept_undo_winner_apply (r : tfdg_room) (i : Nat) (p : tfdg_player) :
    flags_kept (all_players r) (all_players (undo_winner_apply r i p)) := by
  unfold all_players
  rw [(undo_winner_apply_lists r i p).1, (undo_winner_apply_lists r i p).2]
  exact flags_kept_append (flags_kept_set_dice _ _ _) (flags_kept_refl _)

theorem kept_undo_winner (msg : mosquitto_acl_msg) (r : tfdg_room) :
    flags_kept (all_players r) (all_players (tfdg_handle_undo_winner msg r)) := by
  unfold tfdg_handle_undo_winner
  split
  · exact flags_kept_refl _
  · split
    · exact flags_kept_refl _
    · split
      · exact flags_kept_refl _
      · split
        · exact flags_kept_refl _
        · split
          · exact flags_kept_refl _
          · exact kept_undo_winner_apply r _ _

theorem kept_i_lost_stay (r : tfdg_room) (i : Nat) (p : tfdg_player) :
    flags_kept (all_players r) (all_players (i_lost_stay r i p)) := by
  unfold all_players
  rw [i_lost_stay_players, (i_lost_stay_fields r i p).2.2.2.2.2.2.2.2.2.2.2]
  split
  · exact flags_kept_append (flags_kept_set_ex_palifico _ _) (flags_kept_refl _)
  · exact flags_kept_refl _

theorem kept_i_lost (msg : mosquitto_acl_msg) (r : tfdg_room) :
    flags_kept (all_players r) (all_players (tfdg_handle_i_lost msg r)) := by
  rcases i_lost_cases msg r with h | ⟨i, p, h⟩
  · rw [h]
    exact flags_kept_refl _
  · obtain ⟨r1, _, hr1, heq⟩ := i_lost_eq msg r i p h
    have hmark : flags_kept (all_players r) (all_players (i_lost_mark r1 i p)) := by
      have hp : (i_lost_mark r1 i p).players =
          List.modify (fun q => player_set_dice_count q (q.dice_count - 1)) i r.players := by
        rw [hr1]; rfl
      have hl : (i_lost_mark r1 i p).lost_players = r.lost_players := by
        rw [hr1]; rfl
      unfold all_players
      rw [hp, hl]
      exact flags_kept_append (flags_kept_set_dice _ _ _) (flags_kept_refl _)
    rw [heq]
    split
    · rw [kept_winner]
      exact flags_kept_trans hmark (kept_player_lost _ _)
    · exact flags_kept_trans hmark (kept_i_lost_stay _ _ _)

theorem kept_kick_player_apply (r : tfdg_room) (j : Nat) (p : tfdg_player) :
    flags_kept (all_players r) (all_players (kick_player_apply r j p)) := by
  have h : flags_kept (all_players r)
      (all_players (room_delete_player (easy_publish r (Event.player_left p.addr)) j)) :=
    kept_room_delete_player (easy_publish r (Event.player_left p.addr)) j
  unfold kick_player_apply
  simp only []
  split
  · exact h
  · exact h

theorem kept_kick_player (msg : mosquitto_acl_msg) (r : tfdg_room) :
    flags_kept (all_players r) (all_players (tfdg_handle_kick_player msg r)) := by
  unfold tfdg_handle_kick_player
  split
  · exact flags_kept_refl _
  · split
    · exact flags_kept_refl _
    · split
      · exact kept_kick_player_apply r _ _
      · exact flags_kept_refl _

@[simp] theorem tfdg_handle_winner_palifico_round (r : tfdg_room) :
    (tfdg_handle_winner r).palifico_round = r.palifico_round := rfl

theorem room_delete_player_palifico_round (r : tfdg_room) (i : Nat) :
    (room_delete_player r i).palifico_round = r.palifico_round := by
  unfold room_delete_player
  split
  · rfl
  · split
    · simp only [tfdg_send_host, room_set_host]
      split <;> rfl
    · rfl

theorem tfdg_handle_player_lost_palifico_round (r : tfdg_room) (i : Nat) :
    (tfdg_handle_player_lost r i).palifico_round = r.palifico_round := by
  unfold tfdg_handle_player_lost
  split
  · rfl
  · simp [easy_publish, room_delete_player_palifico_round]



/-! ## Palifico -/

/-- C7 as stated fails with two players: in the two-player game
cmds_two_dice the accepted i-lost of player 1 takes it from two dice to one, its
flag was not set, and yet no palifico round is flagged and no flag is set (the
source tests current_count > 2). -/
theorem palifico_not_flagged_with_two_players :
    i_lost_accepted msg1 (run cmds_two_dice lobby2) 0 caller1_two_dice ∧
      2 ≤ (run cmds_two_dice lobby2).players.length ∧
      (run cmds_two_dice lobby2).current_count = 2 ∧
      caller1_two_dice.dice_count - 1 = 1 ∧ caller1_two_dice.ex_palifico = false ∧
      (tfdg_handle_i_lost msg1 (run cmds_two_dice lobby2)).palifico_round = false ∧
      (tfdg_handle_i_lost msg1 (run cmds_two_dice lobby2)).players.map
        (fun q => (q.addr, q.dice_count, q.ex_palifico)) = [(1, 1, false), (2, 5, false)] := by
  refine ⟨⟨?_, ?_, ?_, ?_⟩, ?_, ?_, ?_, ?_, ?_, ?_⟩ <;> decide!

/-- C7, amended: when more than two players are counted
(current_count > 2), an accepted i-lost that takes the reporter to exactly one
die, the reporter not having triggered palifico before, sets the flag of the
reporter and flags the next round palifico. -/
theorem i_lost_flags_palifico (msg : mosquitto_acl_msg) (r : tfdg_room) (i : Nat)
    (p : tfdg_player) (h : i_lost_accepted msg r i p) (hone : p.dice_count - 1 = 1)
    (hcount : r.current_count > 2) (hex : p.ex_palifico = false) :
    (tfdg_handle_i_lost msg r).palifico_round = true ∧
      ∃ q, (tfdg_handle_i_lost msg r).players[i]? = some q ∧ q.addr = p.addr ∧
        q.uuid = p.uuid ∧ q.ex_palifico = true := by
  obtain ⟨r1, _, hr1, heq⟩ := i_lost_eq msg r i p h
  obtain ⟨_, h2, _, _⟩ := h
  have hgo : ¬ (p.dice_count - 1 = 0 ∧ r.current_count = 2) := by omega
  have hcc : (i_lost_mark r1 i p).current_count = r.current_count := by rw [hr1]; rfl
  have hget : (i_lost_mark r1 i p).players[i]? =
      some (player_set_dice_count p (p.dice_count - 1)) := by
    have hps : (i_lost_mark r1 i p).players =
        List.modify (fun q => player_set_dice_count q (q.dice_count - 1)) i r.players := by
      rw [hr1]; rfl
    rw [hps, List.getElem?_modify_eq, h2]; rfl
  rw [heq, if_neg hgo, i_lost_stay_palifico, i_lost_stay_players, hcc,
    if_pos ⟨hone, hcount, hex⟩]
  exact ⟨decide_eq_true ⟨hone, hcount, hex⟩,
    _, getElem?_modify_ex_palifico _ i _ hget, rfl, rfl, rfl⟩

/-- In the three-player game the fourth lost round takes player 1 from two dice
to one and flags palifico. -/
theorem i_lost_flags_palifico_witness :
    i_lost_accepted msg1 (run cmds_three_two_dice lobby3) 0 caller1_two_dice ∧
      caller1_two_dice.dice_count - 1 = 1 ∧
      (run cmds_three_two_dice lobby3).current_count > 2 ∧
      caller1_two_dice.ex_palifico = false ∧
      (tfdg_handle_i_lost msg1 (run cmds_three_two_dice lobby3)).palifico_round = true :=
  have hacc : i_lost_accepted msg1 (run cmds_three_two_dice lobby3) 0 caller1_two_dice :=
    ⟨by decide!, by decide!, by decide!, by decide!⟩
  ⟨hacc, by decide!, by decide!, rfl,
    (i_lost_flags_palifico msg1 (run cmds_three_two_dice lobby3) 0 caller1_two_dice hacc
      (by decide!) (by decide!) rfl).1⟩

/-- The palifico rule at one i-lost of player P that is accepted in the room
r: (1) when the game goes on, the next round is flagged palifico exactly if P
came down to one die, more than two players are counted and the flag of P was
not set; (2) when the i-lost ends the game, the flag of the room is not
written; (3) if the flag of P is set, the i-lost flags no palifico round;
(4) a flag that is set stays set through the i-lost. -/
theorem i_lost_palifico_once (r : tfdg_room) (msg : mosquitto_acl_msg)
    (i : Nat) (p : tfdg_player) (h : i_lost_accepted msg r i p) :
    (¬ i_lost_ends_game r p →
        ((tfdg_handle_i_lost msg r).palifico_round = true ↔
          p.dice_count - 1 = 1 ∧ r.current_count > 2 ∧ p.ex_palifico = false)) ∧
      (i_lost_ends_game r p →
        (tfdg_handle_i_lost msg r).palifico_round = r.palifico_round) ∧
      (p.ex_palifico = true → ¬ i_lost_ends_game r p →
        (tfdg_handle_i_lost msg r).palifico_round = false) ∧
      (∀ a, ex_palifico_at r a → ex_palifico_at (tfdg_handle_i_lost msg r) a) := by
  obtain ⟨r1, _, hr1, heq⟩ := i_lost_eq msg r i p h
  have hcc : (i_lost_mark r1 i p).current_count = r.current_count := by rw [hr1]; rfl
  have hgoing : ¬ i_lost_ends_game r p →
      ((tfdg_handle_i_lost msg r).palifico_round = true ↔
        p.dice_count - 1 = 1 ∧ r.current_count > 2 ∧ p.ex_palifico = false) := by
    intro hgo
    have hgo2 : ¬ (p.dice_count - 1 = 0 ∧ r.current_count = 2) := hgo
    rw [heq, if_neg hgo2, i_lost_stay_palifico, hcc, decide_eq_true_iff]
  refine ⟨hgoing, ?_, ?_, ?_⟩
  · intro hend
    have hend2 : p.dice_count - 1 = 0 ∧ r.current_count = 2 := hend
    have hpal : (i_lost_mark r1 i p).palifico_round = r.palifico_round := by
      rw [hr1]; rfl
    rw [heq, if_pos hend2, tfdg_handle_winner_palifico_round,
      tfdg_handle_player_lost_palifico_round, hpal]
  · intro hp hgo
    cases hv : (tfdg_handle_i_lost msg r).palifico_round with
    | false => rfl
    | true =>
      have := ((hgoing hgo).mp hv).2.2
      rw [hp] at this
      cases this
  · intro a hflag q hq ha
    obtain ⟨q1, hq1, ha1, hf⟩ := kept_i_lost msg r q hq
    exact hf (hflag q1 hq1 (ha1.trans ha))

/-- Player 1 has triggered palifico in round four; its i-lost in round five
flags no palifico round. -/
theorem i_lost_palifico_once_sample :
    i_lost_accepted msg1 (run cmds_dudo1 (run cmds_one_die lobby3)) 0 caller1_one_die ∧
      (tfdg_handle_i_lost msg1 (run cmds_dudo1 (run cmds_one_die lobby3))).palifico_round
        = false :=
  have hacc : i_lost_accepted msg1 (run cmds_dudo1 (run cmds_one_die lobby3)) 0
      caller1_one_die := ⟨by decide!, by decide!, by decide!, by decide!⟩
  ⟨hacc,
    (i_lost_palifico_once (run cmds_dudo1 (run cmds_one_die lobby3)) msg1 0 caller1_one_die
      hacc).2.2.1 rfl (fun h => absurd h.2 (by decide!))⟩

/-- C8, evaluated on a game of players 1, 2 and 3 with max-dice 3.
Player 2 loses rounds one and two: it holds one die, its one-shot flag is set
and round three is flagged palifico.  In round three player 2 calls calza and
reports i-won 22 times, which takes it to 23 dice.  The deal of round four
(player_set_dice_values) writes 23 dice into the array of 20 entries: the dice
at the indices 20, 21 and 22 land on login_count, state and on the word of
pre_roll and ex_palifico, and the flag of player 2 is cleared.  Player 1 loses
round four.  In round five player 2 calls calza, reports i-won and sends
undo-winner 22 times, which leaves it with two dice; it loses round six, comes
down to one die again, and its i-lost flags a palifico round a second time and
sets the flag again. -/
theorem palifico_twice_for_one_player :
    (served_room (palifico_calza.take 16)).map view_flags =
        some { round := 2, state := tgs_round_over, palifico_round := true,
               seats := [(1, 3, false), (2, 1, true), (3, 3, false)] } ∧
      (served_room flag_before_deal).map view_flags =
        some { round := 3, state := tgs_round_over, palifico_round := true,
               seats := [(1, 3, false), (2, 23, true), (3, 3, false)] } ∧
      (served_room (flag_before_deal ++ roll3)).map view_flags =
        some { round := 4, state := tgs_playing_round, palifico_round := true,
               seats := [(1, 3, false), (2, 23, false), (3, 3, false)] } ∧
      (served_room (flag_cleared.take 77)).map view_flags =
        some { round := 6, state := tgs_playing_round, palifico_round := false,
               seats := [(1, 2, false), (2, 2, false), (3, 3, false)] } ∧
      (served_room flag_cleared).map view_flags =
        some { round := 6, state := tgs_round_over, palifico_round := true,
               seats := [(1, 2, false), (2, 1, true), (3, 3, false)] } := by
  decide!


/-! ## undo-loser -/

theorem map_seat_key_modify (f : tfdg_player → tfdg_player) (hf : ∀ q, seat_key (f q) = seat_key q) :
    ∀ (ps : List tfdg_player) (i : Nat), (List.modify f i ps).map seat_key = ps.map seat_key := by
  intro ps
  induction ps with
  | nil => intro i; simp
  | cons q qs ih =>
    intro i
    cases i with
    | zero => simp [hf]
    | succ k => simp [ih k]

theorem map_seat_key_set_dice (g : tfdg_player → Int) (ps : List tfdg_player) (i : Nat) :
    (List.modify (fun q => player_set_dice_count q (g q)) i ps).map seat_key = ps.map seat_key :=
  map_seat_key_modify (fun q => player_set_dice_count q (g q)) (fun _ => rfl) ps i

theorem map_seat_key_set_ex_palifico (ps : List tfdg_player) (i : Nat) :
    (List.modify player_set_ex_palifico i ps).map seat_key = ps.map seat_key :=
  map_seat_key_modify player_set_ex_palifico (fun _ => rfl) ps i

theorem find_uuid_congr (u : String) :
    ∀ (ps qs : List tfdg_player), ps.map seat_key = qs.map seat_key →
      find_uuid u ps = find_uuid u qs := by
  intro ps
  induction ps with
  | nil =>
    intro qs h
    cases qs with
    | nil => rfl
    | cons q qs => simp at h
  | cons p ps ih =>
    intro qs h
    cases qs with
    | nil => simp at h
    | cons q qs =>
      simp only [List.map_cons, List.cons.injEq] at h
      have hu : p.uuid = q.uuid := by
        have := congrArg (fun k => k.2.1) h.1
        exact this
      simp only [find_uuid, hu, ih qs h.2]

theorem getElem?_seat_key {ps qs : List tfdg_player} (h : ps.map seat_key = qs.map seat_key)
    (i : Nat) : (ps[i]?).map seat_key = (qs[i]?).map seat_key := by
  rw [← List.getElem?_map, ← List.getElem?_map, h]

/-- The sender check gives the same position in two rooms whose turn orders
hold the same seats. -/
theorem find_player_check_id_congr (msg : mosquitto_acl_msg) (r s : tfdg_room)
    (h : r.players.map seat_key = s.players.map seat_key) :
    find_player_check_id msg r = find_player_check_id msg s := by
  unfold find_player_check_id find_player_from_json
  cases msg.name_uuid with
  | none => rfl
  | some nu =>
    simp only []
    rw [find_uuid_congr nu.2 r.players s.players h]
    cases find_uuid nu.2 s.players with
    | none => rfl
    | some i =>
      simp only []
      have hk := getElem?_seat_key h i
      cases hr : r.players[i]? with
      | none =>
        rw [hr] at hk
        cases hs : s.players[i]? with
        | none => rfl
        | some q => rw [hs] at hk; simp at hk
      | some p =>
        rw [hr] at hk
        cases hs : s.players[i]? with
        | none => rw [hs] at hk; simp at hk
        | some q =>
          rw [hs] at hk
          simp only [Option.map_some', Option.some.injEq] at hk
          have hc : p.client_id = q.client_id := congrArg (fun k => k.2.2.1) hk
          simp only [hc]

/-- An accepted i-lost that does not end the game keeps every seat of the turn
order. -/
theorem i_lost_going (msg : mosquitto_acl_msg) (r : tfdg_room) (i : Nat) (p : tfdg_player)
    (h : i_lost_accepted msg r i p) (hgo : ¬ i_lost_ends_game r p) :
    (tfdg_handle_i_lost msg r).players.map seat_key = r.players.map seat_key ∧
      (tfdg_handle_i_lost msg r).state = tgs_round_over ∧
      (tfdg_handle_i_lost msg r).round_loser = some p.addr ∧
      ∃ q, (tfdg_handle_i_lost msg r).players[i]? = some q ∧ seat_key q = seat_key p ∧
        q.dice_count = p.dice_count - 1 := by
  obtain ⟨r1, _, hr1, heq⟩ := i_lost_eq msg r i p h
  obtain ⟨_, h2, _, _⟩ := h
  have hgo2 : ¬ (p.dice_count - 1 = 0 ∧ r.current_count = 2) := hgo
  have hps : (i_lost_mark r1 i p).players =
      List.modify (fun q => player_set_dice_count q (q.dice_count - 1)) i r.players := by
    rw [hr1]; rfl
  have hget : (i_lost_mark r1 i p).players[i]? =
      some (player_set_dice_count p (p.dice_count - 1)) := by
    rw [hps, List.getElem?_modify_eq, h2]; rfl
  have hst : (i_lost_mark r1 i p).state = tgs_round_over := rfl
  obtain ⟨f1, f2, -⟩ := i_lost_stay_fields (i_lost_mark r1 i p) i p
  rw [heq, if_neg hgo2, f1, f2, i_lost_stay_players, hst, i_lost_mark_round_loser]
  refine ⟨?_, rfl, rfl, ?_⟩
  · split
    · rw [map_seat_key_set_ex_palifico, hps, map_seat_key_set_dice]
    · rw [hps, map_seat_key_set_dice]
  · split
    · exact ⟨_, getElem?_modify_ex_palifico _ i _ hget, rfl, rfl⟩
    · exact ⟨_, hget, rfl, rfl⟩

/-- The undo-loser of the recorded round loser q at position i, in a room in
tgs_round_over, runs undo_loser_apply. -/
theorem undo_loser_eq (msg : mosquitto_acl_msg) (r : tfdg_room) (i : Nat) (q : tfdg_player)
    (hf : find_player_check_id msg r = some i) (hq : r.players[i]? = some q)
    (hs : q.state = tps_dudo_candidate ∨ q.state = tps_calza_candidate)
    (hr : r.state = tgs_round_over) (hl : r.round_loser = some q.addr) :
    tfdg_handle_undo_loser msg r = undo_loser_apply r i q := by
  unfold tfdg_handle_undo_loser
  simp only [hf, hq]
  rw [if_neg (by rcases hs with hs | hs <;> simp [hs]), if_neg (by simp [hr]),
    if_neg (by simp [hl])]

/-- C10: an accepted i-lost of player P that does not end the game,
followed at once by undo-loser of P, gives P its dice count back, leaves no
round loser recorded, and every dudo or calza candidate of the dispute (P or the
other one) has its i-lost accepted again. -/
theorem undo_loser_restores (msg : mosquitto_acl_msg) (r : tfdg_room) (i : Nat)
    (p : tfdg_player) (h : i_lost_accepted msg r i p) (hgo : ¬ i_lost_ends_game r p) :
    (∃ q, (tfdg_handle_undo_loser msg (tfdg_handle_i_lost msg r)).players[i]? = some q ∧
        q.addr = p.addr ∧ q.uuid = p.uuid ∧ q.dice_count = p.dice_count) ∧
      (tfdg_handle_undo_loser msg (tfdg_handle_i_lost msg r)).round_loser = none ∧
      ∀ (msg2 : mosquitto_acl_msg) (j : Nat) (c : tfdg_player),
        find_player_check_id msg2 r = some j → r.players[j]? = some c →
        (c.state = tps_dudo_candidate ∨ c.state = tps_calza_candidate) →
        ∃ c2, i_lost_accepted msg2 (tfdg_handle_undo_loser msg (tfdg_handle_i_lost msg r)) j c2 ∧
          c2.addr = c.addr ∧ c2.uuid = c.uuid := by
  obtain ⟨hkey, hst, hrl, q, hq, hqk, hqd⟩ := i_lost_going msg r i p h hgo
  obtain ⟨h1, h2, h3, h4⟩ := h
  have hqa : q.addr = p.addr := congrArg (fun k => k.1) hqk
  have hqu : q.uuid = p.uuid := congrArg (fun k => k.2.1) hqk
  have hqs : q.state = p.state := congrArg (fun k => k.2.2.2) hqk
  have hf1 : find_player_check_id msg (tfdg_handle_i_lost msg r) = some i := by
    rw [find_player_check_id_congr msg _ r hkey, h1]
  have hundo := undo_loser_eq msg (tfdg_handle_i_lost msg r) i q hf1 hq (by rw [hqs]; exact h4)
    hst (by rw [hrl, hqa])
  obtain ⟨up, _, ul⟩ := undo_loser_apply_lists (tfdg_handle_i_lost msg r) i q
  rw [hundo]
  have hkey2 : (undo_loser_apply (tfdg_handle_i_lost msg r) i q).players.map seat_key =
      r.players.map seat_key := by
    rw [up, map_seat_key_set_dice, hkey]
  refine ⟨⟨player_set_dice_count q (q.dice_count + 1), ?_, hqa, hqu, ?_⟩, ul, ?_⟩
  · rw [up, List.getElem?_modify_eq, hq]; rfl
  · simp only [player_set_dice_count, hqd]; omega
  · intro msg2 j c hf hc hcs
    have hk := getElem?_seat_key hkey2 j
    rw [hc] at hk
    cases hc2 : (undo_loser_apply (tfdg_handle_i_lost msg r) i q).players[j]? with
    | none => rw [hc2] at hk; simp at hk
    | some c2 =>
      rw [hc2] at hk
      simp only [Option.map_some', Option.some.injEq] at hk
      have hca : c2.addr = c.addr := congrArg (fun k => k.1) hk
      have hcu : c2.uuid = c.uuid := congrArg (fun k => k.2.1) hk
      have hcst : c2.state = c.state := congrArg (fun k => k.2.2.2) hk
      refine ⟨c2, ⟨?_, hc2, ul, by rw [hcst]; exact hcs⟩, hca, hcu⟩
      rw [find_player_check_id_congr msg2 _ r hkey2, hf]

/-- After i-lost and undo-loser of player 1 in round one, the i-lost of the
other candidate, player 3, is accepted. -/
theorem undo_loser_restores_witness :
    i_lost_accepted msg1 (run (cmd_start :: cmds_dudo1) lobby3) 0 caller1 ∧
      ¬ i_lost_ends_game (run (cmd_start :: cmds_dudo1) lobby3) caller1 ∧
      (tfdg_handle_undo_loser msg1
        (tfdg_handle_i_lost msg1 (run (cmd_start :: cmds_dudo1) lobby3))).round_loser = none ∧
      ∃ c2, i_lost_accepted msg3 (tfdg_handle_undo_loser msg1
          (tfdg_handle_i_lost msg1 (run (cmd_start :: cmds_dudo1) lobby3))) 2 c2 ∧
        c2.addr = candidate3.addr ∧ c2.uuid = candidate3.uuid :=
  have hacc : i_lost_accepted msg1 (run (cmd_start :: cmds_dudo1) lobby3) 0 caller1 :=
    ⟨by decide!, by decide!, by decide!, by decide!⟩
  have hgo : ¬ i_lost_ends_game (run (cmd_start :: cmds_dudo1) lobby3) caller1 :=
    fun h => absurd h.1 (by decide!)
  have h := undo_loser_restores msg1 (run (cmd_start :: cmds_dudo1) lobby3) 0 caller1 hacc hgo
  ⟨hacc, hgo, h.2.1, h.2.2 msg3 2 candidate3 (by decide!) (by decide!) (Or.inl rfl)⟩

/-! ## Undo-winner, start-game after a kick, logout by another client -/

/-- C11, undo-winner evaluated right after the i-won of cmds_calza_won:
the first undo-winner of player 1 takes the die back (5 to 4) but leaves
round_winner set and the player a calza candidate, so the second undo-winner in
a row is accepted as well: the dice go from 4 to 3 and a second undo-winner
event is published (tfdg_handle_undo_winner has no room_set_round_winner call,
where tfdg_handle_undo_loser clears round_loser). -/
theorem undo_winner_twice_counts_twice :
    (run cmds_calza_won lobby3).state = tgs_round_over ∧
      (run cmds_calza_won lobby3).round_winner = some 1 ∧
      (run cmds_calza_won lobby3).players.map (fun q => q.dice_count) = [5, 5, 5] ∧
      (tfdg_handle_undo_winner msg1 (run cmds_calza_won lobby3)).players.map
        (fun q => q.dice_count) = [4, 5, 5] ∧
      (tfdg_handle_undo_winner msg1 (run cmds_calza_won lobby3)).round_winner = some 1 ∧
      (tfdg_handle_undo_winner msg1
        (tfdg_handle_undo_winner msg1 (run cmds_calza_won lobby3))).players.map
        (fun q => q.dice_count) = [3, 5, 5] ∧
      (tfdg_handle_undo_winner msg1
        (tfdg_handle_undo_winner msg1 (run cmds_calza_won lobby3))).published =
        (tfdg_handle_undo_winner msg1 (run cmds_calza_won lobby3)).published ++
          [Event.undo_winner 1] := by
  decide!

/-- C14, start-game evaluated after a kick in the lobby: players 1 and 2
log in to a new room, the host (player 1) kicks player 2, which leaves a lobby
with one seated player and player_count still 2; the start-game of the host is
not ignored: the room leaves the lobby for tgs_pre_roll with player 1 alone
(tfdg_handle_start_game tests player_count, which tfdg_handle_kick_player does
not lower, where tfdg_handle_logout does). -/
theorem start_game_after_kick_starts_alone :
    served_view (logins2 ++ [write_cmd "kick-player" msg1_kick2 3]) =
        some (some { state := tgs_lobby, seats := [(1, 1)], player_count := 2, host := some 1 }) ∧
      served_view (logins2 ++ [write_cmd "kick-player" msg1_kick2 3,
          write_cmd "start-game" msg1 3]) =
        some (some { state := tgs_pre_roll, seats := [(1, 1)], player_count := 2, host := some 1 }) := by
  decide!

/-- C17, logout evaluated for a sender that is not the connection of the
seat: players 1 and 2 log in to a new room, then client 2 sends a logout that
names player 1.  The command is not ignored: the seat of player 1 is removed
from the lobby and player 2 becomes host (tfdg_handle_logout looks the player
up by uuid and never reads the client id of the sender, where the other
handlers go through find_player_check_id). -/
theorem logout_by_other_client_removes_seat :
    served_view logins2 =
        some (some { state := tgs_lobby, seats := [(1, 1), (2, 1)], player_count := 2,
                     host := some 1 }) ∧
      msg2_names1.client_id = "client2" ∧
      (serve logins2 no_rooms).map (fun dir => (dir room0).map
          (fun r => r.players.map (fun q => (q.uuid, q.client_id)))) =
        some (some [("00000000-0000-0000-0000-000000000001", "client1"),
                    ("00000000-0000-0000-0000-000000000002", "client2")]) ∧
      served_view (logins2 ++ [write_cmd "logout" msg2_names1 3]) =
        some (some { state := tgs_lobby, seats := [(2, 1)], player_count := 1, host := some 2 }) := by
  decide!

/-- C19, the access check evaluated on a WRITE request for a room that
does not exist: for the commands call-calza, snd-higher and snd-exact the
handler reads through the NULL room pointer (`room_s->options.allow_calza`,
`room_s->state`) before any test, so the check gives no answer at all, where
the same request with another command name (here i-lost) is answered with
MOSQ_ERR_ACL_DENIED. -/
theorem write_to_missing_room_no_answer :
    (mosquitto_auth_acl_check MOSQ_ACL_WRITE
        "tfdg/00000000-0000-0000-0000-000000000000/call-calza" msg1 (outside 1) no_rooms).isNone
        = true ∧
      (mosquitto_auth_acl_check MOSQ_ACL_WRITE
        "tfdg/00000000-0000-0000-0000-000000000000/snd-higher" msg1 (outside 1) no_rooms).isNone
        = true ∧
      (mosquitto_auth_acl_check MOSQ_ACL_WRITE
        "tfdg/00000000-0000-0000-0000-000000000000/snd-exact" msg1 (outside 1) no_rooms).isNone
        = true ∧
      (mosquitto_auth_acl_check MOSQ_ACL_WRITE
        "tfdg/00000000-0000-0000-0000-000000000000/i-lost" msg1 (outside 1) no_rooms).map
        (fun x => x.1) = some MOSQ_ERR_ACL_DENIED := by
  decide!

/-! ## Commands of a sender that is not the connection of the named seat -/

theorem find_player_check_id_mismatch (msg : mosquitto_acl_msg) (r : tfdg_room) (i : Nat)
    (p : tfdg_player) (hfind : find_player_from_json msg r = some i)
    (hp : r.players[i]? = some p) (hne : msg.client_id ≠ p.client_id) :
    find_player_check_id msg r = none := by
  unfold find_player_check_id
  rw [hfind]
  simp only [hp]
  exact if_neg hne

theorem start_game_of_no_player (now : Int) (s1 s2 s3 : rand_bytes) (msg : mosquitto_acl_msg)
    (r : tfdg_room) (h : find_player_check_id msg r = none) :
    tfdg_handle_start_game now s1 s2 s3 msg r = r := by
  unfold tfdg_handle_start_game
  split
  · rfl
  · rw [h]

theorem call_calza_of_no_player (msg : mosquitto_acl_msg) (r : tfdg_room)
    (h : find_player_check_id msg r = none) : tfdg_handle_call_calza msg r = r := by
  unfold tfdg_handle_call_calza
  split
  · rfl
  · rw [h]

/-- C16: when the payload names a seat of the room and the client id of
the sender differs from the client id bound to that seat, each of start-game,
roll-dice, call-dudo, call-calza, i-lost, i-won, undo-loser, undo-winner,
leave-game and set-option returns the room as it was: no player, dice count,
die value, counter, option, role reference or state changes (and nothing is
published). -/
theorem mismatched_sender_ignored (msg : mosquitto_acl_msg) (r : tfdg_room) (i : Nat)
    (p : tfdg_player) (now : Int) (s1 s2 s3 rnd : rand_bytes)
    (hfind : find_player_from_json msg r = some i) (hp : r.players[i]? = some p)
    (hne : msg.client_id ≠ p.client_id) :
    tfdg_handle_start_game now s1 s2 s3 msg r = r ∧
      tfdg_handle_roll_dice rnd msg r = r ∧
      tfdg_handle_call_dudo msg r = r ∧
      tfdg_handle_call_calza msg r = r ∧
      tfdg_handle_i_lost msg r = r ∧
      tfdg_handle_i_won msg r = r ∧
      tfdg_handle_undo_loser msg r = r ∧
      tfdg_handle_undo_winner msg r = r ∧
      tfdg_handle_leave_game msg r = some r ∧
      tfdg_handle_set_option msg r = r := by
  have h := find_player_check_id_mismatch msg r i p hfind hp hne
  refine ⟨start_game_of_no_player now s1 s2 s3 msg r h, ?_, ?_,
    call_calza_of_no_player msg r h, ?_, ?_, ?_, ?_, ?_, ?_⟩
  · unfold tfdg_handle_roll_dice; rw [h]
  · unfold tfdg_handle_call_dudo; rw [h]
  · unfold tfdg_handle_i_lost; rw [h]
  · unfold tfdg_handle_i_won; rw [h]
  · unfold tfdg_handle_undo_loser; rw [h]
  · unfold tfdg_handle_undo_winner; rw [h]
  · unfold tfdg_handle_leave_game; rw [h]
  · unfold tfdg_handle_set_option; rw [h]

/-- Client 2 names the seat of player 1 in the three-player lobby. -/
theorem mismatched_sender_ignored_witness :
    find_player_from_json msg2_names1 lobby3 = some 0 ∧
      msg2_names1.client_id ≠
        (seated 1 "00000000-0000-0000-0000-000000000001" "Player 1" "client1").client_id ∧
      (tfdg_handle_start_game 1000 zero_bytes zero_bytes zero_bytes msg2_names1 lobby3 = lobby3 ∧
        tfdg_handle_roll_dice zero_bytes msg2_names1 lobby3 = lobby3 ∧
        tfdg_handle_call_dudo msg2_names1 lobby3 = lobby3 ∧
        tfdg_handle_call_calza msg2_names1 lobby3 = lobby3 ∧
        tfdg_handle_i_lost msg2_names1 lobby3 = lobby3 ∧
        tfdg_handle_i_won msg2_names1 lobby3 = lobby3 ∧
        tfdg_handle_undo_loser msg2_names1 lobby3 = lobby3 ∧
        tfdg_handle_undo_winner msg2_names1 lobby3 = lobby3 ∧
        tfdg_handle_leave_game msg2_names1 lobby3 = some lobby3 ∧
        tfdg_handle_set_option msg2_names1 lobby3 = lobby3) :=
  ⟨by decide!, by decide!,
    mismatched_sender_ignored msg2_names1 lobby3 0
      (seated 1 "00000000-0000-0000-0000-000000000001" "Player 1" "client1") 1000
      zero_bytes zero_bytes zero_bytes zero_bytes (by decide!) (by decide!) (by decide!)⟩

/-! ## set-option with a number -/

/-- C20: for a set-option of the host in the lobby whose value is a
number v, max-dice is set to v and a set-option event published exactly when
3 <= v <= 20, max-dice-value is set to v and an event published exactly when
3 <= v <= 9, and in every other case (value out of range, or any other option
name) the room is returned as it was: every option keeps its value and nothing
is published. -/
theorem set_option_int_range (msg : mosquitto_acl_msg) (r : tfdg_room) (i : Nat)
    (p : tfdg_player) (option : String) (v : Int)
    (hfind : find_player_check_id msg r = some i) (hp : r.players[i]? = some p)
    (hstate : r.state = tgs_lobby) (hhost : r.host = some p.addr)
    (hoption : msg.option = some option) (hvalue : msg.value = some (json_value.number v)) :
    tfdg_handle_set_option msg r =
      if option = "max-dice" ∧ 3 ≤ v ∧ v ≤ 20 then
        easy_publish { r with options := { r.options with max_dice := v } }
          (Event.set_option_int "max-dice" v)
      else if option = "max-dice-value" ∧ 3 ≤ v ∧ v ≤ 9 then
        easy_publish { r with options := { r.options with max_dice_value := v } }
          (Event.set_option_int "max-dice-value" v)
      else r := by
  unfold tfdg_handle_set_option
  rw [hfind]
  simp only [hp, hoption, hvalue]
  rw [if_neg (by simp [hstate, hhost])]
  unfold set_option_apply publish_int_option MAX_DICE MAX_DICE_VALUE
  by_cases h1 : option = "max-dice"
  · subst h1
    by_cases hr : 3 ≤ v ∧ v ≤ 20
    · simp [hr]
    · have hr2 : ¬ (v ≥ 3 ∧ v ≤ 20) := hr
      simp [hr, hr2]
  · by_cases h2 : option = "max-dice-value"
    · subst h2
      by_cases hr : 3 ≤ v ∧ v ≤ 9
      · simp [hr]
      · have hr2 : ¬ (v ≥ 3 ∧ v ≤ 9) := hr
        simp [hr, hr2]
    · simp only [h1, h2, false_and, if_false]
      split_ifs <;> rfl

/-- The host of the three-player lobby asks for max-dice 21. -/
theorem set_option_int_range_witness :
    tfdg_handle_set_option (msg1_option "max-dice" (json_value.number 21)) lobby3 =
      if "max-dice" = "max-dice" ∧ (3 : Int) ≤ 21 ∧ (21 : Int) ≤ 20 then
        easy_publish { lobby3 with options := { lobby3.options with max_dice := 21 } }
          (Event.set_option_int "max-dice" 21)
      else if "max-dice" = "max-dice-value" ∧ (3 : Int) ≤ 21 ∧ (21 : Int) ≤ 9 then
        easy_publish { lobby3 with options := { lobby3.options with max_dice_value := 21 } }
          (Event.set_option_int "max-dice-value" 21)
      else lobby3 :=
  set_option_int_range (msg1_option "max-dice" (json_value.number 21)) lobby3 0
    (seated 1 "00000000-0000-0000-0000-000000000001" "Player 1" "client1") "max-dice" 21
    (by decide!) (by decide!) (by decide!) (by decide!) rfl rfl

/-! ## The shuffle is a permutation -/

theorem perm_cons_eraseIdx {α : Type} (p : α) :
    ∀ (src : List α) (j : Nat), src[j]? = some p → List.Perm (p :: src.eraseIdx j) src
  | [], j, h => by simp at h
  | a :: as, 0, h => by
    simp at h
    subst h
    exact List.Perm.refl _
  | a :: as, j + 1, h => by
    have h2 : as[j]? = some p := by simpa using h
    have ih := perm_cons_eraseIdx p as j h2
    show List.Perm (p :: a :: as.eraseIdx j) (a :: as)
    exact (List.Perm.swap a p _).trans (List.Perm.cons a ih)

theorem room_shuffle_loop_perm (bytes : Nat → Nat) :
    ∀ (n i : Nat) (src dst : List tfdg_player), src.length = n →
      List.Perm (room_shuffle_loop bytes n i src dst) (dst ++ src)
  | 0, i, src, dst, h => by
    have hsrc : src = [] := List.length_eq_zero.mp h
    subst hsrc
    simp [room_shuffle_loop]
  | n + 1, i, src, dst, h => by
    unfold room_shuffle_loop
    have hj : (bytes i % 256) % (n + 1) < src.length := by
      rw [h]; exact Nat.mod_lt _ (Nat.succ_pos n)
    have hget : src[(bytes i % 256) % (n + 1)]? = some (src[(bytes i % 256) % (n + 1)]) :=
      List.getElem?_eq_getElem hj
    simp only [hget]
    have hlen : (src.eraseIdx ((bytes i % 256) % (n + 1))).length = n := by
      rw [List.length_eraseIdx, if_pos hj, h]; rfl
    have ih := room_shuffle_loop_perm bytes n (i + 1)
      (src.eraseIdx ((bytes i % 256) % (n + 1))) (dst ++ [src[(bytes i % 256) % (n + 1)]]) hlen
    refine ih.trans ?_
    rw [List.append_assoc]
    exact List.Perm.append_left dst (perm_cons_eraseIdx _ src _ hget)

/-- C15: for every turn order of at most 1000 players (the size of the
byte buffer of the source) and every outcome of RAND_bytes,
room_shuffle_players leaves a turn order that is a permutation of the one it
found: the same player structs, each as often as before. -/
theorem room_shuffle_players_perm (rnd : rand_bytes) (r : tfdg_room)
    (_hsize : r.players.length ≤ 1000) :
    List.Perm (room_shuffle_players rnd r).players r.players := by
  unfold room_shuffle_players
  split
  · have h := room_shuffle_loop_perm rnd.bytes r.players.length 0 r.players [] rfl
    simpa using h
  · exact List.Perm.refl _

/-- The three-player lobby shuffled with zero bytes. -/
theorem room_shuffle_players_perm_witness :
    lobby3.players.length ≤ 1000 ∧
      List.Perm (room_shuffle_players zero_bytes lobby3).players lobby3.players :=
  ⟨by decide!, room_shuffle_players_perm zero_bytes lobby3 (by decide!)⟩

/-! ## The pre-roll resolver -/

theorem pre_roll_sent_count_pos (v : Int) (ps : List tfdg_player) :
    0 < pre_roll_sent_count v ps ↔
      ∃ q ∈ ps, q.state = tps_pre_roll_sent ∧ q.pre_roll = v := by
  unfold pre_roll_sent_count
  rw [List.length_pos_iff_exists_mem]
  constructor
  · rintro ⟨q, hq⟩
    rw [List.mem_filter] at hq
    exact ⟨q, hq.1, by simpa using hq.2⟩
  · rintro ⟨q, hq, h⟩
    exact ⟨q, List.mem_filter.mpr ⟨hq, by simpa using h⟩⟩

theorem pre_roll_max_spec (ps : List tfdg_player) :
    ∀ n : Nat,
      (∃ q ∈ ps, q.state = tps_pre_roll_sent ∧ 0 ≤ q.pre_roll ∧ q.pre_roll ≤ (n : Int)) →
      0 < pre_roll_sent_count (pre_roll_max ps n).1 ps ∧
        (pre_roll_max ps n).2 = (pre_roll_sent_count (pre_roll_max ps n).1 ps : Int) ∧
        ∀ q ∈ ps, q.state = tps_pre_roll_sent → 0 ≤ q.pre_roll → q.pre_roll ≤ (n : Int) →
          q.pre_roll ≤ (pre_roll_max ps n).1
  | 0, ⟨q, hq, hs, h0, hn⟩ => by
    have hv : q.pre_roll = 0 := by
      have hn2 : q.pre_roll ≤ 0 := by simpa using hn
      omega
    have hpos : 0 < pre_roll_sent_count 0 ps := (pre_roll_sent_count_pos 0 ps).2 ⟨q, hq, hs, hv⟩
    unfold pre_roll_max
    rw [if_pos hpos]
    refine ⟨hpos, rfl, ?_⟩
    intro s _ _ _ hsn
    simpa using hsn
  | n + 1, ⟨q, hq, hs, h0, hn⟩ => by
    unfold pre_roll_max
    by_cases hpos : pre_roll_sent_count ((n : Int) + 1) ps > 0
    · rw [if_pos hpos]
      refine ⟨hpos, rfl, ?_⟩
      intro s _ _ _ hsn
      push_cast at hsn
      exact hsn
    · rw [if_neg hpos]
      have key : ∀ s ∈ ps, s.state = tps_pre_roll_sent → s.pre_roll ≠ (n : Int) + 1 :=
        fun s hs1 hst heq => hpos ((pre_roll_sent_count_pos _ ps).2 ⟨s, hs1, hst, heq⟩)
      have hq2 : q.pre_roll ≤ (n : Int) := by
        have := key q hq hs
        push_cast at hn
        omega
      have ih := pre_roll_max_spec ps n ⟨q, hq, hs, h0, hq2⟩
      refine ⟨ih.1, ih.2.1, ?_⟩
      intro s hs1 hst hs0 hsn
      have := key s hs1 hst
      push_cast at hsn
      exact ih.2.2 s hs1 hst hs0 (by omega)

theorem pre_roll_found_spec (r : tfdg_room)
    (hrange : ∀ q ∈ r.players, q.state = tps_pre_roll_sent →
      0 ≤ q.pre_roll ∧ q.pre_roll ≤ r.options.max_dice_value + 1)
    (hsome : ∃ q ∈ r.players, q.state = tps_pre_roll_sent) :
    0 < pre_roll_sent_count (pre_roll_found r).1 r.players ∧
      (pre_roll_found r).2 = (pre_roll_sent_count (pre_roll_found r).1 r.players : Int) ∧
      ∀ q ∈ r.players, q.state = tps_pre_roll_sent → q.pre_roll ≤ (pre_roll_found r).1 := by
  obtain ⟨q, hq, hs⟩ := hsome
  have hmdv : 0 ≤ r.options.max_dice_value + 1 := le_trans (hrange q hq hs).1 (hrange q hq hs).2
  have hcast : (((r.options.max_dice_value + 1).toNat : Nat) : Int) = r.options.max_dice_value + 1 :=
    Int.toNat_of_nonneg hmdv
  unfold pre_roll_found
  rw [if_pos hmdv]
  have h := pre_roll_max_spec r.players (r.options.max_dice_value + 1).toNat
    ⟨q, hq, hs, (hrange q hq hs).1, by rw [hcast]; exact (hrange q hq hs).2⟩
  refine ⟨h.1, h.2.1, ?_⟩
  intro s hs1 hst
  exact h.2.2 s hs1 hst (hrange s hs1 hst).1 (by rw [hcast]; exact (hrange s hs1 hst).2)

theorem pre_roll_top_eq (ps : List tfdg_player) (m : Int)
    (hpos : 0 < pre_roll_sent_count m ps)
    (hmax : ∀ q ∈ ps, q.state = tps_pre_roll_sent → q.pre_roll ≤ m) :
    ∀ q ∈ ps, pre_roll_is_top m q = holds_pre_roll_max ps q := by
  intro q hq
  rw [Bool.eq_iff_iff]
  unfold pre_roll_is_top holds_pre_roll_max
  simp only [decide_eq_true_eq, Bool.and_eq_true, List.all_eq_true]
  constructor
  · rintro ⟨hs, hv⟩
    exact ⟨hs, fun s hs1 hst => by rw [hv]; exact hmax s hs1 hst⟩
  · rintro ⟨hs, hall⟩
    obtain ⟨s0, hs0, hst0, hv0⟩ := (pre_roll_sent_count_pos m ps).1 hpos
    have h1 : m ≤ q.pre_roll := by
      have := hall s0 hs0 hst0
      rw [hv0] at this
      exact this
    exact ⟨hs, le_antisymm (hmax q hq hs) h1⟩

theorem pre_roll_sent_count_eq (m : Int) (ps : List tfdg_player) :
    pre_roll_sent_count m ps = (ps.filter (pre_roll_is_top m)).length := rfl

/-- The top rollers of tfdg_handle_pre_roll_result are the players that hold
the maximum, and max_rolled_count is their number. -/
theorem pre_roll_tops (r : tfdg_room)
    (hrange : ∀ q ∈ r.players, q.state = tps_pre_roll_sent →
      0 ≤ q.pre_roll ∧ q.pre_roll ≤ r.options.max_dice_value + 1)
    (hsome : ∃ q ∈ r.players, q.state = tps_pre_roll_sent) :
    r.players.filter (pre_roll_is_top (pre_roll_found r).1) =
        r.players.filter (holds_pre_roll_max r.players) ∧
      (pre_roll_found r).2 = ((r.players.filter (holds_pre_roll_max r.players)).length : Int) ∧
      0 < (r.players.filter (holds_pre_roll_max r.players)).length ∧
      ∀ q ∈ r.players, pre_roll_is_top (pre_roll_found r).1 q = holds_pre_roll_max r.players q := by
  have h := pre_roll_found_spec r hrange hsome
  have htop := pre_roll_top_eq r.players (pre_roll_found r).1 h.1 h.2.2
  have hfilter := List.filter_congr htop
  refine ⟨hfilter, ?_, ?_, htop⟩
  · rw [h.2.1, pre_roll_sent_count_eq, hfilter]
  · rw [← hfilter, ← pre_roll_sent_count_eq]
    exact h.1

theorem pre_roll_mark_players (r : tfdg_room) (m : Int) :
    (pre_roll_mark r m).players = r.players.map (fun q =>
      if pre_roll_is_top m q then player_set_state q tps_pre_roll
      else player_set_state q tps_pre_roll_lost) := rfl

theorem pre_roll_mark_published (r : tfdg_room) (m : Int) :
    (pre_roll_mark r m).published = r.published ++
      [Event.pre_roll_results ((r.players.filter (pre_roll_is_top m)).map (fun q => q.addr))] :=
  rfl

theorem pre_roll_mark_pre_roll_count (r : tfdg_room) (m : Int) :
    (pre_roll_mark r m).pre_roll_count = r.pre_roll_count := rfl

theorem pre_roll_mark_options (r : tfdg_room) (m : Int) :
    (pre_roll_mark r m).options = r.options := rfl

theorem room_pre_roll_init_state (rnd : rand_bytes) (r : tfdg_room) :
    (room_pre_roll_init rnd r).state = tgs_pre_roll := rfl

theorem room_pre_roll_init_players (rnd : rand_bytes) (r : tfdg_room) :
    (room_pre_roll_init rnd r).players =
      (room_pre_roll_init_loop rnd.bytes r.options.max_dice_value 0 r.players).1 := rfl

theorem room_pre_roll_init_pre_roll_count (rnd : rand_bytes) (r : tfdg_room) :
    (room_pre_roll_init rnd r).pre_roll_count =
      ((room_pre_roll_init_loop rnd.bytes r.options.max_dice_value 0 r.players).2 : Int) := rfl

theorem room_pre_roll_init_loop_states (bytes : Nat → Nat) (mdv : Int) :
    ∀ (ps : List tfdg_player) (i : Nat),
      (room_pre_roll_init_loop bytes mdv i ps).1.map (fun s => (s.addr, s.state)) =
        ps.map (fun s => (s.addr,
          if s.state ≠ tps_pre_roll_lost then tps_pre_roll else tps_pre_roll_lost))
  | [], i => rfl
  | p :: ps, i => by
    unfold room_pre_roll_init_loop
    by_cases h : p.state ≠ tps_pre_roll_lost
    · rw [if_pos h]
      simp only [List.map_cons, if_pos h]
      rw [room_pre_roll_init_loop_states bytes mdv ps (i + 1)]
      rfl
    · rw [if_neg h]
      simp only [List.map_cons, if_neg h]
      rw [room_pre_roll_init_loop_states bytes mdv ps i]
      have h2 : p.state = tps_pre_roll_lost := not_not.mp h
      rw [h2]

theorem room_pre_roll_init_loop_count (bytes : Nat → Nat) (mdv : Int) :
    ∀ (ps : List tfdg_player) (i : Nat),
      (room_pre_roll_init_loop bytes mdv i ps).2 =
        i + (ps.filter (fun s => s.state ≠ tps_pre_roll_lost)).length
  | [], i => rfl
  | p :: ps, i => by
    unfold room_pre_roll_init_loop
    by_cases h : p.state ≠ tps_pre_roll_lost
    · rw [if_pos h]
      show (room_pre_roll_init_loop bytes mdv (i + 1) ps).2 = _
      rw [room_pre_roll_init_loop_count bytes mdv ps (i + 1), List.filter_cons_of_pos (by simpa using h)]
      simp only [List.length_cons]
      omega
    · rw [if_neg h]
      show (room_pre_roll_init_loop bytes mdv i ps).2 = _
      rw [room_pre_roll_init_loop_count bytes mdv ps i, List.filter_cons_of_neg (by simpa using h)]

/-- The states after marking and redrawing, by the test of the second loop. -/
theorem pre_roll_redraw_states (rnd : rand_bytes) (r : tfdg_room) (m : Int) :
    (room_pre_roll_init rnd (pre_roll_mark r m)).players.map (fun s => (s.addr, s.state)) =
      r.players.map (fun s => (s.addr,
        if pre_roll_is_top m s then tps_pre_roll else tps_pre_roll_lost)) := by
  rw [room_pre_roll_init_players, room_pre_roll_init_loop_states, pre_roll_mark_players,
    List.map_map]
  apply List.map_congr_left
  intro s _
  by_cases h : pre_roll_is_top m s = true
  · simp [h, player_set_state]
  · simp [h, player_set_state]

theorem pre_roll_redraw_count (rnd : rand_bytes) (r : tfdg_room) (m : Int) :
    (room_pre_roll_init rnd (pre_roll_mark r m)).pre_roll_count =
      ((r.players.filter (pre_roll_is_top m)).length : Int) := by
  rw [room_pre_roll_init_pre_roll_count, room_pre_roll_init_loop_count, pre_roll_mark_players,
    List.filter_map, List.length_map, Nat.zero_add]
  congr 2
  apply List.filter_congr
  intro s _
  by_cases h : pre_roll_is_top m s = true
  · simp [h, player_set_state]
  · simp [h, player_set_state]

theorem pre_roll_result_resolved (rnd : rand_bytes) (r : tfdg_room)
    (h : (pre_roll_found r).2 = 1) :
    tfdg_handle_pre_roll_result rnd r =
      { pre_roll_mark r (pre_roll_found r).1 with
        state := tgs_pre_roll_over, starter := pre_roll_starter r (pre_roll_found r).1 } := by
  unfold tfdg_handle_pre_roll_result
  simp only [h, if_true]

theorem pre_roll_result_redraw (rnd : rand_bytes) (r : tfdg_room)
    (h : (pre_roll_found r).2 ≠ 1) :
    tfdg_handle_pre_roll_result rnd r =
      room_pre_roll_init rnd (pre_roll_mark r (pre_roll_found r).1) := by
  unfold tfdg_handle_pre_roll_result
  simp only [h, if_false]

/-- C13: tfdg_handle_pre_roll_result, which tfdg_handle_pre_roll_dice
calls when the last awaited pre-roll has been sent.  If exactly one player q
holds the maximum of the values sent, the room goes to tgs_pre_roll_over with q
as starter and nothing is redrawn (the count of awaited rolls and every
pre-roll value stay, the only event is pre-roll-results naming q).  If several
hold the maximum, the room is in tgs_pre_roll, exactly those players are in
tps_pre_roll, every other player is in tps_pre_roll_lost, and the number of
awaited rolls is the number of those players. -/
theorem pre_roll_result_spec (rnd : rand_bytes) (r : tfdg_room)
    (hrange : ∀ q ∈ r.players, q.state = tps_pre_roll_sent →
      0 ≤ q.pre_roll ∧ q.pre_roll ≤ r.options.max_dice_value + 1)
    (hsome : ∃ q ∈ r.players, q.state = tps_pre_roll_sent) :
    (∀ q, r.players.filter (holds_pre_roll_max r.players) = [q] →
        (tfdg_handle_pre_roll_result rnd r).state = tgs_pre_roll_over ∧
        (tfdg_handle_pre_roll_result rnd r).starter = some q.addr ∧
        (tfdg_handle_pre_roll_result rnd r).pre_roll_count = r.pre_roll_count ∧
        (tfdg_handle_pre_roll_result rnd r).players.map (fun s => s.pre_roll) =
          r.players.map (fun s => s.pre_roll) ∧
        (tfdg_handle_pre_roll_result rnd r).published =
          r.published ++ [Event.pre_roll_results [q.addr]]) ∧
      ((r.players.filter (holds_pre_roll_max r.players)).length ≠ 1 →
        (tfdg_handle_pre_roll_result rnd r).state = tgs_pre_roll ∧
        (tfdg_handle_pre_roll_result rnd r).players.map (fun s => (s.addr, s.state)) =
          r.players.map (fun s => (s.addr,
            if holds_pre_roll_max r.players s then tps_pre_roll else tps_pre_roll_lost)) ∧
        (tfdg_handle_pre_roll_result rnd r).pre_roll_count =
          ((r.players.filter (holds_pre_roll_max r.players)).length : Int)) := by
  obtain ⟨hfilter, hcount, _, htop⟩ := pre_roll_tops r hrange hsome
  constructor
  · intro q hq
    have h1 : (pre_roll_found r).2 = 1 := by rw [hcount, hq]; rfl
    rw [pre_roll_result_resolved rnd r h1]
    refine ⟨rfl, ?_, rfl, ?_, ?_⟩
    · show pre_roll_starter r (pre_roll_found r).1 = some q.addr
      unfold pre_roll_starter
      rw [hfilter, hq]
      rfl
    · show (pre_roll_mark r (pre_roll_found r).1).players.map (fun s => s.pre_roll) = _
      rw [pre_roll_mark_players, List.map_map]
      apply List.map_congr_left
      intro s _
      by_cases h : pre_roll_is_top (pre_roll_found r).1 s = true
      · simp [h, player_set_state]
      · simp [h, player_set_state]
    · show (pre_roll_mark r (pre_roll_found r).1).published = _
      rw [pre_roll_mark_published, hfilter, hq]
      rfl
  · intro hne
    have h1 : (pre_roll_found r).2 ≠ 1 := by
      rw [hcount]
      intro h
      exact hne (by exact_mod_cast h)
    rw [pre_roll_result_redraw rnd r h1]
    refine ⟨room_pre_roll_init_state rnd _, ?_, ?_⟩
    · rw [pre_roll_redraw_states]
      apply List.map_congr_left
      intro s hs
      rw [htop s hs]
    · rw [pre_roll_redraw_count, hfilter]

/-- Player 2 holds the higher of two pre-rolls and becomes the starter. -/
theorem pre_roll_result_spec_witness :
    (∀ q ∈ pre_roll_unique.players, q.state = tps_pre_roll_sent →
        0 ≤ q.pre_roll ∧ q.pre_roll ≤ pre_roll_unique.options.max_dice_value + 1) ∧
      (∃ q ∈ pre_roll_unique.players, q.state = tps_pre_roll_sent) ∧
      (tfdg_handle_pre_roll_result zero_bytes pre_roll_unique).state = tgs_pre_roll_over ∧
      (tfdg_handle_pre_roll_result zero_bytes pre_roll_unique).starter = some 2 :=
  ⟨by decide!, by decide!,
    ((pre_roll_result_spec zero_bytes pre_roll_unique (by decide!) (by decide!)).1
      { seated 2 "00000000-0000-0000-0000-000000000002" "Player 2" "client2" with
        state := tps_pre_roll_sent, pre_roll := 2 } (by decide!)).1,
    ((pre_roll_result_spec zero_bytes pre_roll_unique (by decide!) (by decide!)).1
      { seated 2 "00000000-0000-0000-0000-000000000002" "Player 2" "client2" with
        state := tps_pre_roll_sent, pre_roll := 2 } (by decide!)).2.1⟩

/-! ## Redraws of the pre-roll -/

theorem pre_roll_dice_last (rnd : rand_bytes) (r : tfdg_room) (i : Nat) (p : tfdg_player)
    (hp : r.players[i]? = some p) (hs : p.state = tps_pre_roll) (hc : r.pre_roll_count = 1) :
    tfdg_handle_pre_roll_dice rnd r i = tfdg_handle_pre_roll_result rnd (pre_roll_sent r i p) := by
  unfold tfdg_handle_pre_roll_dice
  simp only [hp]
  rw [if_pos hs]
  have h0 : (pre_roll_sent r i p).pre_roll_count = 0 := by
    show r.pre_roll_count - 1 = 0
    rw [hc]; rfl
  rw [if_pos h0]

set_option maxHeartbeats 1000000 in
/-- A round of zero-byte draws takes a tied pre-roll of players 1 and 2 back to
where it was. -/
theorem tie_round_inv (r : tfdg_room) (hs : r.state = tgs_pre_roll) (hp : r.players = tie_players)
    (hc : r.pre_roll_count = 2) (ho : r.options.max_dice_value = 6) :
    (tie_round r).state = tgs_pre_roll ∧ (tie_round r).players = tie_players ∧
      (tie_round r).pre_roll_count = 2 ∧ (tie_round r).options.max_dice_value = 6 := by
  cases r with
  | mk uuid by_uuid by_client others players lost pc cc state st le host starter dc cac rl rw
      rnd ds df cs cf pal opts prc totals pub =>
    cases opts with
    | mk md mdv ac lsd rmdv rdas srt =>
      simp only at hs hp hc ho
      subst hs hp hc ho
      exact ⟨rfl, rfl, rfl, rfl⟩

theorem tie_rounds_inv : ∀ n : Nat,
    (Nat.iterate tie_round n pre_roll_started).state = tgs_pre_roll ∧
      (Nat.iterate tie_round n pre_roll_started).players = tie_players ∧
      (Nat.iterate tie_round n pre_roll_started).pre_roll_count = 2 ∧
      (Nat.iterate tie_round n pre_roll_started).options.max_dice_value = 6
  | 0 => by decide!
  | n + 1 => by
    rw [Function.iterate_succ_apply']
    have ih := tie_rounds_inv n
    exact tie_round_inv _ ih.1 ih.2.1 ih.2.2.1 ih.2.2.2

/-- C12 as stated, evaluated on a tie: players 1 and 2 log in, the host
starts the game and both roll; RAND_bytes gives zero bytes, so both hold the
pre-roll value 1.  The iteration does not resolve (the room stays in
tgs_pre_roll) and the players that draw next are players 1 and 2, the same set
that drew, not a strict subset.  With zero bytes this repeats: after any number
n of rounds of rolls the room is still in tgs_pre_roll with players 1 and 2 to
draw, so no number of redraws bounds the resolver for every byte sequence. -/
theorem pre_roll_tie_redraws_same_set :
    ((serve pre_roll_start no_rooms).map (fun dir => (dir room0).map view_pre_roll) =
        some (some { state := tgs_pre_roll,
                     seats := [(1, tps_pre_roll, 1), (2, tps_pre_roll, 1)],
                     pre_roll_count := 2, starter := some 1 }) ∧
      (serve (pre_roll_start ++ rolls2) no_rooms).map
          (fun dir => (dir room0).map view_pre_roll) =
        some (some { state := tgs_pre_roll,
                     seats := [(1, tps_pre_roll, 1), (2, tps_pre_roll, 1)],
                     pre_roll_count := 2, starter := some 1 }) ∧
      pre_roll_drew pre_roll_tie.players = [1, 2] ∧
      pre_roll_eligible (tfdg_handle_pre_roll_result zero_bytes pre_roll_tie).players = [1, 2] ∧
      (tfdg_handle_pre_roll_result zero_bytes pre_roll_tie).state = tgs_pre_roll) ∧
      ∀ n : Nat, (Nat.iterate tie_round n pre_roll_started).state = tgs_pre_roll ∧
        pre_roll_eligible (Nat.iterate tie_round n pre_roll_started).players = [1, 2] := by
  refine ⟨by decide!, fun n => ⟨(tie_rounds_inv n).1, ?_⟩⟩
  rw [(tie_rounds_inv n).2.1]
  decide!

theorem pre_roll_eligible_of_states (ps qs : List tfdg_player) (top : tfdg_player → Bool)
    (h : ps.map (fun s => (s.addr, s.state)) =
      qs.map (fun s => (s.addr, if top s then tps_pre_roll else tps_pre_roll_lost))) :
    pre_roll_eligible ps = (qs.filter top).map (fun s => s.addr) := by
  have h1 : pre_roll_eligible ps =
      ((ps.map (fun s => (s.addr, s.state))).filter (fun x => x.2 = tps_pre_roll)).map
        (fun x => x.1) := by
    unfold pre_roll_eligible
    rw [List.filter_map, List.map_map]
    rfl
  rw [h1, h, List.filter_map, List.map_map]
  have h2 : qs.filter ((fun x : Nat × tfdg_player_state => decide (x.2 = tps_pre_roll)) ∘
      (fun s => (s.addr, if top s then tps_pre_roll else tps_pre_roll_lost))) = qs.filter top := by
    apply List.filter_congr
    intro s _
    by_cases ht : top s = true
    · simp [ht]
    · simp [ht]
  rw [h2]
  rfl

theorem holds_pre_roll_max_sent (ps : List tfdg_player) (q : tfdg_player)
    (h : holds_pre_roll_max ps q = true) : q.state = tps_pre_roll_sent := by
  unfold holds_pre_roll_max at h
  simp only [Bool.and_eq_true, decide_eq_true_eq] at h
  exact h.1

theorem tops_filter_drew (ps : List tfdg_player) :
    ps.filter (holds_pre_roll_max ps) =
      (ps.filter (fun q => q.state = tps_pre_roll_sent)).filter (holds_pre_roll_max ps) := by
  rw [List.filter_filter]
  apply List.filter_congr
  intro q _
  by_cases h : holds_pre_roll_max ps q = true
  · simp [h, holds_pre_roll_max_sent ps q h]
  · simp [h]

/-- C12, amended: in an iteration of the pre-roll that does not resolve,
the players that draw next are exactly the players that hold the maximum of the
values sent: at least two players, all among those that drew in this iteration,
and fewer than those exactly when some player that drew holds less than the
maximum.  When all that drew tie, the same set draws again. -/
theorem pre_roll_redraw_set (rnd : rand_bytes) (r : tfdg_room)
    (hrange : ∀ q ∈ r.players, q.state = tps_pre_roll_sent →
      0 ≤ q.pre_roll ∧ q.pre_roll ≤ r.options.max_dice_value + 1)
    (hsome : ∃ q ∈ r.players, q.state = tps_pre_roll_sent)
    (hopen : (tfdg_handle_pre_roll_result rnd r).state ≠ tgs_pre_roll_over) :
    pre_roll_eligible (tfdg_handle_pre_roll_result rnd r).players =
        (r.players.filter (holds_pre_roll_max r.players)).map (fun s => s.addr) ∧
      2 ≤ (pre_roll_eligible (tfdg_handle_pre_roll_result rnd r).players).length ∧
      List.Sublist (pre_roll_eligible (tfdg_handle_pre_roll_result rnd r).players)
        (pre_roll_drew r.players) ∧
      ((pre_roll_eligible (tfdg_handle_pre_roll_result rnd r).players).length <
          (pre_roll_drew r.players).length ↔
        ∃ q ∈ r.players, q.state = tps_pre_roll_sent ∧ holds_pre_roll_max r.players q = false) := by
  obtain ⟨hfilter, hcount, hpos, htop⟩ := pre_roll_tops r hrange hsome
  have hne : (pre_roll_found r).2 ≠ 1 := by
    intro h1
    apply hopen
    rw [pre_roll_result_resolved rnd r h1]
  have hlen : (r.players.filter (holds_pre_roll_max r.players)).length ≠ 1 := by
    intro h
    apply hne
    rw [hcount, h]
    rfl
  have hstates : (tfdg_handle_pre_roll_result rnd r).players.map (fun s => (s.addr, s.state)) =
      r.players.map (fun s => (s.addr,
        if holds_pre_roll_max r.players s then tps_pre_roll else tps_pre_roll_lost)) := by
    rw [pre_roll_result_redraw rnd r hne, pre_roll_redraw_states]
    apply List.map_congr_left
    intro s hs
    rw [htop s hs]
  have helig := pre_roll_eligible_of_states _ _ _ hstates
  rw [helig]
  refine ⟨rfl, ?_, ?_, ?_⟩
  · rw [List.length_map]
    omega
  · unfold pre_roll_drew
    rw [tops_filter_drew]
    exact (List.filter_sublist _).map _
  · unfold pre_roll_drew
    rw [List.length_map, List.length_map, tops_filter_drew,
      List.length_filter_lt_length_iff_exists]
    constructor
    · rintro ⟨q, hq, hnot⟩
      rw [List.mem_filter] at hq
      exact ⟨q, hq.1, by simpa using hq.2, by simpa using hnot⟩
    · rintro ⟨q, hq, hs, hnot⟩
      exact ⟨q, List.mem_filter.mpr ⟨hq, by simpa using hs⟩, by simp [hnot]⟩

/-- Both players hold the value 1: the same two players draw again. -/
theorem pre_roll_redraw_set_witness :
    (∀ q ∈ pre_roll_tie.players, q.state = tps_pre_roll_sent →
        0 ≤ q.pre_roll ∧ q.pre_roll ≤ pre_roll_tie.options.max_dice_value + 1) ∧
      (∃ q ∈ pre_roll_tie.players, q.state = tps_pre_roll_sent) ∧
      (tfdg_handle_pre_roll_result zero_bytes pre_roll_tie).state ≠ tgs_pre_roll_over ∧
      2 ≤ (pre_roll_eligible (tfdg_handle_pre_roll_result zero_bytes pre_roll_tie).players).length :=
  ⟨by decide!, by decide!, by decide!,
    (pre_roll_redraw_set zero_bytes pre_roll_tie (by decide!) (by decide!) (by decide!)).2.1⟩

/-! ## The access check -/

theorem tokenise_loop_slash (rest : List Char) :
    ∀ (s cur : List Char), '/' ∉ s →
      tokenise_loop cur (s ++ '/' :: rest) =
        if cur ++ s ≠ [] then (some (String.mk (cur ++ s)), rest) else tokenise_loop [] rest
  | [], cur, _ => by
    simp only [List.nil_append, List.append_nil]
    rw [tokenise_loop]
    simp only [if_true]
  | c :: s, cur, h => by
    have hc : c ≠ '/' := fun e => h (by rw [e]; exact List.mem_cons_self _ _)
    have hs : '/' ∉ s := fun e => h (List.mem_cons_of_mem _ e)
    show tokenise_loop cur (c :: (s ++ '/' :: rest)) = _
    rw [tokenise_loop, if_neg hc, tokenise_loop_slash rest s (cur ++ [c]) hs]
    simp

theorem tokenise_loop_end :
    ∀ (s cur : List Char), '/' ∉ s →
      tokenise_loop cur s = (if cur ++ s ≠ [] then some (String.mk (cur ++ s)) else none, [])
  | [], cur, _ => by
    rw [tokenise_loop]
    simp
  | c :: s, cur, h => by
    have hc : c ≠ '/' := fun e => h (by rw [e]; exact List.mem_cons_self _ _)
    have hs : '/' ∉ s := fun e => h (List.mem_cons_of_mem _ e)
    rw [tokenise_loop, if_neg hc, tokenise_loop_end s (cur ++ [c]) hs]
    simp

theorem validate_uuid_data (s : String) (h : validate_uuid s = true) : s.data ≠ [] := by
  intro he
  have hs : s = "" := by
    cases s
    simp only at he
    rw [he]
  rw [hs] at h
  exact absurd h (by decide!)

theorem dice_topic_data (room player : String) :
    ("tfdg/" ++ room ++ "/dice/" ++ player).data =
      't' :: 'f' :: 'd' :: 'g' :: '/' ::
        (room.data ++ '/' :: (['d', 'i', 'c', 'e'] ++ '/' :: player.data)) := by
  simp [String.data_append]

/-- The tokens of the topic tfdg/room/dice/player. -/
theorem dice_topic_tokens (room player : String) (hroom : room.data ≠ [])
    (hplayer : player.data ≠ []) (hr : '/' ∉ room.data) (hp : '/' ∉ player.data) :
    tfdg_topic_tokenise (("tfdg/" ++ room ++ "/dice/" ++ player).data.drop 5) =
      (some room, some "dice", some player) := by
  rw [dice_topic_data]
  show tfdg_topic_tokenise (room.data ++ '/' :: (['d', 'i', 'c', 'e'] ++ '/' :: player.data)) = _
  unfold tfdg_topic_tokenise
  have h1 := tokenise_loop_slash (['d', 'i', 'c', 'e'] ++ '/' :: player.data) room.data [] hr
  rw [List.nil_append, if_pos hroom] at h1
  have h2 := tokenise_loop_slash player.data ['d', 'i', 'c', 'e'] [] (by decide)
  rw [List.nil_append, if_pos (by decide)] at h2
  have h3 := tokenise_loop_end player.data [] hp
  rw [List.nil_append, if_pos hplayer] at h3
  simp only [h1, h2, h3]

theorem dice_topic_not_stats (room player : String) :
    "tfdg/" ++ room ++ "/dice/" ++ player ≠ "tfdg/stats" := by
  intro e
  have h := congrArg String.data e
  rw [dice_topic_data] at h
  have h2 : room.data ++ '/' :: (['d', 'i', 'c', 'e'] ++ '/' :: player.data) =
      ['s', 't', 'a', 't', 's'] := by
    have h3 : ("tfdg/stats" : String).data = ['t', 'f', 'd', 'g', '/', 's', 't', 'a', 't', 's'] :=
      rfl
    rw [h3] at h
    simpa using h
  have h4 : '/' ∈ room.data ++ '/' :: (['d', 'i', 'c', 'e'] ++ '/' :: player.data) := by simp
  rw [h2] at h4
  exact absurd h4 (by decide)

/-- The READ branch on the command dice. -/
theorem acl_check_read_dice (player : String) (msg : mosquitto_acl_msg)
    (room_s : Option tfdg_room) :
    acl_check_read "dice" (some player) msg room_s =
      match room_s with
      | none => some (MOSQ_ERR_ACL_DENIED, room_s)
      | some r =>
        match find_client_id msg.client_id r with
        | none => some (MOSQ_ERR_ACL_DENIED, room_s)
        | some a =>
          match find_struct r a with
          | none => none
          | some p =>
            if p.uuid ≠ player then some (MOSQ_ERR_ACL_DENIED, room_s)
            else some (MOSQ_ERR_SUCCESS, room_s) := by
  unfold acl_check_read
  rw [if_neg (fun h => absurd h.1 (by decide)), if_pos (by decide)]
  cases room_s <;> rfl

/-- C18: READ access to the topic tfdg/room/dice/player, for ids that
pass validate_uuid and are one topic level each.  The check answers
MOSQ_ERR_SUCCESS exactly when the room exists and the struct bound to the
client id of the reader in that room has the uuid `player`; in every other case
it answers MOSQ_ERR_ACL_DENIED.  The binding of the reader, if there is one,
is taken to point to an allocated struct. -/
theorem dice_read_access (room player : String) (msg : mosquitto_acl_msg) (o : acl_outside)
    (room_by_uuid : String → Option tfdg_room)
    (hroom : validate_uuid room = true) (hplayer : validate_uuid player = true)
    (hr : '/' ∉ room.data) (hp : '/' ∉ player.data)
    (hlive : ∀ r a, room_by_uuid room = some r → find_client_id msg.client_id r = some a →
      (find_struct r a).isSome = true) :
    ((mosquitto_auth_acl_check MOSQ_ACL_READ ("tfdg/" ++ room ++ "/dice/" ++ player) msg o
          room_by_uuid).map (fun x => x.1) = some MOSQ_ERR_SUCCESS ↔
        ∃ r a p, room_by_uuid room = some r ∧ find_client_id msg.client_id r = some a ∧
          find_struct r a = some p ∧ p.uuid = player) ∧
      ((mosquitto_auth_acl_check MOSQ_ACL_READ ("tfdg/" ++ room ++ "/dice/" ++ player) msg o
          room_by_uuid).map (fun x => x.1) = some MOSQ_ERR_SUCCESS ∨
        (mosquitto_auth_acl_check MOSQ_ACL_READ ("tfdg/" ++ room ++ "/dice/" ++ player) msg o
          room_by_uuid).map (fun x => x.1) = some MOSQ_ERR_ACL_DENIED) := by
  have htake : ("tfdg/" ++ room ++ "/dice/" ++ player).data.take 5 = ['t', 'f', 'd', 'g', '/'] := by
    rw [dice_topic_data]; rfl
  have htok := dice_topic_tokens room player (validate_uuid_data room hroom)
    (validate_uuid_data player hplayer) hr hp
  have hstats := dice_topic_not_stats room player
  have heq : mosquitto_auth_acl_check MOSQ_ACL_READ ("tfdg/" ++ room ++ "/dice/" ++ player) msg o
      room_by_uuid =
      (acl_check_read "dice" (some player) msg (room_by_uuid room)).map
        (fun x => (x.1, room_by_uuid_set room_by_uuid room x.2)) := by
    unfold mosquitto_auth_acl_check
    rw [if_neg (not_not.mpr htake), if_neg (by decide), if_neg (fun h => hstats h.2), htok]
    simp only [hroom, hplayer, Option.map_some', if_true]
    rw [if_neg (by decide), if_neg (by decide)]
  rw [heq, acl_check_read_dice]
  cases hroom_s : room_by_uuid room with
  | none => simp
  | some r =>
    cases hfind : find_client_id msg.client_id r with
    | none => simp [hfind]
    | some a =>
      have hl := hlive r a hroom_s hfind
      cases hstruct : find_struct r a with
      | none => rw [hstruct] at hl; exact absurd hl (by decide)
      | some p =>
        by_cases hu : p.uuid = player
        · simp [hfind, hstruct, hu]
        · simp [hfind, hstruct, hu]

/-- Player 1 reads its own dice topic in the three-player lobby. -/
theorem dice_read_access_witness :
    validate_uuid room0 = true ∧
      validate_uuid "00000000-0000-0000-0000-000000000001" = true ∧
      (mosquitto_auth_acl_check MOSQ_ACL_READ
          ("tfdg/" ++ room0 ++ "/dice/" ++ "00000000-0000-0000-0000-000000000001") msg1 (outside 4)
          (room_by_uuid_set no_rooms room0 (some lobby3))).map (fun x => x.1)
        = some MOSQ_ERR_SUCCESS :=
  ⟨by decide!, by decide!,
    (dice_read_access room0 "00000000-0000-0000-0000-000000000001" msg1 (outside 4)
      (room_by_uuid_set no_rooms room0 (some lobby3)) (by decide!) (by decide!) (by decide!)
      (by decide!)
      (fun r a hr ha => by
        have hr2 : r = lobby3 := by
          have h : room_by_uuid_set no_rooms room0 (some lobby3) room0 = some lobby3 := by decide!
          rw [h] at hr
          exact (Option.some.inj hr).symm
        subst hr2
        have ha2 : a = 1 := by
          have h : find_client_id msg1.client_id lobby3 = some 1 := by decide!
          rw [h] at ha
          exact (Option.some.inj ha).symm
        subst ha2
        decide!)).1.2
      ⟨lobby3, 1, seated 1 "00000000-0000-0000-0000-000000000001" "Player 1" "client1",
        by decide!, by decide!, by decide!, by decide!⟩⟩

/-- Whenever the WRITE branch answers, the answer is MOSQ_ERR_ACL_DENIED. -/
theorem acl_check_write_denied (room cmd : String) (msg : mosquitto_acl_msg) (o : acl_outside)
    (room_s : Option tfdg_room) (x : acl_result × Option tfdg_room)
    (h : acl_check_write room cmd msg o room_s = some x) : x.1 = MOSQ_ERR_ACL_DENIED := by
  unfold acl_check_write at h
  rw [Option.map_eq_some'] at h
  obtain ⟨after, _, hx⟩ := h
  rw [← hx]

theorem ite_some_ne_none {α : Type} (c : Prop) [Decidable c] (a : α) (b : Option α)
    (h : (if c then some a else b) = none) : b = none := by
  split at h
  · exact Option.noConfusion h
  · exact h

/-- For a room that exists the WRITE branch always answers. -/
theorem acl_check_write_of_room (room cmd : String) (msg : mosquitto_acl_msg) (o : acl_outside)
    (r : tfdg_room) : (acl_check_write room cmd msg o (some r)).isSome = true := by
  unfold acl_check_write
  cases hd : acl_check_dispatch room cmd msg o
      (Option.map (fun r => room_set_last_event r o.now) (some r)) with
  | some after => rfl
  | none =>
    exfalso
    unfold acl_check_dispatch at hd
    simp only [Option.map_some'] at hd
    repeat (replace hd := ite_some_ne_none _ _ _ hd)
    exact Option.noConfusion hd

/-- Whenever the access check answers a WRITE request on a topic that starts
with tfdg/, the answer is MOSQ_ERR_ACL_DENIED. -/
theorem write_answer_denied (topic : String) (msg : mosquitto_acl_msg) (o : acl_outside)
    (room_by_uuid : String → Option tfdg_room) (x : acl_result × (String → Option tfdg_room))
    (htopic : topic.data.take 5 = ['t', 'f', 'd', 'g', '/'])
    (h : mosquitto_auth_acl_check MOSQ_ACL_WRITE topic msg o room_by_uuid = some x) :
    x.1 = MOSQ_ERR_ACL_DENIED := by
  unfold mosquitto_auth_acl_check at h
  rw [if_neg (not_not.mpr htopic), if_neg (by decide), if_neg (fun h => absurd h.1 (by decide))] at h
  split at h
  · split at h
    · rw [← Option.some.inj h]
    · split at h
      · rw [← Option.some.inj h]
      · rw [if_neg (by decide), if_pos rfl, Option.map_eq_some'] at h
        obtain ⟨y, hy, hx⟩ := h
        rw [← hx]
        exact acl_check_write_denied _ _ _ _ _ _ hy
  · rw [← Option.some.inj h]

/-! ## set-option by another player, login -/

theorem find_player_from_json_of_check_id (msg : mosquitto_acl_msg) (r : tfdg_room) (i : Nat)
    (h : find_player_check_id msg r = some i) : find_player_from_json msg r = some i := by
  unfold find_player_check_id at h
  cases hf : find_player_from_json msg r with
  | none => rw [hf] at h; cases h
  | some j =>
    rw [hf] at h
    simp only at h
    cases hp : r.players[j]? with
    | none => rw [hp] at h; cases h
    | some p =>
      rw [hp] at h
      simp only at h
      split at h
      · exact h
      · cases h

/-- C21: a set-option command returns the room as it was, so that no
option changes and nothing is published, when the room is not in the lobby or
when the seat that the payload names is not the host, whatever the option name
and the value are. -/
theorem set_option_not_host_or_not_lobby (msg : mosquitto_acl_msg) (r : tfdg_room)
    (h : r.state ≠ tgs_lobby ∨
      ∀ i p, find_player_from_json msg r = some i → r.players[i]? = some p →
        r.host ≠ some p.addr) :
    tfdg_handle_set_option msg r = r := by
  unfold tfdg_handle_set_option
  cases hc : find_player_check_id msg r with
  | none => rfl
  | some i =>
    simp only
    cases hp : r.players[i]? with
    | none => rfl
    | some p =>
      simp only
      have hcond : r.state ≠ tgs_lobby ∨ r.host ≠ some p.addr := by
        rcases h with h1 | h2
        · exact Or.inl h1
        · exact Or.inr (h2 i p (find_player_from_json_of_check_id msg r i hc) hp)
      rw [if_pos hcond]

/-- Player 2 is not the host of the three-player lobby. -/
theorem set_option_not_host_or_not_lobby_witness :
    lobby3.host ≠ some 2 ∧ tfdg_handle_set_option msg2_option lobby3 = lobby3 :=
  ⟨by decide!,
    set_option_not_host_or_not_lobby msg2_option lobby3
      (Or.inr (fun i p hi hp => by
        have hi2 : find_player_from_json msg2_option lobby3 = some 1 := by decide!
        rw [hi2] at hi
        have hi3 : i = 1 := (Option.some.inj hi).symm
        subst hi3
        have hp2 : lobby3.players[1]? =
            some (seated 2 "00000000-0000-0000-0000-000000000002" "Player 2" "client2") := by
          decide!
        rw [hp2] at hp
        rw [← Option.some.inj hp]
        decide!))⟩

/-- C22: a login with a payload that json_parse_name_uuid accepts, for a
room id that is not in the directory, leaves a room in the lobby whose turn
order is the new player alone (with max_dice dice and login count 1), who is
the host; the player count is 1 and the options are those of room_create:
max-dice 5, max-dice-value 6, and allow-calza, roll-dice-at-start,
losers-see-dice and show-results-table switched on. -/
theorem login_creates_room (now : Int) (fresh : Nat) (room : String) (msg : mosquitto_acl_msg)
    (name uuid : String) (h : msg.name_uuid = some (name, uuid)) :
    ∃ r, tfdg_handle_login now fresh room msg none = some r ∧
      r.uuid = room ∧ r.state = tgs_lobby ∧
      r.players = [{ new_player fresh uuid name msg.client_id with
                     dice_count := 5, login_count := 1 }] ∧
      r.lost_players = [] ∧ r.host = some fresh ∧ r.player_count = 1 ∧
      r.options = { max_dice := 5, max_dice_value := 6, allow_calza := true,
                    losers_see_dice := true, random_max_dice_value := false,
                    roll_dice_at_start := true, show_results_table := true } ∧
      r.published = [Event.lobby_players [fresh], Event.host fresh] := by
  unfold tfdg_handle_login
  rw [h]
  have hfind : find_player_from_json msg (room_set_last_event (room_create room) now) = none := by
    unfold find_player_from_json
    rw [h]
    rfl
  simp only [hfind]
  refine ⟨_, rfl, rfl, rfl, ?_, rfl, rfl, rfl, rfl, ?_⟩
  · simp [login_finish, room_modify_struct, modify_struct, tfdg_send_host, room_set_host,
      tfdg_send_lobby_players, login_lobby_new, easy_publish, room_set_last_event, room_create,
      new_player, player_set_dice_count, room_create_options]
  · simp [login_finish, room_modify_struct, modify_struct, tfdg_send_host, room_set_host,
      tfdg_send_lobby_players, login_lobby_new, easy_publish, room_set_last_event, room_create,
      new_player, player_set_dice_count, room_create_options]

/-- Player 1 logs in to a room id that is not in the directory. -/
theorem login_creates_room_witness :
    ∃ r, tfdg_handle_login 1000 1 room0 msg1 none = some r ∧
      r.uuid = room0 ∧ r.state = tgs_lobby ∧
      r.players = [{ new_player 1 "00000000-0000-0000-0000-000000000001" "Player 1"
                       msg1.client_id with dice_count := 5, login_count := 1 }] ∧
      r.lost_players = [] ∧ r.host = some 1 ∧ r.player_count = 1 ∧
      r.options = { max_dice := 5, max_dice_value := 6, allow_calza := true,
                    losers_see_dice := true, random_max_dice_value := false,
                    roll_dice_at_start := true, show_results_table := true } ∧
      r.published = [Event.lobby_players [1], Event.host 1] :=
  login_creates_room 1000 1 room0 msg1 "Player 1" "00000000-0000-0000-0000-000000000001" rfl

theorem utf8ByteSize_go_ge_length : ∀ cs : List Char, cs.length ≤ String.utf8ByteSize.go cs
  | [] => Nat.le_refl 0
  | c :: cs => by
    have ih := utf8ByteSize_go_ge_length cs
    have hc : 0 < c.utf8Size := Char.utf8Size_pos c
    simp only [String.utf8ByteSize.go, List.length_cons]
    omega

theorem length_le_utf8ByteSize (s : String) : s.length ≤ s.utf8ByteSize := by
  cases s with
  | mk cs => exact utf8ByteSize_go_ge_length cs

/-- C23: a login whose payload has no string member name, or no string
member uuid, or a name of more than 30 characters, is not accepted by
json_parse_name_uuid, and tfdg_handle_login returns with the room pointer it
was given: no room is created for a room id that is not in the directory, and
a room that exists gets no seat and no event. -/
theorem login_bad_payload_ignored (client_id : String) (tree : Option cJSON) (now : Int)
    (fresh : Nat) (room : String) (room_s : Option tfdg_room)
    (h : tree.bind (fun t => json_get_string t "name") = none ∨
      tree.bind (fun t => json_get_string t "uuid") = none ∨
      ∃ name, tree.bind (fun t => json_get_string t "name") = some name ∧ name.length > 30) :
    json_parse_name_uuid tree = none ∧
      tfdg_handle_login now fresh room (payload_msg client_id tree) room_s = room_s := by
  have hparse : json_parse_name_uuid tree = none := by
    unfold json_parse_name_uuid
    rcases h with h1 | h2 | ⟨name, h3, hlen⟩
    · rw [h1]
    · rw [h2]
      cases tree.bind (fun t => json_get_string t "name") <;> rfl
    · rw [h3]
      cases hu : tree.bind (fun t => json_get_string t "uuid") with
      | none => rfl
      | some uuid =>
        simp only
        have hbytes : name.utf8ByteSize > MAX_NAME_LEN := by
          have := length_le_utf8ByteSize name
          unfold MAX_NAME_LEN
          omega
        rw [if_pos (Or.inl hbytes)]
  refine ⟨hparse, ?_⟩
  unfold tfdg_handle_login
  have hmsg : (payload_msg client_id tree).name_uuid = none := hparse
  rw [hmsg]

/-- The payload of TEST_single_login_bad_payload that holds a name only, sent
for a room id that is not in the directory. -/
theorem login_bad_payload_ignored_witness :
    json_parse_name_uuid payload_name_only = none ∧
      tfdg_handle_login 1000 1 room0 (payload_msg "client1" payload_name_only) none = none :=
  login_bad_payload_ignored "client1" payload_name_only 1000 1 room0 none
    (Or.inr (Or.inl (by decide!)))

/-! ## Logout and repeated login of a seated player -/

theorem find_of_find_addr (a : Nat) :
    ∀ (ps : List tfdg_player) (i : Nat) (p : tfdg_player),
      find_addr a ps = some i → ps[i]? = some p → ps.find? (fun q => q.addr = a) = some p
  | [], i, p, h, _ => by simp [find_addr] at h
  | q :: qs, i, p, h, hp => by
    unfold find_addr at h
    by_cases hq : q.addr = a
    · rw [if_pos hq] at h
      have hi : i = 0 := (Option.some.inj h).symm
      subst hi
      have hpq : q = p := by simpa using hp
      subst hpq
      simp [hq]
    · rw [if_neg hq] at h
      cases hj : find_addr a qs with
      | none => rw [hj] at h; cases h
      | some j =>
        rw [hj] at h
        have hi : i = j + 1 := (Option.some.inj h).symm
        subst hi
        have hp2 : qs[j]? = some p := by simpa using hp
        have ih := find_of_find_addr a qs j p hj hp2
        simp [hq, ih]

theorem find_struct_of_seat (r : tfdg_room) (i : Nat) (p : tfdg_player)
    (hfirst : find_addr p.addr r.players = some i) (hp : r.players[i]? = some p) :
    find_struct r p.addr = some p := by
  unfold find_struct room_structs
  rw [List.find?_append, List.find?_append, find_of_find_addr p.addr r.players i p hfirst hp]
  rfl

theorem modify_struct_map_addr (f : tfdg_player → tfdg_player) (hf : ∀ q, (f q).addr = q.addr)
    (a : Nat) (ps : List tfdg_player) :
    (modify_struct f a ps).map (fun q => q.addr) = ps.map (fun q => q.addr) := by
  unfold modify_struct
  rw [List.map_map]
  apply List.map_congr_left
  intro q _
  show (if q.addr = a then f q else q).addr = q.addr
  split
  · exact hf q
  · rfl

theorem modify_struct_getElem? (f : tfdg_player → tfdg_player) (ps : List tfdg_player) (i : Nat)
    (p : tfdg_player) (hp : ps[i]? = some p) :
    (modify_struct f p.addr ps)[i]? = some (f p) := by
  unfold modify_struct
  rw [List.getElem?_map, hp]
  simp

theorem find_addr_map (g : tfdg_player → tfdg_player) (hg : ∀ q, (g q).addr = q.addr) (b : Nat) :
    ∀ ps : List tfdg_player, find_addr b (ps.map g) = find_addr b ps
  | [] => rfl
  | q :: qs => by
    simp only [List.map_cons, find_addr, hg q, find_addr_map g hg b qs]

theorem find_addr_modify_struct (f : tfdg_player → tfdg_player) (hf : ∀ q, (f q).addr = q.addr)
    (a b : Nat) (ps : List tfdg_player) :
    find_addr b (modify_struct f a ps) = find_addr b ps := by
  unfold modify_struct
  apply find_addr_map
  intro q
  split
  · exact hf q
  · rfl

theorem map_addr_eraseIdx : ∀ (ps : List tfdg_player) (i : Nat),
    (ps.eraseIdx i).map (fun q => q.addr) = (ps.map (fun q => q.addr)).eraseIdx i
  | [], _ => rfl
  | _ :: _, 0 => rfl
  | q :: qs, i + 1 => by
    simp only [List.eraseIdx_cons_succ, List.map_cons, map_addr_eraseIdx qs i]

theorem logout_unbind_fields (r : tfdg_room) (p : tfdg_player) :
    (logout_unbind r p).players = r.players ∧ (logout_unbind r p).state = r.state ∧
      (logout_unbind r p).player_count = r.player_count := by
  unfold logout_unbind
  split <;> exact ⟨rfl, rfl, rfl⟩

theorem room_delete_player_player_count (r : tfdg_room) (i : Nat) :
    (room_delete_player r i).player_count = r.player_count := by
  unfold room_delete_player
  split
  · rfl
  · split
    · simp only [tfdg_send_host, room_set_host]
      split <;> rfl
    · rfl

theorem logout_remove_fields (r : tfdg_room) (p : tfdg_player) (i : Nat)
    (h : find_addr p.addr r.players = some i) :
    (logout_remove r p).players = r.players.eraseIdx i ∧
      (logout_remove r p).player_count = r.player_count - 1 := by
  unfold logout_remove
  simp only [h]
  exact ⟨room_delete_player_players _ i, by
    show (room_delete_player _ i).player_count - 1 = _
    rw [room_delete_player_player_count]⟩

theorem logout_finish_fields (r : tfdg_room) (a : Nat) :
    (logout_finish r a).players = r.players ∧
      (logout_finish r a).player_count = r.player_count := by
  unfold logout_finish
  simp only [tfdg_send_host, room_set_host, tfdg_send_lobby_players, easy_publish]
  split <;> split <;> (try split) <;> exact ⟨rfl, rfl⟩

theorem login_finish_fields (a : Nat) (r : tfdg_room) :
    (login_finish a r).players =
        modify_struct (fun s => { s with login_count := s.login_count + 1 }) a r.players ∧
      (login_finish a r).player_count = r.player_count := by
  unfold login_finish
  simp only [tfdg_send_host, room_set_host, room_modify_struct]
  split <;> split <;> exact ⟨rfl, rfl⟩

theorem logout_eq (msg : mosquitto_acl_msg) (r : tfdg_room) (nu : String × String)
    (p : tfdg_player) (hmsg : msg.name_uuid = some nu)
    (huuid : hash_find nu.2 r.player_by_uuid = some p.addr)
    (hstruct : find_struct r p.addr = some p) :
    tfdg_handle_logout msg r =
      if p.login_count - 1 > 0 then some (room_modify_struct r p.addr login_count_down)
      else if (if (logout_unbind (room_modify_struct r p.addr login_count_down) p).state = tgs_lobby
          then logout_remove (logout_unbind (room_modify_struct r p.addr login_count_down) p) p
          else logout_unbind (room_modify_struct r p.addr login_count_down) p).players = [] then none
      else some (logout_finish
        (if (logout_unbind (room_modify_struct r p.addr login_count_down) p).state = tgs_lobby
          then logout_remove (logout_unbind (room_modify_struct r p.addr login_count_down) p) p
          else logout_unbind (room_modify_struct r p.addr login_count_down) p) p.addr) := by
  unfold tfdg_handle_logout
  rw [hmsg]
  simp only [huuid, hstruct]
  rfl

/-- C24: logout and repeated login for the seat p at position i of the
turn order, named by the uuid of the payload and bound to it in the uuid table.
(1) With a login count of 2 or more, logout leaves the seat in place with the
count one lower, and the player count as it was.  (2) With a login count of 1
in the lobby, logout removes the seat and lowers the player count by one (or
cleans the room up when it was the only seat).  (3) Outside the lobby, logout
leaves the turn order as it was.  (4) A login that names the seat adds no
seat: the turn order and the player count stay. -/
theorem logout_and_relogin (msg : mosquitto_acl_msg) (r : tfdg_room) (nu : String × String)
    (i : Nat) (p : tfdg_player) (now : Int) (fresh : Nat) (room : String)
    (hmsg : msg.name_uuid = some nu) (hseat : find_uuid nu.2 r.players = some i)
    (hp : r.players[i]? = some p) (hfirst : find_addr p.addr r.players = some i)
    (huuid : hash_find nu.2 r.player_by_uuid = some p.addr) :
    (p.login_count ≥ 2 →
        ∃ r1, tfdg_handle_logout msg r = some r1 ∧
          r1.players[i]? = some { p with login_count := p.login_count - 1 } ∧
          r1.players.map (fun q => q.addr) = r.players.map (fun q => q.addr) ∧
          r1.player_count = r.player_count) ∧
      (p.login_count = 1 → r.state = tgs_lobby →
        match tfdg_handle_logout msg r with
        | none => r.players.length = 1
        | some r1 =>
          r1.players.map (fun q => q.addr) = (r.players.map (fun q => q.addr)).eraseIdx i ∧
            r1.player_count = r.player_count - 1) ∧
      (r.state ≠ tgs_lobby →
        ∃ r1, tfdg_handle_logout msg r = some r1 ∧
          r1.players.map (fun q => q.addr) = r.players.map (fun q => q.addr)) ∧
      (∃ r1, tfdg_handle_login now fresh room msg (some r) = some r1 ∧
        r1.players.map (fun q => q.addr) = r.players.map (fun q => q.addr) ∧
        r1.player_count = r.player_count) := by
  have hstruct := find_struct_of_seat r i p hfirst hp
  have heq := logout_eq msg r nu p hmsg huuid hstruct
  have hdown : ∀ q : tfdg_player, (login_count_down q).addr = q.addr := fun _ => rfl
  have hub := logout_unbind_fields (room_modify_struct r p.addr login_count_down) p
  have hplayers1 : (room_modify_struct r p.addr login_count_down).players =
      modify_struct login_count_down p.addr r.players := rfl
  have hlt : i < r.players.length := lt_length_of_getElem? hp
  refine ⟨?_, ?_, ?_, ?_⟩
  · intro hn
    have hpos : p.login_count - 1 > 0 := by omega
    rw [heq, if_pos hpos]
    exact ⟨_, rfl, modify_struct_getElem? login_count_down r.players i p hp,
      modify_struct_map_addr login_count_down hdown p.addr r.players, rfl⟩
  · intro hn hstate
    have hneg : ¬ p.login_count - 1 > 0 := by omega
    have hst : (logout_unbind (room_modify_struct r p.addr login_count_down) p).state
        = tgs_lobby := by rw [hub.2.1]; exact hstate
    have hfa : find_addr p.addr
        (logout_unbind (room_modify_struct r p.addr login_count_down) p).players = some i := by
      rw [hub.1, hplayers1, find_addr_modify_struct login_count_down hdown]
      exact hfirst
    have hrem := logout_remove_fields _ p i hfa
    rw [heq, if_neg hneg]
    simp only [hst, if_true]
    by_cases hempty : (logout_remove
        (logout_unbind (room_modify_struct r p.addr login_count_down) p) p).players = []
    · rw [if_pos hempty]
      rw [hrem.1, hub.1, hplayers1] at hempty
      have hlen := congrArg List.length hempty
      rw [List.length_eraseIdx, if_pos (by
        unfold modify_struct; rw [List.length_map]; exact hlt)] at hlen
      unfold modify_struct at hlen
      rw [List.length_map] at hlen
      simp only [List.length_nil] at hlen
      show r.players.length = 1
      omega
    · rw [if_neg hempty]
      show (logout_finish _ p.addr).players.map (fun q => q.addr) = _ ∧
        (logout_finish _ p.addr).player_count = _
      rw [(logout_finish_fields _ p.addr).1, (logout_finish_fields _ p.addr).2, hrem.1, hrem.2,
        hub.1, hub.2.2, hplayers1, map_addr_eraseIdx,
        modify_struct_map_addr login_count_down hdown]
      exact ⟨rfl, rfl⟩
  · intro hstate
    rw [heq]
    have hst : ¬ (logout_unbind (room_modify_struct r p.addr login_count_down) p).state
        = tgs_lobby := by rw [hub.2.1]; exact hstate
    split
    · exact ⟨_, rfl, modify_struct_map_addr login_count_down hdown p.addr r.players⟩
    · have hne : ¬ (logout_unbind (room_modify_struct r p.addr login_count_down) p).players
          = [] := by
        rw [hub.1, hplayers1]
        intro hempty
        have hlen := congrArg List.length hempty
        unfold modify_struct at hlen
        rw [List.length_map] at hlen
        simp only [List.length_nil] at hlen
        omega
      rw [if_neg hne]
      refine ⟨_, rfl, ?_⟩
      rw [(logout_finish_fields _ p.addr).1, hub.1, hplayers1,
        modify_struct_map_addr login_count_down hdown]
  · unfold tfdg_handle_login
    rw [hmsg]
    have hfind : find_player_from_json msg (room_set_last_event r now) = some i := by
      unfold find_player_from_json
      rw [hmsg]
      exact hseat
    have hp1 : (room_set_last_event r now).players[i]? = some p := hp
    simp only [hfind, Option.some_bind, hp1]
    have hup : ∀ (c : String) (q : tfdg_player),
        ({ q with client_id := c } : tfdg_player).addr = q.addr := fun _ _ => rfl
    have hinc : ∀ q : tfdg_player,
        ({ q with login_count := q.login_count + 1 } : tfdg_player).addr = q.addr := fun _ => rfl
    split
    · refine ⟨_, rfl, ?_, ?_⟩
      · rw [(login_finish_fields _ _).1, modify_struct_map_addr _ hinc]
        show (modify_struct (fun s => { s with client_id := msg.client_id }) p.addr
          r.players).map (fun q => q.addr) = _
        exact modify_struct_map_addr _ (hup msg.client_id) p.addr r.players
      · rw [(login_finish_fields _ _).2]
        rfl
    · refine ⟨_, rfl, ?_, ?_⟩
      · rw [(login_finish_fields _ _).1, modify_struct_map_addr _ hinc]
        show (modify_struct (fun s => { s with client_id := msg.client_id }) p.addr
          r.players).map (fun q => q.addr) = _
        exact modify_struct_map_addr _ (hup msg.client_id) p.addr r.players
      · rw [(login_finish_fields _ _).2]
        rfl

/-- Player 1, logged in twice to a lobby of two, logs out once and stays
seated with login count 1. -/
theorem logout_and_relogin_witness :
    find_uuid "00000000-0000-0000-0000-000000000001" lobby2_twice.players = some 0 ∧
      ∃ r1, tfdg_handle_logout msg1 lobby2_twice = some r1 ∧
        r1.players[0]? =
          some { ({ seated 1 "00000000-0000-0000-0000-000000000001" "Player 1" "client1" with
                    login_count := 2 } : tfdg_player) with login_count := 2 - 1 } ∧
        r1.players.map (fun q => q.addr) = lobby2_twice.players.map (fun q => q.addr) ∧
        r1.player_count = lobby2_twice.player_count :=
  ⟨by decide!,
    (logout_and_relogin msg1 lobby2_twice
      ("Player 1", "00000000-0000-0000-0000-000000000001") 0
      { seated 1 "00000000-0000-0000-0000-000000000001" "Player 1" "client1" with
        login_count := 2 } 1000 3 room0 rfl (by decide!) (by decide!) (by decide!)
      (by decide!)).1 (by decide!)⟩

/-! ## Loading the persisted state -/

theorem load_dice_loop_spec (mdv : Int) :
    ∀ (js : List cJSON) (i : Nat) (vs : List Int),
      load_dice_loop mdv i js = some (some vs) → ∀ v ∈ vs, 0 ≤ v ∧ v ≤ mdv ∧ v ≤ 9
  | [], i, vs, h => by
    simp only [load_dice_loop] at h
    have hvs : vs = [] := (Option.some.inj (Option.some.inj h)).symm
    subst hvs
    intro v hv
    cases hv
  | j :: rest, i, vs, h => by
    cases j with
    | number x =>
      simp only [load_dice_loop] at h
      split at h
      · cases h
      · split at h
        · cases Option.some.inj h
        · rename_i hrange
          cases hrec : load_dice_loop mdv (i + 1) rest with
          | none => rw [hrec] at h; cases h
          | some o =>
            cases o with
            | none => rw [hrec] at h; cases Option.some.inj h
            | some ws =>
              rw [hrec] at h
              have hvs : vs = x :: ws := (Option.some.inj (Option.some.inj h)).symm
              subst hvs
              have ih := load_dice_loop_spec mdv rest (i + 1) ws hrec
              intro v hv
              rcases List.mem_cons.mp hv with hx | hw
              · subst hx
                unfold MAX_DICE_VALUE at hrange
                omega
              · exact ih v hw
    | null => simp [load_dice_loop] at h
    | bool b => simp [load_dice_loop] at h
    | string s => simp [load_dice_loop] at h
    | array xs => simp [load_dice_loop] at h
    | object ms => simp [load_dice_loop] at h

theorem load_player_state_spec (o : tfdg_room_options) (a : Nat) (j : cJSON) (p : tfdg_player)
    (h : load_player_state o a j = some (some p)) :
    p.addr = a ∧ json_get_int j "dice-count" = some p.dice_count ∧
      p.dice_count ≤ o.max_dice ∧ p.dice_count ≤ 20 ∧
      ∀ v ∈ p.dice_values, 0 ≤ v ∧ (v = 0 ∨ v ≤ o.max_dice_value) ∧ v ≤ 9 := by
  unfold load_player_state at h
  cases h1 : json_get_int j "state" with
  | none => simp [h1] at h
  | some state =>
  cases h2 : json_get_int j "dice-count" with
  | none => simp [h1, h2] at h
  | some dice_count =>
  cases h3 : json_get_string j "uuid" with
  | none => simp [h1, h2, h3] at h
  | some uuid =>
  cases h4 : json_get_string j "name" with
  | none => simp [h1, h2, h3, h4] at h
  | some name =>
  cases h5 : json_get_bool j "ex-palifico" with
  | none => simp [h1, h2, h3, h4, h5] at h
  | some ex_palifico =>
    simp only [h1, h2, h3, h4, h5] at h
    split at h
    · cases Option.some.inj h
    · split at h
      · rename_i j_dice _
        split at h
        · cases Option.some.inj h
        · rename_i hcount
          cases hloop : load_dice_loop o.max_dice_value 0 j_dice with
          | none => rw [hloop] at h; cases h
          | some res =>
            cases res with
            | none => rw [hloop] at h; cases Option.some.inj h
            | some vs =>
              rw [hloop] at h
              have hp := (Option.some.inj (Option.some.inj h)).symm
              subst hp
              have hvs := load_dice_loop_spec o.max_dice_value j_dice 0 vs hloop
              unfold MAX_DICE at hcount
              refine ⟨rfl, rfl, by show dice_count ≤ o.max_dice; omega,
                by show dice_count ≤ 20; omega, ?_⟩
              intro v hv
              have hv2 : v ∈ vs ++ List.replicate (20 - vs.length) 0 := hv
              rcases List.mem_append.mp hv2 with hin | hpad
              · have := hvs v hin
                exact ⟨this.1, Or.inr this.2.1, this.2.2⟩
              · have hz : v = 0 := (List.mem_replicate.mp hpad).2
                subst hz
                exact ⟨by decide, Or.inl rfl, by decide⟩
      · cases Option.some.inj h

theorem load_room_roles_fields (f : game_fields) (p : tfdg_player) (r : tfdg_room) :
    (load_room_roles f p r).options = r.options ∧ (load_room_roles f p r).players = r.players ∧
      (load_room_roles f p r).lost_players = r.lost_players := ⟨rfl, rfl, rfl⟩

theorem load_players_loop_spec (f : game_fields) :
    ∀ (js : List cJSON) (a : Nat) (r r1 : tfdg_room),
      load_players_loop f a js r = some (some r1) →
      r1.options = r.options ∧ r1.lost_players = r.lost_players ∧
        ∃ ps, r1.players = r.players ++ ps ∧
          ps.map (fun p => some p.dice_count) = js.map (fun j => json_get_int j "dice-count") ∧
          ∀ p ∈ ps, loaded_player_ok r.options p
  | [], a, r, r1, h => by
    simp only [load_players_loop] at h
    have hr := Option.some.inj (Option.some.inj h)
    subst hr
    exact ⟨rfl, rfl, [], (List.append_nil _).symm, rfl, fun p hp => by cases hp⟩
  | j :: rest, a, r, r1, h => by
    simp only [load_players_loop] at h
    cases hl : load_player_state r.options a j with
    | none => rw [hl] at h; cases h
    | some res =>
      cases res with
      | none => rw [hl] at h; cases Option.some.inj h
      | some p =>
        rw [hl] at h
        simp only at h
        have hspec := load_player_state_spec r.options a j p hl
        obtain ⟨ho, hlost, ps, hps, hcounts, hok⟩ :=
          load_players_loop_spec f rest (a + 1) _ r1 h
        refine ⟨ho, hlost, p :: ps, ?_, ?_, ?_⟩
        · rw [hps]
          show (r.players ++ [p]) ++ ps = r.players ++ p :: ps
          rw [List.append_assoc]
          rfl
        · simp only [List.map_cons, hcounts, hspec.2.1]
        · intro q hq
          rcases List.mem_cons.mp hq with hqp | hqs
          · subst hqp
            exact ⟨hspec.2.2.1, hspec.2.2.2.1, hspec.2.2.2.2⟩
          · exact hok q hqs

theorem load_lost_players_loop_spec :
    ∀ (js : List cJSON) (a : Nat) (r r1 : tfdg_room),
      load_lost_players_loop a js r = some r1 →
      r1.options = r.options ∧ r1.players = r.players
  | [], a, r, r1, h => by
    simp only [load_lost_players_loop] at h
    have hr := Option.some.inj h
    subst hr
    exact ⟨rfl, rfl⟩
  | j :: rest, a, r, r1, h => by
    simp only [load_lost_players_loop] at h
    cases hl : load_lost_player_state a j with
    | none => rw [hl] at h; cases h
    | some p =>
      rw [hl] at h
      simp only at h
      have ih := load_lost_players_loop_spec rest (a + 1) _ r1 h
      exact ⟨ih.1, ih.2⟩

theorem load_game_options_spec (j_options : cJSON) (o : tfdg_room_options)
    (h : load_game_options j_options = some o) :
    o.roll_dice_at_start = false ∧ o.random_max_dice_value = false ∧
      ∃ m mv, json_get_int j_options "max-dice" = some m ∧
        json_get_int j_options "max-dice-value" = some mv ∧
        o.max_dice = (if m > 20 then 20 else m) ∧
        o.max_dice_value = (if mv > 9 then 9 else mv) := by
  unfold load_game_options at h
  cases h1 : json_get_int j_options "max-dice" with
  | none => simp [h1] at h
  | some m =>
  cases h2 : json_get_int j_options "max-dice-value" with
  | none => simp [h1, h2] at h
  | some mv =>
  cases h3 : json_get_bool j_options "allow-calza" with
  | none => simp [h1, h2, h3] at h
  | some ac =>
  cases h4 : json_get_bool j_options "losers-see-dice" with
  | none => simp [h1, h2, h3, h4] at h
  | some lsd =>
  cases h5 : json_get_bool j_options "show-results-table" with
  | none => simp [h1, h2, h3, h4, h5] at h
  | some srt =>
    simp only [h1, h2, h3, h4, h5] at h
    have ho := (Option.some.inj h).symm
    subst ho
    exact ⟨rfl, rfl, m, mv, rfl, rfl, rfl, rfl⟩

theorem load_game_lists_spec (f : game_fields) (options : tfdg_room_options) (j_game : cJSON)
    (j_players : List cJSON) (r : tfdg_room)
    (h : load_game_lists f options j_game j_players = some (some r)) :
    r.options = options ∧
      r.players.map (fun p => some p.dice_count) =
        j_players.map (fun j => json_get_int j "dice-count") ∧
      ∀ p ∈ r.players, loaded_player_ok options p := by
  unfold load_game_lists at h
  split at h
  · cases h
  · cases hloop : load_players_loop f 1 j_players
        (room_set_current_count (load_room_init f options) j_players.length) with
    | none => rw [hloop] at h; cases h
    | some res =>
      cases res with
      | none => rw [hloop] at h; cases Option.some.inj h
      | some r1 =>
        rw [hloop] at h
        simp only at h
        obtain ⟨ho, _, ps, hps, hcounts, hok⟩ :=
          load_players_loop_spec f j_players 1 _ r1 hloop
        have hps2 : r1.players = ps := by
          rw [hps]
          rfl
        have ho2 : r1.options = options := ho
        split at h
        · rename_i j_lost _
          cases hlost : load_lost_players_loop (1 + j_players.length) j_lost r1 with
          | none => rw [hlost] at h; cases h
          | some r2 =>
            rw [hlost] at h
            have hr : r2 = r := Option.some.inj (Option.some.inj h)
            subst hr
            have hl := load_lost_players_loop_spec j_lost _ r1 r2 hlost
            refine ⟨hl.1.trans ho2, ?_, ?_⟩
            · rw [hl.2, hps2]
              exact hcounts
            · intro p hp
              rw [hl.2, hps2] at hp
              exact hok p hp
        · cases Option.some.inj h

/-- What a room that load_game_state reconstructs from the entry j_game tells
about the entry. -/
theorem load_game_entry_spec (now : Int) (j_game : cJSON) (r : tfdg_room)
    (h : load_game_entry now j_game = some (some r)) :
    ∃ last_event j_options j_players,
      cJSON_GetObjectItemCaseSensitive j_game "last-event" = some (cJSON.number last_event) ∧
      ¬ now > last_event + 7200 ∧
      cJSON_GetObjectItemCaseSensitive j_game "options" = some j_options ∧
      load_game_options j_options = some r.options ∧
      cJSON_GetObjectItemCaseSensitive j_game "players" = some (cJSON.array j_players) ∧
      r.players.map (fun p => some p.dice_count) =
        j_players.map (fun j => json_get_int j "dice-count") ∧
      ∀ p ∈ r.players, loaded_player_ok r.options p := by
  unfold load_game_entry at h
  split at h
  · rename_i last_event hle
    split at h
    · cases Option.some.inj h
    · rename_i hfresh
      split at h
      · cases Option.some.inj h
      · split at h
        · cases h
        · split at h
          · cases Option.some.inj h
          · rename_i j_options hjo
            split at h
            · cases Option.some.inj h
            · rename_i options hopt
              split at h
              · rename_i j_players hjp
                have hl := load_game_lists_spec _ options j_game j_players r h
                refine ⟨last_event, j_options, j_players, hle, hfresh, hjo, ?_, hjp, hl.2.1, ?_⟩
                · rw [hl.1]
                  exact hopt
                · rw [hl.1]
                  exact hl.2.2
              · cases Option.some.inj h
  · cases Option.some.inj h

/-- The array "dice" that load_player_state accepts is an array of numbers,
which are the dice it returns, and it fits into the die array. -/
theorem load_dice_loop_link (mdv : Int) :
    ∀ (js : List cJSON) (i : Nat) (vs : List Int),
      load_dice_loop mdv i js = some (some vs) → i ≤ 20 →
      js = vs.map cJSON.number ∧ i + vs.length ≤ 20
  | [], i, vs, h, hi => by
    simp only [load_dice_loop] at h
    have hvs : vs = [] := (Option.some.inj (Option.some.inj h)).symm
    subst hvs
    exact ⟨rfl, by simpa using hi⟩
  | j :: rest, i, vs, h, hi => by
    cases j with
    | number x =>
      simp only [load_dice_loop] at h
      split at h
      · cases h
      · rename_i hlt
        split at h
        · cases Option.some.inj h
        · cases hrec : load_dice_loop mdv (i + 1) rest with
          | none => rw [hrec] at h; cases h
          | some o =>
            cases o with
            | none => rw [hrec] at h; cases Option.some.inj h
            | some ws =>
              rw [hrec] at h
              have hvs : vs = x :: ws := (Option.some.inj (Option.some.inj h)).symm
              subst hvs
              have ih := load_dice_loop_link mdv rest (i + 1) ws hrec (by omega)
              refine ⟨?_, ?_⟩
              · rw [ih.1]
                rfl
              · have := ih.2
                simp only [List.length_cons]
                omega
    | null => simp [load_dice_loop] at h
    | bool b => simp [load_dice_loop] at h
    | string s => simp [load_dice_loop] at h
    | array xs => simp [load_dice_loop] at h
    | object ms => simp [load_dice_loop] at h

/-- A player that load_player_state returns holds what the stored player
holds. -/
theorem load_player_state_link (o : tfdg_room_options) (a : Nat) (j : cJSON) (p : tfdg_player)
    (h : load_player_state o a j = some (some p)) : stored_player o j p := by
  unfold load_player_state at h
  cases h1 : json_get_int j "state" with
  | none => simp [h1] at h
  | some state =>
  cases h2 : json_get_int j "dice-count" with
  | none => simp [h1, h2] at h
  | some dice_count =>
  cases h3 : json_get_string j "uuid" with
  | none => simp [h1, h2, h3] at h
  | some uuid =>
  cases h4 : json_get_string j "name" with
  | none => simp [h1, h2, h3, h4] at h
  | some name =>
  cases h5 : json_get_bool j "ex-palifico" with
  | none => simp [h1, h2, h3, h4, h5] at h
  | some ex_palifico =>
    simp only [h1, h2, h3, h4, h5] at h
    split at h
    · cases Option.some.inj h
    · split at h
      · rename_i j_dice hdice
        split at h
        · cases Option.some.inj h
        · rename_i hcount
          cases hloop : load_dice_loop o.max_dice_value 0 j_dice with
          | none => rw [hloop] at h; cases h
          | some res =>
            cases res with
            | none => rw [hloop] at h; cases Option.some.inj h
            | some vs =>
              rw [hloop] at h
              have hp := (Option.some.inj (Option.some.inj h)).symm
              subst hp
              have hvs := load_dice_loop_spec o.max_dice_value j_dice 0 vs hloop
              have hlink := load_dice_loop_link o.max_dice_value j_dice 0 vs hloop (by omega)
              unfold MAX_DICE at hcount
              refine ⟨h2, by show dice_count ≤ o.max_dice; omega,
                by show dice_count ≤ 20; omega, vs, ?_, by omega, rfl, ?_⟩
              · rw [hdice, hlink.1]
              · intro v hv
                have := hvs v hv
                exact ⟨this.1, this.2.2, this.2.1⟩
      · cases Option.some.inj h

/-- The players that the loop over the array "players" appends belong to the
stored players, one by one and in order. -/
theorem load_players_loop_link (f : game_fields) :
    ∀ (js : List cJSON) (a : Nat) (r r1 : tfdg_room),
      load_players_loop f a js r = some (some r1) →
      ∃ ps, r1.players = r.players ++ ps ∧ List.Forall₂ (stored_player r.options) js ps
  | [], a, r, r1, h => by
    simp only [load_players_loop] at h
    have hr := Option.some.inj (Option.some.inj h)
    subst hr
    exact ⟨[], (List.append_nil _).symm, List.Forall₂.nil⟩
  | j :: rest, a, r, r1, h => by
    simp only [load_players_loop] at h
    cases hl : load_player_state r.options a j with
    | none => rw [hl] at h; cases h
    | some res =>
      cases res with
      | none => rw [hl] at h; cases Option.some.inj h
      | some p =>
        rw [hl] at h
        simp only at h
        have hlink := load_player_state_link r.options a j p hl
        obtain ⟨ps, hps, hall⟩ := load_players_loop_link f rest (a + 1) _ r1 h
        refine ⟨p :: ps, ?_, List.Forall₂.cons hlink hall⟩
        rw [hps]
        show (r.players ++ [p]) ++ ps = r.players ++ p :: ps
        rw [List.append_assoc]
        rfl

theorem load_game_lists_link (f : game_fields) (options : tfdg_room_options) (j_game : cJSON)
    (j_players : List cJSON) (r : tfdg_room)
    (h : load_game_lists f options j_game j_players = some (some r)) :
    List.Forall₂ (stored_player options) j_players r.players := by
  unfold load_game_lists at h
  split at h
  · cases h
  · cases hloop : load_players_loop f 1 j_players
        (room_set_current_count (load_room_init f options) j_players.length) with
    | none => rw [hloop] at h; cases h
    | some res =>
      cases res with
      | none => rw [hloop] at h; cases Option.some.inj h
      | some r1 =>
        rw [hloop] at h
        simp only at h
        obtain ⟨ps, hps, hall⟩ := load_players_loop_link f j_players 1 _ r1 hloop
        have hps2 : r1.players = ps := by
          rw [hps]
          rfl
        split at h
        · rename_i j_lost _
          cases hlost : load_lost_players_loop (1 + j_players.length) j_lost r1 with
          | none => rw [hlost] at h; cases h
          | some r2 =>
            rw [hlost] at h
            have hr : r2 = r := Option.some.inj (Option.some.inj h)
            subst hr
            have hl := load_lost_players_loop_spec j_lost _ r1 r2 hlost
            rw [hl.2, hps2]
            exact hall
        · cases Option.some.inj h

/-- The players of a room that load_game_state reconstructs belong to the
stored players of the entry, one by one and in order. -/
theorem load_game_entry_link (now : Int) (j_game : cJSON) (r : tfdg_room)
    (h : load_game_entry now j_game = some (some r)) :
    ∃ j_players,
      cJSON_GetObjectItemCaseSensitive j_game "players" = some (cJSON.array j_players) ∧
      List.Forall₂ (stored_player r.options) j_players r.players := by
  have h0 := h
  unfold load_game_entry at h
  split at h
  · split at h
    · cases Option.some.inj h
    · split at h
      · cases Option.some.inj h
      · split at h
        · cases h
        · split at h
          · cases Option.some.inj h
          · split at h
            · cases Option.some.inj h
            · rename_i options hopt
              split at h
              · rename_i j_players hjp
                have hl := load_game_lists_spec _ options j_game j_players r h
                have hlink := load_game_lists_link _ options j_game j_players r h
                refine ⟨j_players, hjp, ?_⟩
                rw [hl.1]
                exact hlink
              · cases Option.some.inj h
  · cases Option.some.inj h

theorem forall₂_of_mem_left {α β : Type} {R : α → β → Prop} :
    ∀ {l₁ : List α} {l₂ : List β}, List.Forall₂ R l₁ l₂ → ∀ a ∈ l₁, ∃ b ∈ l₂, R a b
  | _, _, List.Forall₂.nil, a, ha => by cases ha
  | _, _, List.Forall₂.cons hab hrest, a, ha => by
    rcases List.mem_cons.mp ha with h | h
    · subst h
      exact ⟨_, List.mem_cons_self _ _, hab⟩
    · obtain ⟨b, hb, hr⟩ := forall₂_of_mem_left hrest a h
      exact ⟨b, List.mem_cons_of_mem _ hb, hr⟩

/-- No room is reconstructed from a game entry in which a stored player has a
dice count above max-dice (the stored max-dice, clamped to 20), or has a die
that is no number, is below 0, above 9 or above max-dice-value (the stored
one, clamped to 9), or has more than 20 dice stored. -/
theorem load_discards_out_of_range (now : Int) (j_game j_options j_player : cJSON)
    (j_players : List cJSON) (m mv : Int)
    (hjo : cJSON_GetObjectItemCaseSensitive j_game "options" = some j_options)
    (hm : json_get_int j_options "max-dice" = some m)
    (hmv : json_get_int j_options "max-dice-value" = some mv)
    (hjp : cJSON_GetObjectItemCaseSensitive j_game "players" = some (cJSON.array j_players))
    (hmem : j_player ∈ j_players)
    (hbad : (∃ dice_count, json_get_int j_player "dice-count" = some dice_count ∧
          dice_count > (if m > 20 then 20 else m)) ∨
        ∃ j_dice, cJSON_GetObjectItemCaseSensitive j_player "dice" = some (cJSON.array j_dice) ∧
          (j_dice.length > 20 ∨ ∃ j_die ∈ j_dice, ∀ v, j_die = cJSON.number v →
            v < 0 ∨ v > 9 ∨ v > (if mv > 9 then 9 else mv))) :
    ∀ r, load_game_entry now j_game ≠ some (some r) := by
  intro r h
  obtain ⟨_, j_options2, _, _, _, hjo2, hopt, _, _, _⟩ := load_game_entry_spec now j_game r h
  rw [hjo] at hjo2
  cases Option.some.inj hjo2
  obtain ⟨_, _, m2, mv2, hm2, hmv2, hmd, hmdv⟩ := load_game_options_spec j_options r.options hopt
  rw [hm] at hm2
  rw [hmv] at hmv2
  cases Option.some.inj hm2
  cases Option.some.inj hmv2
  obtain ⟨j_players2, hjp2, hall⟩ := load_game_entry_link now j_game r h
  rw [hjp] at hjp2
  cases Option.some.inj hjp2
  obtain ⟨p, _, hcount, hle, _, dice, hdice, hlen, _, hvals⟩ :=
    forall₂_of_mem_left hall j_player hmem
  rcases hbad with ⟨dice_count, hdc, hgt⟩ | ⟨j_dice, hjd, hbad⟩
  · rw [hdc] at hcount
    cases Option.some.inj hcount
    rw [hmd] at hle
    omega
  · rw [hjd] at hdice
    cases Option.some.inj hdice
    rcases hbad with hlong | ⟨j_die, hin, hv⟩
    · rw [List.length_map] at hlong
      omega
    · obtain ⟨v, hvin, hveq⟩ := List.mem_map.mp hin
      have hr := hvals v hvin
      rw [hmdv] at hr
      have := hv v hveq.symm
      omega

/-- C25, the load evaluated with room-expiry-time set to 3600: at time
10000 the game entry that was last touched at time 5000 is older than
now - 3600, yet it is not dropped: the room is reconstructed.  load_game_state
compares with the constant 7200 and never reads room_expiry_time (which
tfdg_expire_rooms uses); the same entry is dropped at time 20000. -/
theorem load_ignores_expiry_option :
    (mosquitto_auth_plugin_init [("room-expiry-time", "3600")] 10000
        (some sample_doc)).room_expiry_time = 3600 ∧
      (5000 : Int) < 10000 - 3600 ∧
      (mosquitto_auth_plugin_init [("room-expiry-time", "3600")] 10000
        (some sample_doc)).rooms.map (fun rs => rs.map view_loaded) =
        some [{ uuid := "00000000-0000-0000-0000-000000000000", state := tgs_playing_round,
                max_dice := 5, max_dice_value := 6, seats := [(1, 5), (2, 5)],
                host := some 1 }] ∧
      (mosquitto_auth_plugin_init [("room-expiry-time", "3600")] 20000
        (some sample_doc)).rooms.map (fun rs => rs.map view_loaded) = some [] := by
  decide!

/-- C26 as stated, evaluated on four game entries: with max-dice 21 the
entry is not discarded, the room is reconstructed with max-dice clamped to 20;
with max-dice-value 12 it is reconstructed with max-dice-value clamped to 9;
with max-dice 2 it is reconstructed with max-dice 2; with the dice count -1 of
both players it is reconstructed with dice count -1.  An entry with dice count
6 above max-dice 5 is discarded, and so is an entry with dice showing 7 above
max-dice-value 6. -/
theorem load_clamps_options :
    (load_game_entry 10000 (sample_game 5000 21 6 (sample_players 5))).map
        (fun o => o.map view_loaded) =
        some (some { uuid := "00000000-0000-0000-0000-000000000000", state := tgs_playing_round,
                     max_dice := 20, max_dice_value := 6, seats := [(1, 5), (2, 5)],
                     host := some 1 }) ∧
      (load_game_entry 10000 (sample_game 5000 5 12 (sample_players 5))).map
        (fun o => o.map view_loaded) =
        some (some { uuid := "00000000-0000-0000-0000-000000000000", state := tgs_playing_round,
                     max_dice := 5, max_dice_value := 9, seats := [(1, 5), (2, 5)],
                     host := some 1 }) ∧
      (load_game_entry 10000 (sample_game 5000 2 6 (sample_players 2))).map
        (fun o => o.map view_loaded) =
        some (some { uuid := "00000000-0000-0000-0000-000000000000", state := tgs_playing_round,
                     max_dice := 2, max_dice_value := 6, seats := [(1, 2), (2, 2)],
                     host := some 1 }) ∧
      (load_game_entry 10000 (sample_game 5000 5 6 (sample_players (-1)))).map
        (fun o => o.map view_loaded) =
        some (some { uuid := "00000000-0000-0000-0000-000000000000", state := tgs_playing_round,
                     max_dice := 5, max_dice_value := 6, seats := [(1, -1), (2, -1)],
                     host := some 1 }) ∧
      (load_game_entry 10000 (sample_game 5000 5 6 (sample_players 6))).map
        (fun o => o.map view_loaded) = some none ∧
      (load_game_entry 10000 (sample_game 5000 5 6 (sample_players_showing 5 7))).map
        (fun o => o.map view_loaded) = some none := by
  decide!

/-- C26, amended: for every room that load_game_state reconstructs from
a game entry, max-dice is the stored value clamped to at most 20 and
max-dice-value the stored value clamped to at most 9; the players of the room
are the stored players, one by one and in order, each with its stored dice
count, which is at most max-dice (after clamping), and with its stored dice,
which are at most 20 numbers, each between 0 and 9 and at most max-dice-value
(after clamping).  So a max-dice or max-dice-value above its bound is clamped,
and an entry with a dice count above max-dice or with a die outside this range
is not reconstructed. -/
theorem load_game_entry_ranges (now : Int) (j_game : cJSON) (r : tfdg_room)
    (h : load_game_entry now j_game = some (some r)) :
    ∃ j_options j_players m mv,
      cJSON_GetObjectItemCaseSensitive j_game "options" = some j_options ∧
      json_get_int j_options "max-dice" = some m ∧
      json_get_int j_options "max-dice-value" = some mv ∧
      cJSON_GetObjectItemCaseSensitive j_game "players" = some (cJSON.array j_players) ∧
      r.options.max_dice = (if m > 20 then 20 else m) ∧
      r.options.max_dice_value = (if mv > 9 then 9 else mv) ∧
      r.players.map (fun p => some p.dice_count) =
        j_players.map (fun j => json_get_int j "dice-count") ∧
      (∀ p ∈ r.players, p.dice_count ≤ r.options.max_dice ∧ p.dice_count ≤ 20 ∧
        ∀ v ∈ p.dice_values, 0 ≤ v ∧ (v = 0 ∨ v ≤ r.options.max_dice_value) ∧ v ≤ 9) ∧
      List.Forall₂
        (fun j_player p =>
          json_get_int j_player "dice-count" = some p.dice_count ∧
            p.dice_count ≤ r.options.max_dice ∧ p.dice_count ≤ 20 ∧
            ∃ dice : List Int,
              cJSON_GetObjectItemCaseSensitive j_player "dice" =
                some (cJSON.array (dice.map cJSON.number)) ∧
              dice.length ≤ 20 ∧
              p.dice_values = dice ++ List.replicate (20 - dice.length) 0 ∧
              ∀ v ∈ dice, 0 ≤ v ∧ v ≤ 9 ∧ v ≤ r.options.max_dice_value)
        j_players r.players := by
  obtain ⟨_, j_options, j_players, _, _, hjo, hopt, hjp, hcounts, hok⟩ :=
    load_game_entry_spec now j_game r h
  obtain ⟨_, _, m, mv, hm, hmv, hmd, hmdv⟩ := load_game_options_spec j_options r.options hopt
  obtain ⟨j_players2, hjp2, hall⟩ := load_game_entry_link now j_game r h
  rw [hjp] at hjp2
  cases Option.some.inj hjp2
  exact ⟨j_options, j_players, m, mv, hjo, hm, hmv, hjp, hmd, hmdv, hcounts, hok, hall⟩

/-- The entry with max-dice 21 is loaded to a room with max-dice 20. -/
theorem load_game_entry_ranges_witness :
    load_game_entry 10000 (sample_game 5000 21 6 (sample_players 5)) = some (some loaded_sample) ∧
      loaded_sample.options.max_dice = 20 ∧
      ∃ j_options j_players m mv,
        cJSON_GetObjectItemCaseSensitive (sample_game 5000 21 6 (sample_players 5)) "options"
          = some j_options ∧
        json_get_int j_options "max-dice" = some m ∧
        json_get_int j_options "max-dice-value" = some mv ∧
        cJSON_GetObjectItemCaseSensitive (sample_game 5000 21 6 (sample_players 5)) "players"
          = some (cJSON.array j_players) ∧
        loaded_sample.options.max_dice = (if m > 20 then 20 else m) ∧
        loaded_sample.options.max_dice_value = (if mv > 9 then 9 else mv) ∧
        loaded_sample.players.map (fun p => some p.dice_count) =
          j_players.map (fun j => json_get_int j "dice-count") ∧
        (∀ p ∈ loaded_sample.players,
          p.dice_count ≤ loaded_sample.options.max_dice ∧ p.dice_count ≤ 20 ∧
          ∀ v ∈ p.dice_values,
            0 ≤ v ∧ (v = 0 ∨ v ≤ loaded_sample.options.max_dice_value) ∧ v ≤ 9) ∧
        List.Forall₂
          (fun j_player p =>
            json_get_int j_player "dice-count" = some p.dice_count ∧
              p.dice_count ≤ loaded_sample.options.max_dice ∧ p.dice_count ≤ 20 ∧
              ∃ dice : List Int,
                cJSON_GetObjectItemCaseSensitive j_player "dice" =
                  some (cJSON.array (dice.map cJSON.number)) ∧
                dice.length ≤ 20 ∧
                p.dice_values = dice ++ List.replicate (20 - dice.length) 0 ∧
                ∀ v ∈ dice, 0 ≤ v ∧ v ≤ 9 ∧ v ≤ loaded_sample.options.max_dice_value)
          j_players loaded_sample.players :=
  ⟨by decide!, by decide!,
    load_game_entry_ranges 10000 (sample_game 5000 21 6 (sample_players 5)) loaded_sample
      (by decide!)⟩

/-- The options that load_game_state does not read: every reconstructed room
has roll_dice_at_start and random_max_dice_value switched off. -/
theorem load_game_entry_options (now : Int) (j_game : cJSON) (r : tfdg_room)
    (h : load_game_entry now j_game = some (some r)) :
    r.options.roll_dice_at_start = false ∧ r.options.random_max_dice_value = false := by
  obtain ⟨_, j_options, _, _, _, _, hopt, _⟩ := load_game_entry_spec now j_game r h
  have hs := load_game_options_spec j_options r.options hopt
  exact ⟨hs.1, hs.2.1⟩

/-- C27, the restart of a started game: after two logins and a
start-game the room is in tgs_pre_roll with the option roll_dice_at_start
switched on (room_create), and after the host has switched
random-max-dice-value on and roll-dice-at-start off before the start the room
is in tgs_playing_round with random_max_dice_value switched on.  Whatever the
persisted entry holds, at whatever time it is loaded, the reconstructed room
has both options switched off: load_game_state reads five of the seven options
and leaves these two as calloc does. -/
theorem restart_loses_options :
    ((serve pre_roll_start no_rooms).map (fun dir => (dir room0).map view_options) =
        some (some { state := tgs_pre_roll, roll_dice_at_start := true,
                     random_max_dice_value := false }) ∧
      (serve random_start no_rooms).map (fun dir => (dir room0).map view_options) =
        some (some { state := tgs_playing_round, roll_dice_at_start := false,
                     random_max_dice_value := true })) ∧
      ∀ (now : Int) (j_game : cJSON) (r : tfdg_room),
        load_game_entry now j_game = some (some r) →
          r.options.roll_dice_at_start = false ∧ r.options.random_max_dice_value = false :=
  ⟨by decide!, load_game_entry_options⟩

/-! ## Ignored commands -/

theorem new_round_size_guard (rnd : rand_bytes) (r : tfdg_room) (h : r.player_count > 199) :
    tfdg_new_round rnd r = r := by
  unfold tfdg_new_round
  rw [if_pos h]

theorem roll_dice_rejected (rnd : rand_bytes) (msg : mosquitto_acl_msg) (r : tfdg_room)
    (h : seat_fails msg r (fun p =>
      (r.state = tgs_pre_roll ∧ p.state ≠ tps_pre_roll) ∨
      (r.state ≠ tgs_pre_roll ∧
        ((r.state ≠ tgs_pre_roll_over ∧ r.state ≠ tgs_round_over) ∨ r.player_count > 199) ∧
        ∃ k q, find_addr p.addr r.players = some k ∧ r.players[k]? = some q ∧
          q.state ≠ tps_awaiting_dice))) :
    tfdg_handle_roll_dice rnd msg r = r := by
  unfold tfdg_handle_roll_dice
  rcases h with h | ⟨i, p, hi, hp, hg⟩
  · rw [h]
  · rw [hi]
    simp only [hp]
    rcases hg with ⟨hs, hps⟩ | ⟨hs, hguard, k, q, hk, hq, hst⟩
    · rw [if_pos hs]
      unfold tfdg_handle_pre_roll_dice
      rw [hp]
      simp only
      rw [if_neg hps]
    · rw [if_neg hs]
      have h1 : (if r.state = tgs_pre_roll_over then tfdg_new_round rnd r else r) = r := by
        rcases hguard with hg | hg
        · rw [if_neg hg.1]
        · rw [new_round_size_guard rnd r hg]
          split <;> rfl
      have h2 : (if r.state = tgs_round_over then tfdg_new_round rnd r else r) = r := by
        rcases hguard with hg | hg
        · rw [if_neg hg.2]
        · rw [new_round_size_guard rnd r hg]
          split <;> rfl
      rw [h1, h2]
      unfold roll_dice_deliver
      rw [hk]
      simp only [hq]
      rw [if_pos hst]

theorem start_game_rejected (now : Int) (s1 s2 s3 : rand_bytes) (msg : mosquitto_acl_msg)
    (r : tfdg_room)
    (h : r.state ≠ tgs_lobby ∨ r.player_count < 2 ∨
      seat_fails msg r (fun p => r.host ≠ some p.addr)) :
    tfdg_handle_start_game now s1 s2 s3 msg r = r := by
  unfold tfdg_handle_start_game
  rcases h with h | h | h
  · rw [if_pos (Or.inl h)]
  · rw [if_pos (Or.inr h)]
  · split
    · rfl
    · rcases h with h | ⟨i, p, hi, hp, hg⟩
      · rw [h]
      · rw [hi]
        simp only [hp, Option.map_some']
        rw [if_pos (fun e => hg e.symm)]

theorem call_dudo_rejected (msg : mosquitto_acl_msg) (r : tfdg_room)
    (h : seat_fails msg r (fun p => p.state ≠ tps_have_dice ∨ r.state ≠ tgs_playing_round)) :
    tfdg_handle_call_dudo msg r = r := by
  unfold tfdg_handle_call_dudo
  rcases h with h | ⟨i, p, hi, hp, hg⟩
  · rw [h]
  · rw [hi]
    simp only [hp]
    rw [if_pos hg]

theorem call_calza_rejected (msg : mosquitto_acl_msg) (r : tfdg_room)
    (h : r.options.allow_calza = false ∨
      seat_fails msg r (fun p => p.state ≠ tps_have_dice ∨ p.dice_count = r.options.max_dice)) :
    tfdg_handle_call_calza msg r = r := by
  unfold tfdg_handle_call_calza
  rcases h with h | h
  · rw [if_pos h]
  · split
    · rfl
    · rcases h with h | ⟨i, p, hi, hp, hg⟩
      · rw [h]
      · rw [hi]
        simp only [hp]
        rcases hg with hg | hg
        · rw [if_pos hg]
        · split
          · rfl
          · rfl

theorem i_lost_rejected (msg : mosquitto_acl_msg) (r : tfdg_room)
    (h : seat_fails msg r (fun p => r.round_loser ≠ none ∨
      (p.state ≠ tps_dudo_candidate ∧ p.state ≠ tps_calza_candidate))) :
    tfdg_handle_i_lost msg r = r := by
  unfold tfdg_handle_i_lost
  rcases h with h | ⟨i, p, hi, hp, hg⟩
  · rw [h]
  · rw [hi]
    simp only [hp]
    rcases hg with hg | hg
    · rw [if_pos hg]
    · split
      · rfl
      · have hnone : i_lost_count r p = none := by
          unfold i_lost_count
          rw [if_neg hg.1, if_neg hg.2]
        rw [hnone]

theorem i_won_rejected (msg : mosquitto_acl_msg) (r : tfdg_room)
    (h : seat_fails msg r (fun p => p.state ≠ tps_calza_candidate)) :
    tfdg_handle_i_won msg r = r := by
  unfold tfdg_handle_i_won
  rcases h with h | ⟨i, p, hi, hp, hg⟩
  · rw [h]
  · rw [hi]
    simp only [hp]
    rw [if_pos hg]

theorem undo_loser_rejected (msg : mosquitto_acl_msg) (r : tfdg_room)
    (h : seat_fails msg r (fun p =>
      (p.state ≠ tps_dudo_candidate ∧ p.state ≠ tps_calza_candidate) ∨
        r.state ≠ tgs_round_over ∨ r.round_loser ≠ some p.addr)) :
    tfdg_handle_undo_loser msg r = r := by
  unfold tfdg_handle_undo_loser
  rcases h with h | ⟨i, p, hi, hp, hg⟩
  · rw [h]
  · rw [hi]
    simp only [hp]
    split
    · rfl
    · split
      · rfl
      · split
        · rfl
        · rename_i h1 h2 h3
          rcases hg with hg | hg | hg
          · exact absurd hg h1
          · exact absurd hg h2
          · exact absurd hg h3

theorem undo_winner_rejected (msg : mosquitto_acl_msg) (r : tfdg_room)
    (h : seat_fails msg r (fun p =>
      p.state ≠ tps_calza_candidate ∨ r.state ≠ tgs_round_over ∨
        r.round_winner ≠ some p.addr)) :
    tfdg_handle_undo_winner msg r = r := by
  unfold tfdg_handle_undo_winner
  rcases h with h | ⟨i, p, hi, hp, hg⟩
  · rw [h]
  · rw [hi]
    simp only [hp]
    split
    · rfl
    · split
      · rfl
      · split
        · rfl
        · rename_i h1 h2 h3
          rcases hg with hg | hg | hg
          · exact absurd hg h1
          · exact absurd hg h2
          · exact absurd hg h3

theorem logout_rejected (msg : mosquitto_acl_msg) (r : tfdg_room)
    (h : msg.name_uuid = none ∨
      ∃ nu, msg.name_uuid = some nu ∧ hash_find nu.2 r.player_by_uuid = none) :
    tfdg_handle_logout msg r = some r := by
  unfold tfdg_handle_logout
  rcases h with h | ⟨nu, h1, h2⟩
  · rw [h]
  · rw [h1]
    simp only [h2]

theorem leave_game_rejected (msg : mosquitto_acl_msg) (r : tfdg_room)
    (h : seat_fails msg r (fun _ =>
      (r.state ≠ tgs_playing_round ∧ r.state ≠ tgs_round_over ∧ r.state ≠ tgs_game_over ∧
        r.state ≠ tgs_lobby) ∨
      (r.state = tgs_lobby ∧
        ∃ nu, msg.name_uuid = some nu ∧ hash_find nu.2 r.player_by_uuid = none))) :
    tfdg_handle_leave_game msg r = some r := by
  unfold tfdg_handle_leave_game
  rcases h with h | ⟨i, p, hi, hp, hg⟩
  · rw [h]
  · rw [hi]
    simp only [hp]
    rcases hg with hg | ⟨hl, hout⟩
    · rw [if_neg (fun e => by
        rcases e with e | e | e
        · exact hg.1 e
        · exact hg.2.1 e
        · exact hg.2.2.1 e), if_neg hg.2.2.2]
    · rw [if_neg (fun e => by
        rcases e with e | e | e
        · rw [hl] at e; cases e
        · rw [hl] at e; cases e
        · rw [hl] at e; cases e), if_pos hl]
      exact logout_rejected msg r (Or.inr hout)

theorem kick_player_rejected (msg : mosquitto_acl_msg) (r : tfdg_room)
    (h : find_player_from_json msg r = none ∨ find_client_id msg.client_id r = none ∨
      r.host ≠ find_client_id msg.client_id r ∨
      (r.state ≠ tgs_lobby ∧ r.state ≠ tgs_playing_round ∧ r.state ≠ tgs_round_over ∧
        r.state ≠ tgs_game_over)) :
    tfdg_handle_kick_player msg r = r := by
  unfold tfdg_handle_kick_player
  cases hj : find_player_from_json msg r with
  | none => rfl
  | some j =>
    simp only
    cases hp : r.players[j]? with
    | none => rfl
    | some p =>
      simp only
      rw [if_neg]
      rintro ⟨h1, h2, h3⟩
      rcases h with h | h | h | h
      · rw [hj] at h; cases h
      · exact h1 h
      · exact h h2
      · rcases h3 with h3 | h3 | h3 | h3
        · exact h.1 h3
        · exact h.2.1 h3
        · exact h.2.2.1 h3
        · exact h.2.2.2 h3

theorem set_option_apply_refused (r : tfdg_room) (option : String) (value : json_value)
    (h : set_option_refused option value) : set_option_apply r option value = r := by
  unfold set_option_apply
  rcases h with ⟨ho, hv⟩ | ⟨ho, hv⟩ | ⟨ho, hv⟩ | ho
  · subst ho
    rw [if_pos rfl]
    cases value with
    | number ival =>
      have hr : ¬ (ival ≥ 3 ∧ ival ≤ MAX_DICE) := hv ival rfl
      simp only
      rw [if_neg hr]
    | bool b => rfl
    | other => rfl
  · subst ho
    rw [if_neg (by decide), if_pos rfl]
    cases value with
    | number ival =>
      have hr : ¬ (ival ≥ 3 ∧ ival ≤ MAX_DICE_VALUE) := hv ival rfl
      simp only
      rw [if_neg hr]
    | bool b => rfl
    | other => rfl
  · unfold bool_option_names at ho
    simp only [List.mem_cons, List.mem_singleton, List.not_mem_nil, or_false] at ho
    cases value with
    | bool b => exact absurd rfl (hv b)
    | number ival =>
      rcases ho with ho | ho | ho | ho | ho <;> subst ho <;> simp
    | other =>
      rcases ho with ho | ho | ho | ho | ho <;> subst ho <;> simp
  · unfold bool_option_names at ho
    simp only [List.mem_cons, List.mem_singleton, List.not_mem_nil, not_or, or_false] at ho
    obtain ⟨h1, h2, h3, h4, h5, h6, h7⟩ := ho
    rw [if_neg h1, if_neg h2, if_neg h3, if_neg h4, if_neg h5, if_neg h6, if_neg h7]

theorem set_option_rejected (msg : mosquitto_acl_msg) (r : tfdg_room)
    (h : seat_fails msg r (fun p =>
      r.state ≠ tgs_lobby ∨ r.host ≠ some p.addr ∨ msg.option = none ∨ msg.value = none ∨
        ∃ option value, msg.option = some option ∧ msg.value = some value ∧
          set_option_refused option value)) :
    tfdg_handle_set_option msg r = r := by
  unfold tfdg_handle_set_option
  rcases h with h | ⟨i, p, hi, hp, hg⟩
  · rw [h]
  · rw [hi]
    simp only [hp]
    split
    · rfl
    · rcases hg with hg | hg | hg | hg | ⟨option, value, ho, hv, href⟩
      · rename_i hn
        exact absurd (Or.inl hg) hn
      · rename_i hn
        exact absurd (Or.inr hg) hn
      · rw [hg]
      · rw [hg]
        cases msg.option <;> rfl
      · rw [ho, hv]
        exact set_option_apply_refused r option value href

theorem dispatch_unknown (room cmd : String) (msg : mosquitto_acl_msg) (o : acl_outside)
    (room_s : Option tfdg_room) (h : cmd ∉ command_names) :
    acl_check_dispatch room cmd msg o room_s = some room_s := by
  unfold command_names at h
  simp only [List.mem_cons, List.mem_singleton, List.not_mem_nil, not_or, or_false] at h
  obtain ⟨h1, h2, h3, h4, h5, h6, h7, h8, h9, h10, h11, h12, h13, h14, h15⟩ := h
  unfold acl_check_dispatch
  rw [if_neg h1, if_neg h2, if_neg h3, if_neg h4, if_neg h5, if_neg h6, if_neg h7, if_neg h8,
    if_neg h9, if_neg h10, if_neg h11, if_neg h12, if_neg h13, if_neg h14, if_neg h15]

/-- C28 as stated, evaluated on an ignored command: at time 2000 client 2
sends an i-lost that names the seat of player 1 in the three-player lobby,
whose last event was at time 1000.  The check answers MOSQ_ERR_ACL_DENIED and
the handler ignores the command, but the room is not as it was: the dispatcher
has set last_event to 2000 before it called the handler. -/
theorem ignored_write_changes_last_event :
    lobby3.last_event = 1000 ∧
      tfdg_handle_i_lost msg2_names1 lobby3 = lobby3 ∧
      (mosquitto_auth_acl_check MOSQ_ACL_WRITE
          "tfdg/00000000-0000-0000-0000-000000000000/i-lost" msg2_names1 outside_later
          (room_by_uuid_set no_rooms room0 (some lobby3))).map (fun x => (x.1, x.2 room0)) =
        some (MOSQ_ERR_ACL_DENIED, some { lobby3 with last_event := 2000 }) := by
  decide!

/-- C28, amended: a write command on a room that exists which fails one
of the tests of its handler (a payload that does not parse or names no seat, a
sender that is not the connection of the seat or not the host, a room or player
state in which the command is not allowed, an option or value that is not
accepted, an unknown command name) is answered with MOSQ_ERR_ACL_DENIED and
leaves the room as it was in every field but one: last_event is the time of the
command, which the dispatcher sets before it calls the handler. -/
theorem rejected_write_stamps_only (room cmd : String) (msg : mosquitto_acl_msg)
    (o : acl_outside) (r : tfdg_room)
    (h : write_rejected cmd msg (room_set_last_event r o.now)) :
    acl_check_write room cmd msg o (some r) =
      some (MOSQ_ERR_ACL_DENIED, some { r with last_event := o.now }) := by
  have key : acl_check_dispatch room cmd msg o (some (room_set_last_event r o.now)) =
      some (some (room_set_last_event r o.now)) := by
    rcases h with ⟨hc, h⟩ | ⟨hc, h⟩ | ⟨hc, h⟩ | ⟨hc, h⟩ | ⟨hc, h⟩ | ⟨hc, h⟩ | ⟨hc, h⟩ | ⟨hc, h⟩ |
      ⟨hc, h⟩ | ⟨hc, h⟩ | ⟨hc, h⟩ | ⟨hc, h⟩ | ⟨hc, h⟩ | ⟨hc, h⟩ | h
    · subst hc
      show some (tfdg_handle_login o.later o.fresh room msg _) = _
      unfold tfdg_handle_login
      rw [h]
    · subst hc
      show some (tfdg_handle_logout msg _) = _
      rw [logout_rejected msg _ h]
    · subst hc
      show some (some (tfdg_handle_start_game o.later o.rnd1 o.rnd2 o.rnd3 msg _)) = _
      rw [start_game_rejected _ _ _ _ msg _ h]
    · subst hc
      show some (some (tfdg_handle_roll_dice o.rnd1 msg _)) = _
      rw [roll_dice_rejected _ msg _ h]
    · subst hc
      show some (some (tfdg_handle_call_dudo msg _)) = _
      rw [call_dudo_rejected msg _ h]
    · subst hc
      show some (some (tfdg_handle_call_calza msg _)) = _
      rw [call_calza_rejected msg _ h]
    · subst hc
      show some (some (tfdg_handle_i_lost msg _)) = _
      rw [i_lost_rejected msg _ h]
    · subst hc
      show some (some (tfdg_handle_i_won msg _)) = _
      rw [i_won_rejected msg _ h]
    · subst hc
      show some (some (tfdg_handle_undo_loser msg _)) = _
      rw [undo_loser_rejected msg _ h]
    · subst hc
      show some (some (tfdg_handle_undo_winner msg _)) = _
      rw [undo_winner_rejected msg _ h]
    · subst hc
      show some (tfdg_handle_leave_game msg _) = _
      rw [leave_game_rejected msg _ h]
    · subst hc
      show some (some (tfdg_handle_kick_player msg _)) = _
      rw [kick_player_rejected msg _ h]
    · subst hc
      show some (some (tfdg_handle_set_option msg _)) = _
      rw [set_option_rejected msg _ h]
    · rcases hc with hc | hc
      · subst hc
        show some (some (tfdg_handle_sound o.rnd1 "higher" _)) = _
        unfold tfdg_handle_sound
        rw [if_pos h]
      · subst hc
        show some (some (tfdg_handle_sound o.rnd1 "exact" _)) = _
        unfold tfdg_handle_sound
        rw [if_pos h]
    · exact dispatch_unknown room cmd msg o _ h
  unfold acl_check_write
  simp only [Option.map_some']
  rw [key]
  rfl

/-- Client 2 sends an i-lost that names the seat of player 1. -/
theorem rejected_write_stamps_only_witness :
    write_rejected "i-lost" msg2_names1 (room_set_last_event lobby3 outside_later.now) ∧
      acl_check_write room0 "i-lost" msg2_names1 outside_later (some lobby3) =
        some (MOSQ_ERR_ACL_DENIED, some { lobby3 with last_event := outside_later.now }) :=
  have h : write_rejected "i-lost" msg2_names1 (room_set_last_event lobby3 outside_later.now) :=
    Or.inr (Or.inr (Or.inr (Or.inr (Or.inr (Or.inr (Or.inl ⟨rfl, Or.inl (by decide!)⟩))))))
  ⟨h, rejected_write_stamps_only room0 "i-lost" msg2_names1 outside_later lobby3 h⟩

/-! ## GameOver is left again; references to a kicked player -/

/-- C29, evaluated on two games of players 1 and 2 that have ended.  In
the first, player 1 has called calza and reported i-lost and player 2 has left:
the room is in tgs_game_over with player 1 still a calza candidate, and an
i-won of player 1 takes the room to tgs_round_over (tfdg_handle_i_won tests the
player state only).  In the second, the host has kicked player 2 while a round
was played: the room is in tgs_game_over with player 1 in tps_have_dice, and a
call-calza of player 1 takes the room to tgs_awaiting_loser
(tfdg_handle_call_calza does not test the room state). -/
theorem game_over_is_left :
    (served_room game_over_calza).map view_game =
        some { state := tgs_game_over, seats := [(1, tps_calza_candidate, 3)], lost := [2] } ∧
      (served_room (game_over_calza ++ [write_cmd "i-won" msg1 4])).map view_game =
        some { state := tgs_round_over, seats := [(1, tps_calza_candidate, 4)], lost := [2] } ∧
      (served_room game_over_kick).map view_game =
        some { state := tgs_game_over, seats := [(1, tps_have_dice, 4)], lost := [] } ∧
      (served_room (game_over_kick ++ [write_cmd "call-calza" msg1 4])).map view_game =
        some { state := tgs_awaiting_loser, seats := [(1, tps_calza_candidate, 4)],
               lost := [] } := by
  decide!

/-- C30, evaluated on a game of players 1, 2 and 3: all roll, player 2
calls dudo and reports i-lost, then the host kicks player 2.  The turn order
holds players 1 and 3 and the lost list is empty, yet the dudo caller, the
round loser and the starter still refer to the struct of player 2
(tfdg_handle_kick_player calls room_delete_player, which resets the host
reference only). -/
theorem kicked_player_still_referenced :
    (served_room kicked_caller).map view_roles =
      some { players := [1, 3], lost := [], host := some 1, starter := some 2,
             dudo_caller := some 2, calza_caller := none, round_loser := some 2,
             round_winner := none } ∧
      (served_room kicked_caller).map (fun r => r.state) = some tgs_round_over := by
  decide!

/-- Two ignored commands through the access check, at time 1100 on a game of
players 1 and 2 in which player 1 has rolled: a second roll-dice of player 1
(which holds its dice) and a set-option of the host (the room is no lobby any
more) leave the room as it was but for last_event. -/
theorem repeated_roll_dice_stamps_only :
    (served_room (logins2 ++ start_plain ++ [write_cmd "roll-dice" msg1 4])).map
        (fun r => r.last_event) = some 1000 ∧
      served_room (logins2 ++ start_plain ++
          [write_cmd "roll-dice" msg1 4, write_cmd_1100 "roll-dice" msg1]) =
        (served_room (logins2 ++ start_plain ++ [write_cmd "roll-dice" msg1 4])).map
          (fun r => room_set_last_event r 1100) ∧
      served_room (logins2 ++ start_plain ++
          [write_cmd "roll-dice" msg1 4,
            write_cmd_1100 "set-option" (msg1_option "max-dice" (json_value.number 7))]) =
        (served_room (logins2 ++ start_plain ++ [write_cmd "roll-dice" msg1 4])).map
          (fun r => room_set_last_event r 1100) := by
  decide!

/-! ## The buffer of tfdg_new_round -/

/-- The function tfdg_new_round, with the number of bytes it asks for named. -/
theorem tfdg_new_round_count (rnd : rand_bytes) (r : tfdg_room) :
    tfdg_new_round rnd r =
      if r.player_count > 199 then r
      else if rnd.ok then
        new_round_play rnd.bytes (new_round_count r) (new_round_reset (new_round_remove r))
      else new_round_reset (new_round_remove r) := rfl

/-- C31, evaluated on a room of fifty players: after fifty logins the
host sets max-dice to 20 and starts the game without pre-roll.  The lobby has
player_count 50, which passes the size guard `player_count > 199` of
tfdg_new_round, and the count of random bytes is 50 * 20 + 1 = 1001, one more
than the buffer of 1000 bytes holds; the round is started all the same (the
room is in tgs_playing_round, round 1, with fifty players dealt). -/
theorem new_round_count_exceeds_buffer :
    (served_room crowd).map
        (fun r => (r.state, r.player_count, r.options.max_dice, decide (r.player_count > 199),
          new_round_count r)) = some (tgs_lobby, 50, 20, false, 1001) ∧
      (served_room (crowd ++ [write_cmd "start-game" (player_msg 1) 51])).map
        (fun r => (r.state, r.round, r.players.length, new_round_count r)) =
        some (tgs_playing_round, 1, 50, 1001) ∧
      new_round_bytes_size < 1001 := by
  decide!

/-! ## Palifico after a calza, dice counts, two callers -/

/-- C36, evaluated on a game of players 1, 2 and 3 with max-dice 3.
Player 2 loses rounds one and two; the second loss leaves it with one die, so
round three is flagged palifico.  In round three player 2 calls calza and
reports i-won: nobody loses a die, the room is in tgs_round_over and still
flagged (tfdg_handle_i_won does not write palifico_round), and when the players
roll for round four the new-round message carries the flag again. -/
theorem palifico_kept_after_i_won :
    (served_room (palifico_calza.take 17)).map (fun r => (r.state, r.round, r.palifico_round)) =
        some (tgs_playing_round, 3, true) ∧
      (served_room palifico_calza).map (fun r => (view_game r, r.round, r.palifico_round)) =
        some ({ state := tgs_round_over,
                seats := [(1, tps_awaiting_loser, 3), (2, tps_calza_candidate, 2),
                          (3, tps_awaiting_loser, 3)],
                lost := [] }, 3, true) ∧
      (served_room (palifico_calza ++ roll3)).map
        (fun r => (r.state, r.round, r.palifico_round, r.published.drop 39)) =
        some (tgs_playing_round, 4, true,
          [Event.new_round (some 2) true, Event.loser_results, Event.loser_summary_results,
            Event.dice 1, Event.dice 2, Event.dice 3]) := by
  decide!

/-- C38, evaluated on two games of players 1 and 2.  With max-dice 20,
player 1 loses a die, calls calza in round two and reports i-won twice: it
holds 21 dice, one more than max-dice and than the die array `dice_values[20]`
has entries.  With max-dice 5, player 1 reports i-won once and then sends
undo-winner six times: it holds -1 dice. -/
theorem dice_count_leaves_range :
    (served_room over_max).map (fun r => (view_game r, r.options.max_dice)) =
        some ({ state := tgs_round_over,
                seats := [(1, tps_calza_candidate, 21), (2, tps_awaiting_loser, 20)],
                lost := [] }, 20) ∧
      (served_room under_zero).map (fun r => (view_game r, r.options.max_dice)) =
        some ({ state := tgs_round_over,
                seats := [(1, tps_calza_candidate, -1), (2, tps_awaiting_loser, 5)],
                lost := [] }, 5) := by
  decide!

/-- C39, evaluated on a game of players 1, 2 and 3.  Player 3 has lost
a die in round one; in round two player 2 calls dudo, which leaves player 3 in
tps_have_dice, and the room records the dudo caller 2 and no calza caller.
Then player 3 sends call-calza: it is accepted (tfdg_handle_call_calza does not
test the room state), and the room records the dudo caller 2 and the calza
caller 3 at once, with no dudo candidate left. -/
theorem dudo_and_calza_caller_at_once :
    (served_room dudo_open).map (fun r => (view_game r, r.dudo_caller, r.calza_caller)) =
        some ({ state := tgs_awaiting_loser,
                seats := [(1, tps_dudo_candidate, 5), (2, tps_dudo_candidate, 5),
                          (3, tps_have_dice, 4)],
                lost := [] }, some 2, none) ∧
      (served_room (dudo_open ++ [write_cmd "call-calza" msg3 4])).map
        (fun r => (view_game r, r.dudo_caller, r.calza_caller)) =
        some ({ state := tgs_awaiting_loser,
                seats := [(1, tps_awaiting_loser, 5), (2, tps_awaiting_loser, 5),
                          (3, tps_calza_candidate, 4)],
                lost := [] }, some 2, some 3) := by
  decide!

/-! ## validate_uuid -/

/-- The argument of is_hex in validate_uuid is 0 or 1, never a hex digit. -/
theorem validate_uuid_step_false (uuid : String) (i : Nat) :
    validate_uuid_step uuid i = false := by
  unfold validate_uuid_step
  split <;> decide

/-- C40: validate_uuid accepts a string of 36 times the letter z with
dashes at the four places, although z is no hexadecimal digit; and for every
string, validate_uuid accepts it exactly when its length is 36 bytes and the
bytes 8, 13, 18 and 23 are dashes.  The four loops call is_hex on the value of
`uuid[i] == false`, so no character is tested. -/
theorem validate_uuid_accepts_non_hex :
    validate_uuid "zzzzzzzz-zzzz-zzzz-zzzz-zzzzzzzzzzzz" = true ∧
      is_hex (c_char "zzzzzzzz-zzzz-zzzz-zzzz-zzzzzzzzzzzz" 0) = false ∧
      ∀ uuid : String, validate_uuid uuid = true ↔
        (uuid.utf8ByteSize = 36 ∧ c_char uuid 8 = 45 ∧ c_char uuid 13 = 45 ∧
          c_char uuid 18 = 45 ∧ c_char uuid 23 = 45) := by
  refine ⟨by decide!, by decide!, ?_⟩
  intro uuid
  unfold validate_uuid
  simp only [validate_uuid_step_false, List.any_eq_true, Bool.false_eq_true, and_false,
    exists_false, if_false]
  constructor
  · intro h
    split at h
    · cases h
    · split at h
      · cases h
      · rename_i h1 h2
        refine ⟨not_not.mp h1, ?_⟩
        simp only [not_or, not_not] at h2
        exact h2
  · rintro ⟨h0, h1, h2, h3, h4⟩
    rw [if_neg (not_not.mpr h0), if_neg]
    simp only [not_or, not_not]
    exact ⟨h1, h2, h3, h4⟩

/-! ## The face counts of a round -/

theorem array_add_apply (a : Nat → Int) (i : Nat) (v : Int) (j : Nat) :
    array_add a i v j = if j = i then a j + v else a j := rfl

/-- The inner loop of report_summary_results counts every die of the window it
runs over. -/
theorem summary_count_dice_spec (vals : List Int) :
    ∀ (n i : Nat) (totals : Nat → Int), i + n ≤ vals.length →
      (∀ v ∈ (vals.drop i).take n, 1 ≤ v ∧ v ≤ 9) →
      summary_count_dice vals n i totals =
        some (fun j => totals j + (((vals.drop i).take n).count ((j : Int) + 1) : Nat)) := by
  intro n
  induction n with
  | zero =>
    intro i totals _ _
    simp [summary_count_dice]
  | succ n ih =>
    intro i totals hlen hv
    have hi : i < vals.length := by omega
    have hdrop : vals.drop i = vals[i] :: vals.drop (i + 1) := List.drop_eq_getElem_cons hi
    have hget : vals[i]? = some vals[i] := List.getElem?_eq_getElem hi
    rw [hdrop, List.take_succ_cons] at hv
    have hv0 := hv vals[i] (List.mem_cons_self _ _)
    have hrest : ∀ v ∈ (vals.drop (i + 1)).take n, 1 ≤ v ∧ v ≤ 9 :=
      fun v hm => hv v (List.mem_cons_of_mem _ hm)
    have hguard : 1 ≤ vals[i] ∧ vals[i] ≤ MAX_DICE_VALUE := hv0
    rw [summary_count_dice]
    simp only [hget]
    rw [if_pos hguard, ih (i + 1) _ (by omega) hrest, hdrop, List.take_succ_cons]
    congr 1
    funext j
    rw [array_add_apply, List.count_cons]
    by_cases hj : j = (vals[i] - 1).toNat
    · have hb : (vals[i] == (j : Int) + 1) = true := by
        rw [beq_iff_eq]
        omega
      rw [if_pos hj, if_pos hb]
      push_cast
      ring
    · have hb : ¬ ((vals[i] == (j : Int) + 1) = true) := by
        rw [beq_iff_eq]
        omega
      rw [if_neg hj, if_neg hb]
      simp

theorem dice_showing_cons (p : tfdg_player) (ps : List tfdg_player) (f : Int) :
    dice_showing (p :: ps) f =
      ((p.dice_values.take p.dice_count.toNat).count f : Nat) + dice_showing ps f := by
  unfold dice_showing
  simp

/-- The outer loop of report_summary_results counts the dice of all players. -/
theorem summary_count_players_spec :
    ∀ (ps : List tfdg_player) (totals : Nat → Int),
      (∀ p ∈ ps, p.dice_count.toNat ≤ p.dice_values.length ∧
        ∀ v ∈ p.dice_values.take p.dice_count.toNat, 1 ≤ v ∧ v ≤ 9) →
      summary_count_players ps totals =
        some (fun j => totals j + dice_showing ps ((j : Int) + 1)) := by
  intro ps
  induction ps with
  | nil =>
    intro totals _
    simp [summary_count_players, dice_showing]
  | cons p ps ih =>
    intro totals h
    have hp := h p (List.mem_cons_self _ _)
    have hps : ∀ q ∈ ps, q.dice_count.toNat ≤ q.dice_values.length ∧
        ∀ v ∈ q.dice_values.take q.dice_count.toNat, 1 ≤ v ∧ v ≤ 9 :=
      fun q hq => h q (List.mem_cons_of_mem _ hq)
    have hloop := summary_count_dice_spec p.dice_values p.dice_count.toNat 0 totals
      (by omega) (by simpa using hp.2)
    rw [summary_count_players, hloop, Option.some_bind, ih _ hps]
    congr 1
    funext j
    rw [dice_showing_cons]
    simp only [List.drop_zero]
    ring

/-- C32: in a room whose face bound is at most MAX_DICE_VALUE and in
which every player of the turn order holds at most as many dice as its die
array has entries, each showing a face between 1 and the face bound, the array
that report_summary_results publishes has one entry per face f from 1 to the
face bound: for face 1 the number of dice showing 1; for a face f from 2 on the
number of dice showing f, plus the number showing 1 unless the round is
palifico. -/
theorem summary_results_counts (r : tfdg_room)
    (hbound : r.options.max_dice_value ≤ MAX_DICE_VALUE)
    (hdice : ∀ p ∈ r.players, p.dice_count.toNat ≤ p.dice_values.length ∧
      ∀ v ∈ p.dice_values.take p.dice_count.toNat, 1 ≤ v ∧ v ≤ r.options.max_dice_value) :
    ∃ out, summary_results_totals r = some out ∧
      out.length = r.options.max_dice_value.toNat ∧
      ∀ f : Int, 1 ≤ f → f ≤ r.options.max_dice_value →
        out[(f - 1).toNat]? =
          some (if f = 1 ∨ r.palifico_round = true then dice_showing r.players f
            else dice_showing r.players f + dice_showing r.players 1) := by
  have h9 : r.options.max_dice_value ≤ 9 := hbound
  have hspec := summary_count_players_spec r.players (fun _ => 0)
    (fun p hp => ⟨(hdice p hp).1, fun v hv => ⟨((hdice p hp).2 v hv).1,
      le_trans ((hdice p hp).2 v hv).2 h9⟩⟩)
  unfold summary_results_totals
  rw [if_neg (not_lt.mpr hbound), hspec]
  refine ⟨_, rfl, by simp, ?_⟩
  intro f h1 hf
  have hlt : (f - 1).toNat < r.options.max_dice_value.toNat := by omega
  rw [List.getElem?_map, List.getElem?_range hlt]
  simp only [Option.map_some', zero_add]
  have hcast : (((f - 1).toNat : Nat) : Int) + 1 = f := by omega
  by_cases hpal : r.palifico_round = true
  · rw [if_pos hpal, if_pos (Or.inr hpal), hcast]
  · rw [if_neg hpal]
    unfold summary_totals_wild
    by_cases hf1 : f = 1
    · subst hf1
      rw [if_pos (Or.inl rfl)]
      simp
    · have hne : (f - 1).toNat ≠ 0 := by omega
      have hlt2 : (((f - 1).toNat : Nat) : Int) < r.options.max_dice_value := by omega
      rw [if_neg hne, if_pos hlt2, if_neg (fun h => h.elim hf1 hpal)]
      beta_reduce
      rw [hcast, add_comm]
      simp only [Nat.cast_zero, zero_add]

/-- The round of three players with eleven dice: three dice show 1, two show 6. -/
theorem summary_results_counts_witness :
    (sample_round.options.max_dice_value ≤ MAX_DICE_VALUE ∧
      ∀ p ∈ sample_round.players, p.dice_count.toNat ≤ p.dice_values.length ∧
        ∀ v ∈ p.dice_values.take p.dice_count.toNat,
          1 ≤ v ∧ v ≤ sample_round.options.max_dice_value) ∧
      ∃ out, summary_results_totals sample_round = some out ∧
        out.length = sample_round.options.max_dice_value.toNat ∧
        ∀ f : Int, 1 ≤ f → f ≤ sample_round.options.max_dice_value →
          out[(f - 1).toNat]? =
            some (if f = 1 ∨ sample_round.palifico_round = true then
                dice_showing sample_round.players f
              else dice_showing sample_round.players f + dice_showing sample_round.players 1) :=
  ⟨⟨by decide!, by decide!⟩,
    summary_results_counts sample_round (by decide!) (by decide!)⟩

/-! ## The statistics -/

/-- A record that does not count is skipped by the loop of load_stats. -/
theorem load_stats_record_skips (j_result : cJSON) (s : tfdg_stats)
    (h : record_counts j_result = false) : load_stats_record j_result s = some s := by
  unfold load_stats_record
  unfold record_counts at h
  cases hd : cJSON_GetObjectItem j_result "duration" with
  | none => rfl
  | some j_duration =>
    rw [hd] at h
    simp only
    by_cases hlt : cJSON_valuedouble j_duration < 100
    · rw [if_pos hlt]
    · rw [if_neg hlt]
      cases hr : cJSON_GetObjectItem j_result "result" with
      | none => rfl
      | some j_res =>
        rw [hr] at h
        cases j_res with
        | string valuestring =>
          simp only
          by_cases hs : valuestring = "game-over"
          · exfalso
            cases j_duration with
            | number d =>
              simp only [cJSON_valuedouble, not_lt] at hlt
              simp [hlt, hs] at h
            | null => exact hlt (show (0 : Int) < 100 by decide)
            | bool b => exact hlt (show (0 : Int) < 100 by decide)
            | string v => exact hlt (show (0 : Int) < 100 by decide)
            | array items => exact hlt (show (0 : Int) < 100 by decide)
            | object members => exact hlt (show (0 : Int) < 100 by decide)
          · rw [if_pos hs]
        | null => rfl
        | bool b => rfl
        | number v => rfl
        | array items => rfl
        | object members => rfl

/-- C33: a finished-game record that does not count (its duration is
missing, no number or below 100, or its result is missing or not "game-over")
can be added to or removed from the list of records at any place without
changing the statistics that load_stats computes, from any statistics it starts
with: every counter, histogram and maximum is the same. -/
theorem load_stats_ignores_uncounted (before after : List cJSON) (j_result : cJSON)
    (s : tfdg_stats) (h : record_counts j_result = false) :
    load_stats (before ++ j_result :: after) s = load_stats (before ++ after) s := by
  induction before generalizing s with
  | nil =>
    show (load_stats_record j_result s).bind (load_stats after) = load_stats after s
    rw [load_stats_record_skips j_result s h]
    rfl
  | cons j0 rest ih =>
    show (load_stats_record j0 s).bind (load_stats (rest ++ j_result :: after)) =
      (load_stats_record j0 s).bind (load_stats (rest ++ after))
    cases load_stats_record j0 s with
    | none => rfl
    | some s1 => exact ih s1

/-- A record of 99 seconds between two others. -/
theorem load_stats_ignores_uncounted_witness :
    record_counts (sample_record 99 "game-over") = false ∧
      load_stats ([sample_record 100 "game-over"] ++ sample_record 99 "game-over" ::
          [sample_record 500 "expire"]) stats_init =
        load_stats ([sample_record 100 "game-over"] ++ [sample_record 500 "expire"])
          stats_init :=
  ⟨by decide!,
    load_stats_ignores_uncounted [sample_record 100 "game-over"] [sample_record 500 "expire"]
      (sample_record 99 "game-over") stats_init (by decide!)⟩

/-- C34, evaluated on the statistics at first startup, where every
counter is zero: publish_stats divides by the zero total of the calza outcomes,
of the dudo outcomes, and of the dice-count, dice-value and thrown-dice
histograms (41 entries); only the duration entry is guarded by a test of its
divisor.  After the first finished game, in which nobody has called calza, the
two calza percentages still divide by zero. -/
theorem publish_stats_divides_by_zero :
    publish_stats stats_init =
        { calza_success := none, calza_fail := none, dudo_success := none, dudo_fail := none,
          players := [], durations := [some 0], dice_count := List.replicate 21 none,
          dice_values := List.replicate 10 none,
          thrown_dice_values := List.replicate 10 none } ∧
      (served_room game_finished).map
          (fun r => ((publish_stats (room_add_to_stats r.last_event r stats_init)).calza_success,
            (publish_stats (room_add_to_stats r.last_event r stats_init)).calza_fail,
            (publish_stats (room_add_to_stats r.last_event r stats_init)).dudo_fail,
            (publish_stats (room_add_to_stats r.last_event r stats_init)).players)) =
        some (none, none, some 100, [some 100]) := by
  decide!

/-- C37, evaluated on the game of players 1 and 2 with max-dice 5 that
is started at time 1000 and won at time 1100.  Finalizing the room
(room_add_to_stats) adds the duration 100 to the duration bucket 2, the player
count, and leaves max_duration 0; replaying the record that add_room_to_stats
writes for the same room at the same time (load_stats) adds it to the bucket
10 = 2 * 5 and sets max_duration to 10.  The other buckets agree. -/
theorem finalize_and_replay_differ :
    (served_room game_finished).map
        (fun r => (r.state, r.player_count, r.options.max_dice, r.start_time, r.last_event)) =
        some (tgs_game_over, 2, 5, 1000, 1100) ∧
      (served_room game_finished).map
          (fun r => view_stats (room_add_to_stats r.last_event r stats_init)) =
        some { durations_2 := 100, duration_counts_2 := 1, durations_10 := 0,
               duration_counts_10 := 0, players_2 := 1, dice_count_5 := 1, dice_values_6 := 1,
               thrown_1 := 40, thrown_2 := 0, dudo_fail := 5, max_players := 2,
               max_duration := 0 } ∧
      (served_room game_finished).map
          (fun r => (load_stats
            (add_room_to_stats r.last_event "2020-05-01T20:00:00" r "game-over" [])
            stats_init).map view_stats) =
        some (some { durations_2 := 0, duration_counts_2 := 0, durations_10 := 100,
                     duration_counts_10 := 1, players_2 := 1, dice_count_5 := 1,
                     dice_values_6 := 1, thrown_1 := 40, thrown_2 := 0, dudo_fail := 5,
                     max_players := 2, max_duration := 10 }) := by
  decide!

/-! ## The sweep of the room directory -/

/-- The loop of tfdg_expire_rooms: `kept` are the rooms already visited and
left in the directory, `rest` the rooms still to visit. -/
theorem expire_rooms_fold (now room_expiry_time : Int) (timestr : String) :
    ∀ (rest kept : List tfdg_room) (j_stats_games : List cJSON),
      (∀ r ∈ kept, ¬ now > r.last_event + room_expiry_time) →
      (rest.foldl
        (fun acc r =>
          if now > r.last_event + room_expiry_time then
            cleanup_room now timestr acc r "expire"
          else acc)
        { room_by_uuid := kept ++ rest, j_stats_games := j_stats_games }).room_by_uuid =
        kept ++ rest.filter (fun r => decide (now ≤ r.last_event + room_expiry_time)) := by
  intro rest
  induction rest with
  | nil =>
    intro kept g _
    simp
  | cons r rest ih =>
    intro kept g hkept
    rw [List.foldl_cons]
    by_cases hexp : now > r.last_event + room_expiry_time
    · have hnot : r ∉ kept := fun hm => hkept r hm hexp
      have herase : (kept ++ r :: rest).erase r = kept ++ rest := by
        rw [List.erase_append_right _ hnot, List.erase_cons_head]
      have hclean : cleanup_room now timestr
          { room_by_uuid := kept ++ r :: rest, j_stats_games := g } r "expire" =
          { room_by_uuid := kept ++ rest,
            j_stats_games := add_room_to_stats now timestr r "expire" g } := by
        unfold cleanup_room
        simp only [herase]
      rw [if_pos hexp, hclean, ih kept _ hkept, List.filter_cons_of_neg (by simpa using hexp)]
    · have hkept2 : ∀ q ∈ kept ++ [r], ¬ now > q.last_event + room_expiry_time := by
        intro q hq
        rcases List.mem_append.mp hq with hq | hq
        · exact hkept q hq
        · rw [List.mem_singleton.mp hq]
          exact hexp
      have happ : kept ++ r :: rest = (kept ++ [r]) ++ rest := by simp
      rw [if_neg hexp, happ, ih (kept ++ [r]) g hkept2,
        List.filter_cons_of_pos (by simpa using hexp)]
      simp

/-- C35: for every directory of rooms, time now and expiry window, the
directory after tfdg_expire_rooms holds exactly the rooms it held before whose
last event is not older than the window (now <= last_event + window), in the
same order and each as it was; a room is in the directory afterwards exactly
when it was there before and has not expired. -/
theorem expire_rooms_keeps_fresh (now room_expiry_time : Int) (timestr : String)
    (t : server_tables) :
    (tfdg_expire_rooms now room_expiry_time timestr t).room_by_uuid =
        t.room_by_uuid.filter (fun r => decide (now ≤ r.last_event + room_expiry_time)) ∧
      ∀ r, r ∈ (tfdg_expire_rooms now room_expiry_time timestr t).room_by_uuid ↔
        (r ∈ t.room_by_uuid ∧ now ≤ r.last_event + room_expiry_time) := by
  have key : (tfdg_expire_rooms now room_expiry_time timestr t).room_by_uuid =
      t.room_by_uuid.filter (fun r => decide (now ≤ r.last_event + room_expiry_time)) := by
    have h := expire_rooms_fold now room_expiry_time timestr t.room_by_uuid []
      t.j_stats_games (fun _ hm => absurd hm (List.not_mem_nil _))
    simpa [tfdg_expire_rooms] using h
  refine ⟨key, ?_⟩
  intro r
  rw [key, List.mem_filter]
  simp

/-- The sweep at time 10000 with a window of 3600 seconds over three rooms whose
last events were at 1000, 5000 and 9000: the third room stays, and the two
rooms that go leave a record each. -/
theorem expire_rooms_sample :
    (tfdg_expire_rooms 10000 3600 "2020-05-01T20:00:00" sample_tables).room_by_uuid.map
        (fun r => (r.uuid, r.last_event)) = [("00000000-0000-0000-0000-00000000000b", 9000)] ∧
      (tfdg_expire_rooms 10000 3600 "2020-05-01T20:00:00" sample_tables).j_stats_games.length
        = 2 := by
  decide!

end Tfdg
